import Mathlib

/-! # mc-plugin: connection supervisors and the handlers that use them

A shallow embedding of `components/Rcon.js`, `components/WebSocket.js`,
`apps/Shutdown.js` and `apps/ExecuteCommand.js`.

Each manager class becomes a record holding the dictionaries of the class
(`activeConnections`/`activeSockets`, `connectionStates`, `reconnectTimers`,
`reconnectAttempts`) together with the part of the JavaScript runtime the
class talks to: the armed `setTimeout` callbacks, the connection objects whose
outcome is still awaited, and the connection objects that carry event
handlers.  Every method is a function from manager to manager.  Code that runs
later (the code after an `await`, an event handler, a timer callback) is a
function of its own, and the type `Event` lists what the event loop or a
caller can run next; `step` runs one event and `run` a sequence of events on a
fresh instance.

Conventions:
* a dictionary is a function from server name to `Option`, giving the entries
  of the table itself.  The tables are plain objects, which inherit the members
  of `Object.prototype`: `getConnectionStatus` and the connect loops of the two
  constructors read them through `Dict.truthy` and `Dict.getOr`, which take the
  inherited members into account; the other methods are embedded for server
  names that `Object.prototype` does not define;
* connection objects and timeouts are numbered in order of creation;
* `Config.getConfig()` is an argument of the methods that call it, so it may
  return a different configuration at every call;
* a closure keeps the profile object it captured; the event `profileChanged`
  is the configuration collaborator changing that object;
* log output is left out.
-/

/-! ## Shared data model -/

/-- The constants of `CONNECTION_STATES`. -/
inductive ConnectionState where
  | DISCONNECTED
  | CONNECTING
  | CONNECTED
  | RECONNECTING
  | FAILED
  deriving DecidableEq, Repr

/-- One entry of `mc_qq_server_list`.  A string field that is absent in the
configuration is the empty string, a numeric one is `0` (both falsy in
JavaScript), except for the two `*_max_attempts` fields, whose absence is
`none`. -/
structure ServerCfg where
  server_name : String
  rcon_able : Bool
  rcon_host : String
  rcon_port : Nat
  rcon_password : String
  rcon_max_attempts : Option Nat
  ws_able : Bool
  ws_url : String
  ws_password : String
  ws_max_attempts : Option Nat
  /-- the chat groups bound to the server, as decimal text; `none` when absent -/
  group_list : Option (List String)
  /-- the users allowed to run commands, as decimal text; `none` when absent -/
  command_user : Option (List String)
  deriving DecidableEq, Repr

/-- The object returned by `Config.getConfig()`, restricted to the fields
the two managers read. -/
structure Config where
  mc_qq_server_list : Option (List ServerCfg)
  debug_mode : Bool
  mc_qq_ws_server : Bool
  mc_qq_ws_port : Nat
  mc_qq_ws_url : String
  mc_qq_ws_password : String
  deriving DecidableEq, Repr

/-- A JavaScript object used as a dictionary keyed by server name. -/
abbrev Dict (α : Type) := String → Option α

/-- The empty object `{}`: no entries of its own. -/
def Dict.empty {α : Type} : Dict α := fun _ => none

/-- Assignment `d[k] = v`. -/
def Dict.set {α : Type} (d : Dict α) (k : String) (v : α) : Dict α :=
  fun x => if x = k then some v else d x

/-- Statement `delete d[k]`. -/
def Dict.delete {α : Type} (d : Dict α) (k : String) : Dict α :=
  fun x => if x = k then none else d x

/-- The property names that every plain object `{}` inherits from
`Object.prototype`; each of these members is a function or an object, hence
truthy. -/
def objectPrototypeNames : List String :=
  ["constructor", "__defineGetter__", "__defineSetter__", "hasOwnProperty",
   "__lookupGetter__", "__lookupSetter__", "isPrototypeOf", "propertyIsEnumerable",
   "toString", "valueOf", "__proto__", "toLocaleString"]

/-- What an expression `d[k] || v` on a plain object `d` evaluates to: a value
of the table or the default `v`, or, when the table has no entry of its own
under a name of `objectPrototypeNames`, the inherited member of that name. -/
inductive Value (α : Type) where
  | data (value : α)
  | inherited (name : String)
  deriving DecidableEq, Repr

/-- Expression `!!d[k]` for a plain object `d` whose own values are objects. -/
def Dict.truthy {α : Type} (d : Dict α) (k : String) : Bool :=
  (d k).isSome || objectPrototypeNames.contains k

/-- Expression `d[k] || v` for a plain object `d` whose own values are either
truthy or equal to `v`. -/
def Dict.getOr {α : Type} (d : Dict α) (k : String) (v : α) : Value α :=
  match d k with
  | some x => Value.data x
  | none => if objectPrototypeNames.contains k then Value.inherited k else Value.data v

/-- Assignment `d[k] = v` of an object `v` to a plain object `d`: under the
name `__proto__` it replaces the prototype of `d` and adds no entry. -/
def Dict.setObject {α : Type} (d : Dict α) (k : String) (v : α) : Dict α :=
  if k = "__proto__" then d else Dict.set d k v

/-- The object returned by `setTimeout` for a reconnect callback: the
closure captures `serverCfg` (and, for WebSocket, `globalDebug`). -/
structure Timeout where
  id : Nat
  delay : Nat
  serverCfg : ServerCfg
  globalDebug : Bool
  deriving DecidableEq, Repr

/-- Modelled from the spec: the profile object `serverCfg` as a closure reads it
after the configuration collaborator has changed the profile of that name to
`changed` (§3: profiles are mutable by the config collaborator; §4.3: the
profile may have changed since scheduling).  The name identifies the profile
and stays. -/
def updateProfile (changed serverCfg : ServerCfg) : ServerCfg :=
  if serverCfg.server_name = changed.server_name then changed else serverCfg

/-- The timeout object `t` after such a change: its callback reads the
changed profile. -/
def Timeout.afterChange (changed : ServerCfg) (t : Timeout) : Timeout :=
  { t with serverCfg := updateProfile changed t.serverCfg }

/-- Expression `serverCfg.rcon_max_attempts || 3` (same for `ws_max_attempts`):
an absent or zero value gives `3`. -/
def orThree : Option Nat → Nat
  | some (n + 1) => n + 1
  | _ => 3

/-- Expression `config.mc_qq_server_list?.find(s => s.server_name === serverName)`. -/
def findServerCfg (config : Config) (serverName : String) : Option ServerCfg :=
  match config.mc_qq_server_list with
  | none => none
  | some l => l.find? (fun s => s.server_name == serverName)

/-! ## `components/Rcon.js` -/

/-- The fields of `class RconManager`, followed by the runtime state it
interacts with.  An `Rcon` client object is identified by a number. -/
structure RconManager where
  activeConnections : Dict Nat
  connectionStates : Dict ConnectionState
  reconnectTimers : Dict Timeout
  reconnectAttempts : Dict Nat
  /-- armed and not yet cancelled `setTimeout` callbacks of `_scheduleReconnect` -/
  timeouts : List Timeout
  nextTimeout : Nat
  /-- clients created by `_establishConnection` whose `connect()` is awaited -/
  awaited : List (Nat × ServerCfg)
  /-- clients on which the `end` and `error` handlers are registered -/
  listening : List (Nat × ServerCfg)
  nextRcon : Nat

namespace RconManager

/-- The field initialisers of the constructor. -/
def new : RconManager :=
  { activeConnections := Dict.empty
    connectionStates := Dict.empty
    reconnectTimers := Dict.empty
    reconnectAttempts := Dict.empty
    timeouts := []
    nextTimeout := 0
    awaited := []
    listening := []
    nextRcon := 0 }

def _setConnectionState (serverName : String) (state : ConnectionState)
    (m : RconManager) : RconManager :=
  { m with connectionStates := Dict.set m.connectionStates serverName state }

def _getConnectionState (m : RconManager) (serverName : String) : ConnectionState :=
  (m.connectionStates serverName).getD ConnectionState.DISCONNECTED

/-- Runtime call `clearTimeout(t)`: the callback will not run. -/
def clearTimeout (t : Timeout) (m : RconManager) : RconManager :=
  { m with timeouts := m.timeouts.filter (fun u => u.id != t.id) }

/-- Runtime call `setTimeout(() => this._attemptReconnect(serverCfg), delay)`. -/
def setTimeout (serverCfg : ServerCfg) (delay : Nat) (m : RconManager) :
    Timeout × RconManager :=
  let t : Timeout := { id := m.nextTimeout, delay := delay, serverCfg := serverCfg,
                       globalDebug := false }
  (t, { m with timeouts := m.timeouts ++ [t], nextTimeout := m.nextTimeout + 1 })

def _cleanupConnection (serverName : String) (m : RconManager) : RconManager :=
  let m := if (m.activeConnections serverName).isSome then
      { m with activeConnections := Dict.delete m.activeConnections serverName }
    else m
  match m.reconnectTimers serverName with
  | some t =>
      let m := clearTimeout t m
      { m with reconnectTimers := Dict.delete m.reconnectTimers serverName }
  | none => m

def _calculateReconnectDelay (attempts : Nat) : Nat :=
  let baseDelay := 5000
  let maxDelay := 300000
  let delay := min (baseDelay * 2 ^ (min attempts 6)) maxDelay
  delay

def _scheduleReconnect (serverCfg : ServerCfg) (m : RconManager) : RconManager :=
  let serverName := serverCfg.server_name
  if (m.reconnectTimers serverName).isSome
      || _getConnectionState m serverName == ConnectionState.CONNECTING
      || _getConnectionState m serverName == ConnectionState.RECONNECTING then
    m
  else if !serverCfg.rcon_able then
    m
  else
    let attempts := (m.reconnectAttempts serverName).getD 0 + 1
    let m := { m with reconnectAttempts := Dict.set m.reconnectAttempts serverName attempts }
    let delay := _calculateReconnectDelay attempts
    let maxAttempts := orThree serverCfg.rcon_max_attempts
    if attempts ≤ maxAttempts then
      let m := _setConnectionState serverName ConnectionState.RECONNECTING m
      let (t, m) := setTimeout serverCfg delay m
      { m with reconnectTimers := Dict.set m.reconnectTimers serverName t }
    else
      let longTermDelay := 300000
      let (t, m) := setTimeout serverCfg longTermDelay m
      { m with reconnectTimers := Dict.set m.reconnectTimers serverName t }

/-- The synchronous part of `_establishConnection`, up to `await rcon.connect()`:
the new client is recorded as awaited. -/
def _establishConnection (serverCfg : ServerCfg) (isReconnect : Bool) (m : RconManager) :
    RconManager :=
  let serverName := serverCfg.server_name
  let currentState := _getConnectionState m serverName
  if currentState == ConnectionState.CONNECTING
      || currentState == ConnectionState.CONNECTED then
    m
  else
    let m := _setConnectionState serverName ConnectionState.CONNECTING m
    let m := if !isReconnect then
        { m with reconnectAttempts := Dict.set m.reconnectAttempts serverName 0 }
      else m
    { m with awaited := m.awaited ++ [(m.nextRcon, serverCfg)], nextRcon := m.nextRcon + 1 }

/-- The rest of the `try` block of `_establishConnection`, run when
`rcon.connect()` resolves. -/
def _establishConnection_resolved (rcon : Nat) (serverCfg : ServerCfg) (m : RconManager) :
    RconManager :=
  let serverName := serverCfg.server_name
  let m := { m with activeConnections := Dict.set m.activeConnections serverName rcon }
  let m := { m with reconnectAttempts := Dict.set m.reconnectAttempts serverName 0 }
  let m := _setConnectionState serverName ConnectionState.CONNECTED m
  { m with listening := m.listening ++ [(rcon, serverCfg)] }

/-- The `catch` block of `_establishConnection`, run when `rcon.connect()` rejects. -/
def _establishConnection_rejected (serverCfg : ServerCfg) (m : RconManager) : RconManager :=
  let serverName := serverCfg.server_name
  let m := _cleanupConnection serverName m
  let m := _setConnectionState serverName ConnectionState.FAILED m
  _scheduleReconnect serverCfg m

/-- The handler `rcon.on('end', ...)` registered by `_establishConnection`. -/
def _establishConnection_onEnd (serverCfg : ServerCfg) (m : RconManager) : RconManager :=
  let serverName := serverCfg.server_name
  let m := _cleanupConnection serverName m
  let m := _setConnectionState serverName ConnectionState.DISCONNECTED m
  _scheduleReconnect serverCfg m

/-- The handler `rcon.on('error', ...)` registered by `_establishConnection`. -/
def _establishConnection_onError (serverCfg : ServerCfg) (m : RconManager) : RconManager :=
  let serverName := serverCfg.server_name
  let m := _cleanupConnection serverName m
  let m := _setConnectionState serverName ConnectionState.DISCONNECTED m
  _scheduleReconnect serverCfg m

/-- The timer callback: `_establishConnection` is called with one argument, so
its `isReconnect` takes the default `false`. -/
def _attemptReconnect (serverCfg : ServerCfg) (m : RconManager) : RconManager :=
  let serverName := serverCfg.server_name
  let m := { m with reconnectTimers := Dict.delete m.reconnectTimers serverName }
  if !serverCfg.rcon_able then
    _setConnectionState serverName ConnectionState.DISCONNECTED m
  else
    _establishConnection serverCfg false m

/-- The constructor's `_initializeConnectionsAsync`; `config` is what
`Config.getConfig()` returns (`none` for a falsy value). -/
def _initializeConnectionsAsync (config : Option Config) (m : RconManager) : RconManager :=
  match config with
  | none => m
  | some config =>
    match config.mc_qq_server_list with
    | none => m
    | some rconServerList =>
      rconServerList.foldl (fun m serverCfg =>
        if serverCfg.rcon_able && serverCfg.rcon_host != "" && serverCfg.rcon_port != 0
            && serverCfg.rcon_password != "" && serverCfg.server_name != "" then
          if Dict.truthy m.activeConnections serverCfg.server_name then m
          else _establishConnection serverCfg false m
        else m) m

/-- Method `forceReconnect`, run up to the `await` inside `_establishConnection`,
paired with the boolean the method returns. -/
def forceReconnect (config : Config) (serverName : String) (m : RconManager) :
    RconManager × Bool :=
  match findServerCfg config serverName with
  | none => (m, false)
  | some serverCfg =>
    if !serverCfg.rcon_able then
      (m, false)
    else
      let m := _cleanupConnection serverName m
      let m := { m with reconnectAttempts := Dict.set m.reconnectAttempts serverName 0 }
      let m := _establishConnection serverCfg false m
      (m, true)

/-- One entry of the object returned by `getConnectionStatus`. -/
structure Status where
  state : Value ConnectionState
  connected : Bool
  reconnectAttempts : Value Nat
  hasReconnectTimer : Bool
  deriving DecidableEq, Repr

/-- Method `getConnectionStatus`: the entries of the result object.  All
tables are plain objects, so a name of `objectPrototypeNames` without entry of
its own reads as the inherited member. -/
def getConnectionStatus (config : Config) (m : RconManager) : Dict Status :=
  let serverList := config.mc_qq_server_list.getD []
  serverList.foldl (fun status serverCfg =>
    if serverCfg.rcon_able then
      let serverName := serverCfg.server_name
      Dict.setObject status serverName
        { state := Dict.getOr m.connectionStates serverName ConnectionState.DISCONNECTED
          connected := Dict.truthy m.activeConnections serverName
          reconnectAttempts := Dict.getOr m.reconnectAttempts serverName 0
          hasReconnectTimer := Dict.truthy m.reconnectTimers serverName }
    else status) Dict.empty

/-- The `catch` block inside the loop of `_performHeartbeatCheck`, for the
entry `serverName`; `config` is the value read at the start of the check,
whose `mc_qq_server_list` is present. -/
def _performHeartbeatCheck_catch (config : Config) (serverName : String) (m : RconManager) :
    RconManager :=
  if (m.activeConnections serverName).isSome then
    match findServerCfg config serverName with
    | some serverCfg =>
      let m := _cleanupConnection serverName m
      let m := _setConnectionState serverName ConnectionState.DISCONNECTED m
      _scheduleReconnect serverCfg m
    | none => m
  else m

/-- What can happen to a manager: a method call from outside or a callback
run by the event loop. -/
inductive Event where
  /-- the constructor's call of `_initializeConnectionsAsync` -/
  | construct (config : Option Config)
  /-- `rcon.connect()` of an awaited client resolves -/
  | connectResolved (rcon : Nat)
  /-- `rcon.connect()` of an awaited client rejects -/
  | connectRejected (rcon : Nat)
  /-- a client with handlers emits `end` -/
  | rconEnd (rcon : Nat)
  /-- a client with handlers emits `error` -/
  | rconError (rcon : Nat)
  /-- the heartbeat of `serverName` fails (timeout or `send` rejects) -/
  | heartbeatFailed (config : Config) (serverName : String)
  /-- the armed timeout `id` fires -/
  | timeout (id : Nat)
  /-- a caller invokes `forceReconnect` -/
  | forceReconnect (config : Config) (serverName : String)
  /-- the configuration collaborator changes the profile named
  `serverCfg.server_name` to `serverCfg` -/
  | profileChanged (serverCfg : ServerCfg)
  deriving DecidableEq, Repr

/-- Calls of `forceReconnect`. -/
def Event.isForceReconnect : Event → Bool
  | Event.forceReconnect _ _ => true
  | _ => false

/-- Events that leave every captured profile RCON-enabled: all but a change
of a profile to one with `rcon_able` off. -/
def Event.keepsEnabled : Event → Bool
  | Event.profileChanged serverCfg => serverCfg.rcon_able
  | _ => true

/-- Modelled from the spec: the effect of a changed profile on the manager.
The manager has no field for profiles; the closures that captured the profile
of that name (reconnect timeouts, the `catch` block of an awaited connect, the
`end` and `error` handlers) read the changed one from now on. -/
def profileChanged (serverCfg : ServerCfg) (m : RconManager) : RconManager :=
  { m with
    timeouts := m.timeouts.map (Timeout.afterChange serverCfg)
    reconnectTimers := fun n => (m.reconnectTimers n).map (Timeout.afterChange serverCfg)
    awaited := m.awaited.map (fun p => (p.1, updateProfile serverCfg p.2))
    listening := m.listening.map (fun p => (p.1, updateProfile serverCfg p.2)) }

/-- Run one event.  An event that cannot occur in the current state (an
unknown client or timeout) leaves the manager unchanged. -/
def step (m : RconManager) : Event → RconManager
  | Event.construct config => _initializeConnectionsAsync config m
  | Event.connectResolved rcon =>
    match m.awaited.find? (fun p => p.1 == rcon) with
    | some (_, serverCfg) =>
      _establishConnection_resolved rcon serverCfg
        { m with awaited := m.awaited.filter (fun p => p.1 != rcon) }
    | none => m
  | Event.connectRejected rcon =>
    match m.awaited.find? (fun p => p.1 == rcon) with
    | some (_, serverCfg) =>
      _establishConnection_rejected serverCfg
        { m with awaited := m.awaited.filter (fun p => p.1 != rcon) }
    | none => m
  | Event.rconEnd rcon =>
    match m.listening.find? (fun p => p.1 == rcon) with
    | some (_, serverCfg) => _establishConnection_onEnd serverCfg m
    | none => m
  | Event.rconError rcon =>
    match m.listening.find? (fun p => p.1 == rcon) with
    | some (_, serverCfg) => _establishConnection_onError serverCfg m
    | none => m
  | Event.heartbeatFailed config serverName =>
    match config.mc_qq_server_list with
    | some _ => _performHeartbeatCheck_catch config serverName m
    | none => m
  | Event.timeout id =>
    match m.timeouts.find? (fun t => t.id == id) with
    | some t =>
      _attemptReconnect t.serverCfg
        { m with timeouts := m.timeouts.filter (fun u => u.id != id) }
    | none => m
  | Event.forceReconnect config serverName => (forceReconnect config serverName m).1
  | Event.profileChanged serverCfg => profileChanged serverCfg m

/-- The manager after a sequence of events, starting from a fresh instance. -/
def run (events : List Event) : RconManager :=
  events.foldl step new

end RconManager

/-! ## `components/WebSocket.js` -/

/-- The `readyState` of a `ws` socket object. -/
inductive ReadyState where
  | CONNECTING
  | OPEN
  | CLOSING
  | CLOSED
  deriving DecidableEq, Repr

/-- The headers of the upgrade request that the inbound listener reads;
`none` is a header that was not sent. -/
structure Request where
  x_self_name : Option String
  authorization : Option String
  deriving DecidableEq, Repr

/-- String conversion of a header value passed to `decodeURIComponent`:
`undefined` becomes the text `undefined`. -/
def headerToString : Option String → String
  | some s => s
  | none => "undefined"

/-- Value of a hexadecimal digit. -/
def hexValue (c : Char) : Option Nat :=
  if 48 ≤ c.toNat && c.toNat ≤ 57 then some (c.toNat - 48)
  else if 97 ≤ c.toNat && c.toNat ≤ 102 then some (c.toNat - 87)
  else if 65 ≤ c.toNat && c.toNat ≤ 70 then some (c.toNat - 55)
  else none

/-- The decoding loop of the built-in `decodeURIComponent`.  `need` is the
number of continuation bytes still expected, `cp` the code point bits read so
far and `lo` the least code point the current sequence may encode.  `none`
stands for a thrown `URIError`. -/
def decodeURIComponentAux (need cp lo : Nat) : List Char → Option (List Char)
  | [] => if need = 0 then some [] else none
  | c :: rest =>
    if c = Char.ofNat 37 then
      match rest with
      | h :: l :: rest2 =>
        match hexValue h, hexValue l with
        | some a, some b =>
          let byte := 16 * a + b
          if need = 0 then
            if byte < 128 then
              (decodeURIComponentAux 0 0 0 rest2).map (fun out => Char.ofNat byte :: out)
            else if 192 ≤ byte && byte < 224 then decodeURIComponentAux 1 (byte % 32) 128 rest2
            else if 224 ≤ byte && byte < 240 then decodeURIComponentAux 2 (byte % 16) 2048 rest2
            else if 240 ≤ byte && byte < 248 then decodeURIComponentAux 3 (byte % 8) 65536 rest2
            else none
          else if 128 ≤ byte && byte < 192 then
            let cp2 := cp * 64 + byte % 64
            if need = 1 then
              if lo ≤ cp2 && cp2 ≤ 1114111 && !(55296 ≤ cp2 && cp2 ≤ 57343) then
                (decodeURIComponentAux 0 0 0 rest2).map (fun out => Char.ofNat cp2 :: out)
              else none
            else decodeURIComponentAux (need - 1) cp2 lo rest2
          else none
        | _, _ => none
      | _ => none
    else if need = 0 then
      (decodeURIComponentAux 0 0 0 rest).map (fun out => c :: out)
    else none

/-- The built-in `decodeURIComponent`; `none` stands for a thrown `URIError`. -/
def decodeURIComponent (s : String) : Option String :=
  (decodeURIComponentAux 0 0 0 s.toList).map String.mk

/-- The characters matched by `\s` in a JavaScript regular expression. -/
def isWhiteSpace (c : Char) : Bool :=
  [9, 10, 11, 12, 13, 32, 160, 5760, 8232, 8233, 8239, 8287, 12288, 65279].contains c.toNat
    || (8192 ≤ c.toNat && c.toNat ≤ 8202)

/-- The call `authToken.replace(/^Bearer\s*/i, '')`. -/
def replaceBearer (authToken : String) : String :=
  match authToken.toList with
  | c1 :: c2 :: c3 :: c4 :: c5 :: c6 :: rest =>
    if [c1.toLower, c2.toLower, c3.toLower, c4.toLower, c5.toLower, c6.toLower]
        = ['b', 'e', 'a', 'r', 'e', 'r'] then
      String.mk (rest.dropWhile isWhiteSpace)
    else authToken
  | _ => authToken

/-- The fields of `class WebSocketManager`, followed by the runtime state it
interacts with.  A socket object is identified by a number. -/
structure WebSocketManager where
  activeSockets : Dict Nat
  connectionStates : Dict ConnectionState
  reconnectTimers : Dict Timeout
  reconnectAttempts : Dict Nat
  lastPingTime : Dict Nat
  /-- armed and not yet cancelled `setTimeout` callbacks of `_scheduleReconnect` -/
  timeouts : List Timeout
  /-- armed and not yet cancelled pong timeouts of `_performHeartbeatCheck`:
  timeout id, captured `config` and `serverName` -/
  pongTimeouts : List (Nat × Config × String)
  /-- registered `onPong` listeners: socket and the timeout id each one clears -/
  pongListeners : List (Nat × Nat)
  nextTimeout : Nat
  /-- `readyState` of every socket object -/
  readyState : Nat → ReadyState
  /-- the calls `ws.close(code)` made so far, oldest first -/
  closeCalls : List (Nat × Option Nat)
  /-- outbound sockets with their handlers' captured `serverCfg` and `globalDebug` -/
  clients : List (Nat × ServerCfg × Bool)
  /-- accepted inbound sockets with their handlers' captured `remoteName` -/
  peers : List (Nat × String)
  /-- `wsPassword` and `debugMode` captured by a running local server -/
  localServer : Option (String × Bool)
  /-- whether `new WebSocket(url, ...)` throws for a given url -/
  urlRejected : String → Bool
  nextSocket : Nat

namespace WebSocketManager

/-- The field initialisers of the constructor. -/
def new (urlRejected : String → Bool) : WebSocketManager :=
  { activeSockets := Dict.empty
    connectionStates := Dict.empty
    reconnectTimers := Dict.empty
    reconnectAttempts := Dict.empty
    lastPingTime := Dict.empty
    timeouts := []
    pongTimeouts := []
    pongListeners := []
    nextTimeout := 0
    readyState := fun _ => ReadyState.CONNECTING
    closeCalls := []
    clients := []
    peers := []
    localServer := none
    urlRejected := urlRejected
    nextSocket := 0 }

def _setConnectionState (serverName : String) (state : ConnectionState)
    (m : WebSocketManager) : WebSocketManager :=
  { m with connectionStates := Dict.set m.connectionStates serverName state }

def _getConnectionState (m : WebSocketManager) (serverName : String) : ConnectionState :=
  (m.connectionStates serverName).getD ConnectionState.DISCONNECTED

/-- Runtime call `clearTimeout(t)`: the callback will not run. -/
def clearTimeout (t : Timeout) (m : WebSocketManager) : WebSocketManager :=
  { m with timeouts := m.timeouts.filter (fun u => u.id != t.id) }

/-- Runtime call `setTimeout(() => this._attemptReconnect(serverCfg, globalDebug), delay)`. -/
def setTimeout (serverCfg : ServerCfg) (globalDebug : Bool) (delay : Nat)
    (m : WebSocketManager) : Timeout × WebSocketManager :=
  let t : Timeout := { id := m.nextTimeout, delay := delay, serverCfg := serverCfg,
                       globalDebug := globalDebug }
  (t, { m with timeouts := m.timeouts ++ [t], nextTimeout := m.nextTimeout + 1 })

/-- Library call `ws.close(code)`: the call is recorded, and an open or
connecting socket starts closing. -/
def socketClose (ws : Nat) (code : Option Nat) (m : WebSocketManager) : WebSocketManager :=
  { m with
    closeCalls := m.closeCalls ++ [(ws, code)]
    readyState := fun x =>
      if x = ws then
        (if m.readyState ws = ReadyState.OPEN ∨ m.readyState ws = ReadyState.CONNECTING then
          ReadyState.CLOSING else m.readyState ws)
      else m.readyState x }

def _cleanupConnection (serverName : String) (m : WebSocketManager) : WebSocketManager :=
  let m := match m.activeSockets serverName with
    | some ws =>
      let m := if m.readyState ws = ReadyState.OPEN ∨ m.readyState ws = ReadyState.CONNECTING then
          socketClose ws none m
        else m
      { m with activeSockets := Dict.delete m.activeSockets serverName }
    | none => m
  match m.reconnectTimers serverName with
  | some t =>
      let m := clearTimeout t m
      { m with reconnectTimers := Dict.delete m.reconnectTimers serverName }
  | none => m

def _calculateReconnectDelay (attempts : Nat) : Nat :=
  let baseDelay := 5000
  let maxDelay := 300000
  let delay := min (baseDelay * 2 ^ (min attempts 6)) maxDelay
  delay

def _scheduleReconnect (serverCfg : ServerCfg) (globalDebug : Bool) (m : WebSocketManager) :
    WebSocketManager :=
  let serverName := serverCfg.server_name
  if (m.reconnectTimers serverName).isSome
      || _getConnectionState m serverName == ConnectionState.CONNECTING
      || _getConnectionState m serverName == ConnectionState.RECONNECTING then
    m
  else if !serverCfg.ws_able then
    m
  else
    let attempts := (m.reconnectAttempts serverName).getD 0 + 1
    let m := { m with reconnectAttempts := Dict.set m.reconnectAttempts serverName attempts }
    let delay := _calculateReconnectDelay attempts
    let maxAttempts := orThree serverCfg.ws_max_attempts
    if attempts ≤ maxAttempts then
      let m := _setConnectionState serverName ConnectionState.RECONNECTING m
      let (t, m) := setTimeout serverCfg globalDebug delay m
      { m with reconnectTimers := Dict.set m.reconnectTimers serverName t }
    else
      let longTermDelay := 300000
      let (t, m) := setTimeout serverCfg globalDebug longTermDelay m
      { m with reconnectTimers := Dict.set m.reconnectTimers serverName t }

/-- Method `_establishClientConnection`: it runs to its end synchronously,
leaving a socket with handlers, or runs the `catch` block when the
constructor `new WebSocket` throws. -/
def _establishClientConnection (serverCfg : ServerCfg) (globalDebug : Bool)
    (isReconnect : Bool) (m : WebSocketManager) : WebSocketManager :=
  let serverName := serverCfg.server_name
  let currentState := _getConnectionState m serverName
  if currentState == ConnectionState.CONNECTING
      || currentState == ConnectionState.CONNECTED then
    m
  else
    let m := _setConnectionState serverName ConnectionState.CONNECTING m
    let m := if !isReconnect then
        { m with reconnectAttempts := Dict.set m.reconnectAttempts serverName 0 }
      else m
    if m.urlRejected serverCfg.ws_url then
      let m := _cleanupConnection serverName m
      let m := _setConnectionState serverName ConnectionState.FAILED m
      _scheduleReconnect serverCfg globalDebug m
    else
      let ws := m.nextSocket
      { m with
        clients := m.clients ++ [(ws, serverCfg, globalDebug)]
        readyState := fun x => if x = ws then ReadyState.CONNECTING else m.readyState x
        nextSocket := m.nextSocket + 1 }

/-- The handler `ws.on('open', ...)` of an outbound socket. -/
def _establishClientConnection_onOpen (ws : Nat) (serverCfg : ServerCfg)
    (m : WebSocketManager) : WebSocketManager :=
  let serverName := serverCfg.server_name
  let m := { m with activeSockets := Dict.set m.activeSockets serverName ws }
  let m := { m with reconnectAttempts := Dict.set m.reconnectAttempts serverName 0 }
  _setConnectionState serverName ConnectionState.CONNECTED m

/-- The handler `ws.on('close', ...)` of an outbound socket. -/
def _establishClientConnection_onClose (serverCfg : ServerCfg) (globalDebug : Bool)
    (code : Nat) (m : WebSocketManager) : WebSocketManager :=
  let serverName := serverCfg.server_name
  let m := _cleanupConnection serverName m
  let m := _setConnectionState serverName ConnectionState.DISCONNECTED m
  if code ≠ 1000 then _scheduleReconnect serverCfg globalDebug m else m

/-- The handler `ws.on('error', ...)` of an outbound socket. -/
def _establishClientConnection_onError (serverCfg : ServerCfg) (globalDebug : Bool)
    (m : WebSocketManager) : WebSocketManager :=
  let serverName := serverCfg.server_name
  let m := _cleanupConnection serverName m
  let m := _setConnectionState serverName ConnectionState.FAILED m
  _scheduleReconnect serverCfg globalDebug m

def _attemptReconnect (serverCfg : ServerCfg) (globalDebug : Bool) (m : WebSocketManager) :
    WebSocketManager :=
  let serverName := serverCfg.server_name
  let m := { m with reconnectTimers := Dict.delete m.reconnectTimers serverName }
  if !serverCfg.ws_able then
    _setConnectionState serverName ConnectionState.DISCONNECTED m
  else
    _establishClientConnection serverCfg globalDebug true m

/-- The handler `wss.on('connection', ...)` of `_startLocalServer`, for the
new socket `ws`; `wsPassword` is the value captured when the server started.
A `URIError` thrown by `decodeURIComponent` is caught by the `catch` block. -/
def _startLocalServer_onConnection (wsPassword : String) (ws : Nat) (request : Request)
    (m : WebSocketManager) : WebSocketManager :=
  let onError (m : WebSocketManager) : WebSocketManager :=
    if m.readyState ws = ReadyState.OPEN then socketClose ws (some 1011) m else m
  match decodeURIComponent (headerToString request.x_self_name) with
  | none => onError m
  | some remoteName =>
    match decodeURIComponent (headerToString request.authorization) with
    | none => onError m
    | some authToken =>
      let authToken := replaceBearer authToken
      if remoteName = "" then
        socketClose ws (some 1008) m
      else if wsPassword ≠ "" ∧ authToken ≠ wsPassword then
        socketClose ws (some 1008) m
      else if (m.activeSockets remoteName).isSome then
        socketClose ws (some 1000) m
      else
        { m with
          activeSockets := Dict.set m.activeSockets remoteName ws
          peers := m.peers ++ [(ws, remoteName)] }

/-- The handlers `ws.on('close', ...)` and `ws.on('error', ...)` of an
accepted inbound socket: both run `delete this.activeSockets[remoteName]`. -/
def _startLocalServer_onPeerGone (remoteName : String) (m : WebSocketManager) :
    WebSocketManager :=
  { m with activeSockets := Dict.delete m.activeSockets remoteName }

/-- Method `_startLocalServer`: the listener runs when port and path are set. -/
def _startLocalServer (config : Config) (m : WebSocketManager) : WebSocketManager :=
  if config.mc_qq_ws_port = 0 ∨ config.mc_qq_ws_url = "" then m
  else { m with localServer := some (config.mc_qq_ws_password, config.debug_mode) }

def _connectToRemoteServers (config : Config) (m : WebSocketManager) : WebSocketManager :=
  match config.mc_qq_server_list with
  | none => m
  | some remoteServers =>
    remoteServers.foldl (fun m serverCfg =>
      if serverCfg.ws_able && serverCfg.ws_url != "" && serverCfg.server_name != "" then
        if Dict.truthy m.activeSockets serverCfg.server_name then m
        else _establishClientConnection serverCfg config.debug_mode false m
      else m) m

/-- The constructor's `_initializeAsync`; `config` is what `Config.getConfig()`
returns (`none` for a falsy value). -/
def _initializeAsync (config : Option Config) (m : WebSocketManager) : WebSocketManager :=
  match config with
  | none => m
  | some config =>
    let m := if config.mc_qq_ws_server then _startLocalServer config m else m
    _connectToRemoteServers config m

/-- Method `forceReconnect`, paired with the boolean it returns. -/
def forceReconnect (config : Config) (serverName : String) (m : WebSocketManager) :
    WebSocketManager × Bool :=
  match findServerCfg config serverName with
  | none => (m, false)
  | some serverCfg =>
    if !serverCfg.ws_able then
      (m, false)
    else
      let m := _cleanupConnection serverName m
      let m := { m with reconnectAttempts := Dict.set m.reconnectAttempts serverName 0 }
      let globalDebug := config.debug_mode
      let m := _establishClientConnection serverCfg globalDebug false m
      (m, true)

/-- One entry of the object returned by `getConnectionStatus`. -/
structure Status where
  state : Value ConnectionState
  connected : Bool
  reconnectAttempts : Value Nat
  hasReconnectTimer : Bool
  deriving DecidableEq, Repr

/-- Method `getConnectionStatus`: the entries of the result object.  All
tables are plain objects, so a name of `objectPrototypeNames` without entry of
its own reads as the inherited member. -/
def getConnectionStatus (config : Config) (m : WebSocketManager) : Dict Status :=
  let serverList := config.mc_qq_server_list.getD []
  serverList.foldl (fun status serverCfg =>
    if serverCfg.ws_able then
      let serverName := serverCfg.server_name
      Dict.setObject status serverName
        { state := Dict.getOr m.connectionStates serverName ConnectionState.DISCONNECTED
          connected := Dict.truthy m.activeSockets serverName
          reconnectAttempts := Dict.getOr m.reconnectAttempts serverName 0
          hasReconnectTimer := Dict.truthy m.reconnectTimers serverName }
    else status) Dict.empty

/-- The three places of `_performHeartbeatCheck` that give a connection up
(pong timeout callback, socket seen closing or closed, `catch` block): all
look the profile up by name and, when found, clean up, set `disconnected`
and schedule a reconnect. -/
def _performHeartbeatCheck_drop (config : Config) (serverName : String)
    (m : WebSocketManager) : WebSocketManager :=
  match findServerCfg config serverName with
  | some serverCfg =>
    let m := _cleanupConnection serverName m
    let m := _setConnectionState serverName ConnectionState.DISCONNECTED m
    _scheduleReconnect serverCfg config.debug_mode m
  | none => m

/-- The body of the loop of `_performHeartbeatCheck` for the entry
`[serverName, ws]`, at clock reading `now`; `pingThrows` tells whether
`ws.ping()` throws. -/
def _performHeartbeatCheck_entry (config : Config) (serverName : String) (ws : Nat)
    (now : Nat) (pingThrows : Bool) (m : WebSocketManager) : WebSocketManager :=
  if m.readyState ws = ReadyState.OPEN then
    let m := { m with lastPingTime := Dict.set m.lastPingTime serverName now }
    let timeoutId := m.nextTimeout
    let m := { m with
      pongTimeouts := m.pongTimeouts ++ [(timeoutId, config, serverName)]
      nextTimeout := m.nextTimeout + 1 }
    let m := { m with pongListeners := m.pongListeners ++ [(ws, timeoutId)] }
    if pingThrows then _performHeartbeatCheck_drop config serverName m else m
  else if m.readyState ws = ReadyState.CLOSED ∨ m.readyState ws = ReadyState.CLOSING then
    _performHeartbeatCheck_drop config serverName m
  else m

/-- The listeners `onPong` of socket `ws`: each clears its timeout and
removes itself. -/
def _performHeartbeatCheck_onPong (ws : Nat) (m : WebSocketManager) : WebSocketManager :=
  let ids := (m.pongListeners.filter (fun p => p.1 == ws)).map (fun p => p.2)
  { m with
    pongTimeouts := m.pongTimeouts.filter (fun p => !ids.contains p.1)
    pongListeners := m.pongListeners.filter (fun p => p.1 != ws) }

/-- What can happen to a manager: a method call from outside or a callback
run by the event loop. -/
inductive Event where
  /-- the constructor's call of `_initializeAsync` -/
  | construct (config : Option Config)
  /-- an outbound socket that is connecting emits `open` -/
  | socketOpen (ws : Nat)
  /-- an outbound socket that is not yet closed emits `close` -/
  | socketClosed (ws : Nat) (code : Nat)
  /-- an outbound socket that is not yet closed emits `error` -/
  | socketError (ws : Nat)
  /-- the local server emits `connection` for a new, open socket -/
  | connection (request : Request)
  /-- an accepted inbound socket emits `close` -/
  | peerClosed (ws : Nat)
  /-- an accepted inbound socket emits `error` -/
  | peerError (ws : Nat)
  /-- the heartbeat loop reaches the entry of `serverName` -/
  | heartbeat (config : Config) (serverName : String) (now : Nat) (pingThrows : Bool)
  /-- a socket emits `pong` -/
  | pong (ws : Nat)
  /-- the armed pong timeout `id` fires -/
  | pongTimeout (id : Nat)
  /-- the armed reconnect timeout `id` fires -/
  | timeout (id : Nat)
  /-- a caller invokes `forceReconnect` -/
  | forceReconnect (config : Config) (serverName : String)
  /-- the configuration collaborator changes the profile named
  `serverCfg.server_name` to `serverCfg` -/
  | profileChanged (serverCfg : ServerCfg)
  deriving DecidableEq, Repr

/-- Events of the inbound listener. -/
def Event.isInbound : Event → Bool
  | Event.connection _ => true
  | Event.peerClosed _ => true
  | Event.peerError _ => true
  | _ => false

/-- Calls of `forceReconnect`. -/
def Event.isForceReconnect : Event → Bool
  | Event.forceReconnect _ _ => true
  | _ => false

/-- Events that leave every captured profile WebSocket-enabled: all but a
change of a profile to one with `ws_able` off. -/
def Event.keepsEnabled : Event → Bool
  | Event.profileChanged serverCfg => serverCfg.ws_able
  | _ => true

/-- Modelled from the spec: the effect of a changed profile on the manager.
The manager has no field for profiles; the closures that captured the profile
of that name (reconnect timeouts, the handlers of outbound sockets, the
configuration held by a pong timeout) read the changed one from now on. -/
def profileChanged (serverCfg : ServerCfg) (m : WebSocketManager) : WebSocketManager :=
  { m with
    timeouts := m.timeouts.map (Timeout.afterChange serverCfg)
    reconnectTimers := fun n => (m.reconnectTimers n).map (Timeout.afterChange serverCfg)
    clients := m.clients.map (fun p => (p.1, updateProfile serverCfg p.2.1, p.2.2))
    pongTimeouts := m.pongTimeouts.map (fun p =>
      (p.1, { p.2.1 with
        mc_qq_server_list := p.2.1.mc_qq_server_list.map
          (fun l => l.map (updateProfile serverCfg)) }, p.2.2)) }

/-- The library sets `readyState` before it emits an event. -/
def setReadyState (ws : Nat) (r : ReadyState) (m : WebSocketManager) : WebSocketManager :=
  { m with readyState := fun x => if x = ws then r else m.readyState x }

/-- Run one event.  An event that cannot occur in the current state leaves
the manager unchanged. -/
def step (m : WebSocketManager) : Event → WebSocketManager
  | Event.construct config => _initializeAsync config m
  | Event.socketOpen ws =>
    match m.clients.find? (fun p => p.1 == ws) with
    | some (_, serverCfg, _) =>
      if m.readyState ws = ReadyState.CONNECTING then
        _establishClientConnection_onOpen ws serverCfg (setReadyState ws ReadyState.OPEN m)
      else m
    | none => m
  | Event.socketClosed ws code =>
    match m.clients.find? (fun p => p.1 == ws) with
    | some (_, serverCfg, globalDebug) =>
      if m.readyState ws ≠ ReadyState.CLOSED then
        _establishClientConnection_onClose serverCfg globalDebug code
          (setReadyState ws ReadyState.CLOSED m)
      else m
    | none => m
  | Event.socketError ws =>
    match m.clients.find? (fun p => p.1 == ws) with
    | some (_, serverCfg, globalDebug) =>
      if m.readyState ws ≠ ReadyState.CLOSED then
        _establishClientConnection_onError serverCfg globalDebug
          (setReadyState ws ReadyState.CLOSING m)
      else m
    | none => m
  | Event.connection request =>
    match m.localServer with
    | some (wsPassword, _) =>
      let ws := m.nextSocket
      _startLocalServer_onConnection wsPassword ws request
        (setReadyState ws ReadyState.OPEN { m with nextSocket := m.nextSocket + 1 })
    | none => m
  | Event.peerClosed ws =>
    match m.peers.find? (fun p => p.1 == ws) with
    | some (_, remoteName) =>
      if m.readyState ws ≠ ReadyState.CLOSED then
        _startLocalServer_onPeerGone remoteName (setReadyState ws ReadyState.CLOSED m)
      else m
    | none => m
  | Event.peerError ws =>
    match m.peers.find? (fun p => p.1 == ws) with
    | some (_, remoteName) =>
      if m.readyState ws ≠ ReadyState.CLOSED then
        _startLocalServer_onPeerGone remoteName (setReadyState ws ReadyState.CLOSING m)
      else m
    | none => m
  | Event.heartbeat config serverName now pingThrows =>
    match config.mc_qq_server_list, m.activeSockets serverName with
    | some _, some ws => _performHeartbeatCheck_entry config serverName ws now pingThrows m
    | _, _ => m
  | Event.pong ws => _performHeartbeatCheck_onPong ws m
  | Event.pongTimeout id =>
    match m.pongTimeouts.find? (fun p => p.1 == id) with
    | some (_, config, serverName) =>
      _performHeartbeatCheck_drop config serverName
        { m with pongTimeouts := m.pongTimeouts.filter (fun p => p.1 != id) }
    | none => m
  | Event.timeout id =>
    match m.timeouts.find? (fun t => t.id == id) with
    | some t =>
      _attemptReconnect t.serverCfg t.globalDebug
        { m with timeouts := m.timeouts.filter (fun u => u.id != id) }
    | none => m
  | Event.forceReconnect config serverName => (forceReconnect config serverName m).1
  | Event.profileChanged serverCfg => profileChanged serverCfg m

/-- The manager after a sequence of events, starting from a fresh instance. -/
def run (urlRejected : String → Bool) (events : List Event) : WebSocketManager :=
  events.foldl step (new urlRejected)

end WebSocketManager

/-! ## `apps/Shutdown.js`

The class `Shutdown` is taken as one instance whose methods are called for
every message.  It reads the handles of the two managers, which are arguments
here.  One clock reading `now` is used for all calls of `Date.now()` made by
one event.  A send that throws or rejects is caught where it is made; the only
effect of a failed send is that `_sendTitleToServer` skips the subtitle command
after a rejected title command. -/

/-- The fields of the message event `e` that the handlers read. -/
structure MessageEvent where
  isGroup : Bool
  group_id : String
  user_id : String
  isMaster : Bool
  deriving DecidableEq, Repr

/-- The `task` object of `_startServerShutdown`; `interval` and `finalTimeout`
hold a timeout id. -/
structure ShutdownTask where
  serverCfg : ServerCfg
  action : String
  countdown : Nat
  currentCount : Int
  debugMode : Bool
  startTime : Int
  interval : Option Nat
  finalTimeout : Option Nat
  deriving DecidableEq, Repr

/-- The object that `_sendTitleToServer` passes to `JSON.stringify`. -/
structure TitlePayload where
  api : String
  title : String
  subtitle : String
  echo : String
  deriving DecidableEq, Repr

/-- What the plugin sends: a payload over a socket, a command over an RCON
client, or a reply to the chat. -/
inductive Sent where
  | ws (socket : Nat) (payload : TitlePayload)
  | rcon (connection : Nat) (command : String)
  | reply (text : String)
  deriving DecidableEq, Repr

/-- An armed timeout of `_scheduleNextUpdate`. -/
structure Tick where
  id : Nat
  serverName : String
  due : Int
  deriving DecidableEq, Repr

/-- A call of `_executeShutdown` suspended at its wait of one second, with the
`task` object it holds. -/
structure FinalWait where
  id : Nat
  serverName : String
  task : ShutdownTask
  due : Int
  deriving DecidableEq, Repr

/-- A call of `_initiateShutdown` suspended at the reply that confirms the
countdown. -/
structure Confirming where
  id : Nat
  targetServers : List ServerCfg
  countdown : Nat
  action : String
  debugMode : Bool
  deriving DecidableEq, Repr

/-- The field `shutdownTasks` of `class Shutdown`, followed by the runtime
state it interacts with. -/
structure Shutdown where
  shutdownTasks : Dict ShutdownTask
  /-- armed and not yet cancelled timeouts of `_scheduleNextUpdate` -/
  timeouts : List Tick
  /-- calls of `_executeShutdown` waiting for their second to pass -/
  finalWaits : List FinalWait
  /-- calls of `_initiateShutdown` waiting for their reply to be delivered -/
  confirming : List Confirming
  nextId : Nat
  /-- everything sent so far, oldest first -/
  sent : List Sent

namespace Shutdown

/-- The field initialiser of the constructor. -/
def new : Shutdown :=
  { shutdownTasks := Dict.empty
    timeouts := []
    finalWaits := []
    confirming := []
    nextId := 0
    sent := [] }

/-- Expression `action === 'restart' ? '重启' : '关机'`. -/
def actionText (action : String) : String :=
  if action = "restart" then "重启" else "关机"

/-- Expression `Math.floor(x / 1000)`. -/
def floorDiv1000 (x : Int) : Int := Int.fdiv x 1000

/-- Expression `Math.ceil(x / 1000)`. -/
def ceilDiv1000 (x : Int) : Int := -(Int.fdiv (-x) 1000)

/-- The delay that `_scheduleNextUpdate` passes to `setTimeout`, from the
elapsed time: `Math.max(delay, 0)` with `targetTime = Math.ceil(elapsed / 1000)
* 1000` and `delay = targetTime - elapsed`. -/
def scheduleDelay (elapsed : Int) : Int :=
  let targetTime := ceilDiv1000 elapsed * 1000
  let delay := targetTime - elapsed
  max delay 0

/-- Runtime call `clearTimeout(id)`: the callback will not run. -/
def clearTimeout (id : Nat) (s : Shutdown) : Shutdown :=
  { s with
    timeouts := s.timeouts.filter (fun t => t.id != id)
    finalWaits := s.finalWaits.filter (fun w => w.id != id) }

/-- Expression `reply(text)`. -/
def reply (text : String) (s : Shutdown) : Shutdown :=
  { s with sent := s.sent ++ [Sent.reply text] }

/-- The RCON command `title @a <kind> {"text":"<text>"}`. -/
def titleCommand (kind text : String) : String :=
  "title @a " ++ kind ++ " \x7b\"text\":\"" ++ text ++ "\"\x7d"

/-- Method `_sendTitleToServer`; `titleRejects` tells whether the first RCON
`send` rejects.  Nothing propagates to the caller. -/
def _sendTitleToServer (rconManager : RconManager) (webSocketManager : WebSocketManager)
    (serverCfg : ServerCfg) (title subtitle : String) (now : Int) (titleRejects : Bool)
    (s : Shutdown) : Shutdown :=
  let serverName := serverCfg.server_name
  let rconConnection := rconManager.activeConnections serverName
  let wsConnection := webSocketManager.activeSockets serverName
  match wsConnection, rconConnection with
  | none, none => s
  | some ws, _ =>
    { s with sent := s.sent ++ [Sent.ws ws
        { api := "send_title", title := title, subtitle := subtitle, echo := toString now }] }
  | none, some rcon =>
    let s := { s with sent := s.sent ++ [Sent.rcon rcon (titleCommand "title" title)] }
    if titleRejects then s
    else if subtitle ≠ "" then
      { s with sent := s.sent ++ [Sent.rcon rcon (titleCommand "subtitle" subtitle)] }
    else s

def _cancelServerShutdown (serverName : String) (s : Shutdown) : Shutdown :=
  match s.shutdownTasks serverName with
  | some task =>
    let s := match task.interval with
      | some id => clearTimeout id s
      | none => s
    let s := match task.finalTimeout with
      | some id => clearTimeout id s
      | none => s
    { s with shutdownTasks := Dict.delete s.shutdownTasks serverName }
  | none => s

/-- Method `_scheduleNextUpdate` at clock reading `now`.  The runtime runs a
timeout whose delay is below 1 after 1 ms. -/
def _scheduleNextUpdate (serverName : String) (now : Int) (s : Shutdown) : Shutdown :=
  match s.shutdownTasks serverName with
  | none => s
  | some task =>
    let elapsed := now - task.startTime
    let targetTime := ceilDiv1000 elapsed * 1000
    let delay := targetTime - elapsed
    let id := s.nextId
    { s with
      timeouts := s.timeouts ++
        [{ id := id, serverName := serverName, due := now + max (max delay 0) 1 }]
      nextId := s.nextId + 1
      shutdownTasks := Dict.set s.shutdownTasks serverName { task with interval := some id } }

/-- Method `_startServerShutdown` at clock reading `now`.  The call of
`_sendTitleToServer` is not awaited by the code; its sends are recorded here in
one piece, so the order of the sends of different servers is not that of the
code when several targets are notified over RCON. -/
def _startServerShutdown (rconManager : RconManager) (webSocketManager : WebSocketManager)
    (serverCfg : ServerCfg) (countdown : Nat) (action : String) (debugMode : Bool)
    (now : Int) (titleRejects : Bool) (s : Shutdown) : Shutdown :=
  let serverName := serverCfg.server_name
  let s := _cancelServerShutdown serverName s
  let task : ShutdownTask :=
    { serverCfg := serverCfg, action := action, countdown := countdown,
      currentCount := countdown, debugMode := debugMode, startTime := now,
      interval := none, finalTimeout := none }
  let s := { s with shutdownTasks := Dict.set s.shutdownTasks serverName task }
  let s := _sendTitleToServer rconManager webSocketManager serverCfg
    ("服务器即将" ++ actionText action) ("倒计时 " ++ toString countdown ++ " 秒") now
    titleRejects s
  _scheduleNextUpdate serverName now s

/-- Method `_executeShutdown` up to its wait of one second. -/
def _executeShutdown (rconManager : RconManager) (webSocketManager : WebSocketManager)
    (serverName : String) (now : Int) (titleRejects : Bool) (s : Shutdown) : Shutdown :=
  match s.shutdownTasks serverName with
  | none => s
  | some task =>
    let s := _sendTitleToServer rconManager webSocketManager task.serverCfg
      ("服务器" ++ actionText task.action ++ "中...") "请稍后重新连接" now titleRejects s
    { s with
      finalWaits := s.finalWaits ++
        [{ id := s.nextId, serverName := serverName, task := task, due := now + 1000 }]
      nextId := s.nextId + 1 }

/-- The rest of `_executeShutdown`, run when the second has passed: the
command, then the `finally` block. -/
def _executeShutdown_afterWait (rconManager : RconManager) (w : FinalWait) (s : Shutdown) :
    Shutdown :=
  let command := if w.task.action = "restart" then "restart" else "stop"
  let s := match rconManager.activeConnections w.serverName with
    | some rconConnection => { s with sent := s.sent ++ [Sent.rcon rconConnection command] }
    | none => s
  _cancelServerShutdown w.serverName s

/-- Method `_updateCountdown` at clock reading `now`. -/
def _updateCountdown (rconManager : RconManager) (webSocketManager : WebSocketManager)
    (serverName : String) (now : Int) (titleRejects : Bool) (s : Shutdown) : Shutdown :=
  match s.shutdownTasks serverName with
  | none => s
  | some task =>
    let elapsed := now - task.startTime
    let elapsedSeconds := floorDiv1000 elapsed
    let currentCount := max 0 ((task.countdown : Int) - elapsedSeconds)
    let task := { task with currentCount := currentCount }
    let s := { s with shutdownTasks := Dict.set s.shutdownTasks serverName task }
    let actionText := actionText task.action
    if task.currentCount > 0 then
      let texts : String × String :=
        if task.currentCount ≤ 5 then
          (toString task.currentCount, "服务器即将" ++ actionText)
        else if task.currentCount ≤ 10 then
          (actionText ++ "倒计时", "还有 " ++ toString task.currentCount ++ " 秒")
        else if task.currentCount % 10 = 0 ∨ task.currentCount ≤ 30 then
          ("服务器即将" ++ actionText, "倒计时 " ++ toString task.currentCount ++ " 秒")
        else ("", "")
      let s := if texts.1 ≠ "" then
          _sendTitleToServer rconManager webSocketManager task.serverCfg texts.1 texts.2 now
            titleRejects s
        else s
      _scheduleNextUpdate serverName now s
    else
      _executeShutdown rconManager webSocketManager serverName now titleRejects s

/-- Expression `serverList.filter(serverCfg => serverCfg.group_list?.some(groupId =>
groupId == e.group_id))`. -/
def targetServers (serverList : List ServerCfg) (e : MessageEvent) : List ServerCfg :=
  serverList.filter (fun serverCfg =>
    match serverCfg.group_list with
    | some groups => groups.any (fun groupId => groupId == e.group_id)
    | none => false)

/-- Method `_initiateShutdown` up to the reply that confirms the countdown. -/
def _initiateShutdown (e : MessageEvent) (countdown : Nat) (action : String) (config : Config)
    (s : Shutdown) : Shutdown :=
  match config.mc_qq_server_list with
  | none => reply "❌ 没有配置任何服务器" s
  | some [] => reply "❌ 没有配置任何服务器" s
  | some serverList =>
    let targets := targetServers serverList e
    if targets.length = 0 then
      reply "❌ 当前群未关联任何服务器" s
    else
      let busyServers := targets.filter (fun c => (s.shutdownTasks c.server_name).isSome)
      if busyServers.length > 0 then
        let busyNames := String.intercalate "、" (busyServers.map (fun c => c.server_name))
        reply ("⚠️ 以下服务器正在执行关机任务：" ++ busyNames ++ "\n请先取消现有任务或等待完成") s
      else
        let s := reply ("🔴 服务器" ++ actionText action ++ "指令已确认！\n倒计时 "
          ++ toString countdown ++ " 秒开始...\n使用 #mc取消关机 可以中止操作") s
        { s with
          confirming := s.confirming ++
            [{ id := s.nextId, targetServers := targets, countdown := countdown,
               action := action, debugMode := config.debug_mode }]
          nextId := s.nextId + 1 }

/-- The rest of `_initiateShutdown`, run when the reply has been delivered. -/
def _initiateShutdown_resume (rconManager : RconManager) (webSocketManager : WebSocketManager)
    (c : Confirming) (now : Int) (titleRejects : Bool) (s : Shutdown) : Shutdown :=
  c.targetServers.foldl (fun s serverCfg =>
    _startServerShutdown rconManager webSocketManager serverCfg c.countdown c.action
      c.debugMode now titleRejects s) s

/-- The handlers `shutdown` (`action` is `stop`) and `restart`, paired with the
boolean they return; `countdownTime` is the number captured from the message. -/
def handle (action : String) (e : MessageEvent) (countdownTime : Option Nat) (config : Config)
    (s : Shutdown) : Shutdown × Bool :=
  if !e.isGroup then (s, false)
  else
    let countdown := match countdownTime with
      | some n => n
      | none => 10
    if countdown < 5 ∨ countdown > 300 then
      (reply "❌ 倒计时时间必须在5-300秒之间" s, true)
    else
      (_initiateShutdown e countdown action config s, true)

/-- Handler `shutdown`. -/
def shutdown (e : MessageEvent) (countdownTime : Option Nat) (config : Config) (s : Shutdown) :
    Shutdown × Bool :=
  handle "stop" e countdownTime config s

/-- Handler `restart`. -/
def restart (e : MessageEvent) (countdownTime : Option Nat) (config : Config) (s : Shutdown) :
    Shutdown × Bool :=
  handle "restart" e countdownTime config s

/-- Handler `cancelShutdown`, paired with the boolean it returns. -/
def cancelShutdown (rconManager : RconManager) (webSocketManager : WebSocketManager)
    (e : MessageEvent) (config : Config) (now : Int) (titleRejects : Bool) (s : Shutdown) :
    Shutdown × Bool :=
  if !e.isGroup then (s, false)
  else
    match config.mc_qq_server_list with
    | none => (reply "❌ 没有配置任何服务器" s, true)
    | some [] => (reply "❌ 没有配置任何服务器" s, true)
    | some serverList =>
      let targets := targetServers serverList e
      if targets.length = 0 then
        (reply "❌ 当前群未关联任何服务器" s, true)
      else
        let r : Shutdown × Nat := targets.foldl (fun (acc : Shutdown × Nat) serverCfg =>
          if (acc.1.shutdownTasks serverCfg.server_name).isSome then
            let s := _cancelServerShutdown serverCfg.server_name acc.1
            let s := _sendTitleToServer rconManager webSocketManager serverCfg
              "🟢 关机已取消" "操作人员已取消服务器关机" now titleRejects s
            (s, acc.2 + 1)
          else acc) (s, 0)
        if r.2 > 0 then
          (reply ("✅ 已取消 " ++ toString r.2 ++ "/" ++ toString targets.length
            ++ " 个服务器的关机任务") r.1, true)
        else
          (reply "ℹ️ 当前没有进行中的关机任务" r.1, true)

/-- One entry of the object returned by `getShutdownStatus`. -/
structure Status where
  action : String
  countdown : Nat
  currentCount : Int
  remaining : Int
  elapsed : Int
  deriving DecidableEq, Repr

/-- Method `getShutdownStatus` at clock reading `now`. -/
def getShutdownStatus (now : Int) (s : Shutdown) : Dict Status :=
  fun serverName =>
    match s.shutdownTasks serverName with
    | none => none
    | some task =>
      let elapsed := now - task.startTime
      let elapsedSeconds := floorDiv1000 elapsed
      let remaining := max 0 ((task.countdown : Int) - elapsedSeconds)
      some { action := task.action, countdown := task.countdown, currentCount := remaining,
             remaining := remaining, elapsed := elapsedSeconds }

/-- What can happen to the plugin: a handler called for a message, or a
callback run by the event loop at clock reading `now`. -/
inductive Event where
  /-- a message matching `#mc关机` -/
  | shutdown (e : MessageEvent) (countdownTime : Option Nat) (config : Config)
  /-- a message matching `#mc重启` -/
  | restart (e : MessageEvent) (countdownTime : Option Nat) (config : Config)
  /-- a message matching `#mc取消关机` -/
  | cancelShutdown (e : MessageEvent) (config : Config) (now : Int) (titleRejects : Bool)
  /-- the confirming reply of the call `id` of `_initiateShutdown` is delivered -/
  | confirmed (id : Nat) (now : Int) (titleRejects : Bool)
  /-- the armed timeout `id` of `_scheduleNextUpdate` fires -/
  | tick (id : Nat) (now : Int) (titleRejects : Bool)
  /-- the second awaited by the call `id` of `_executeShutdown` has passed -/
  | finalWait (id : Nat) (now : Int)
  deriving DecidableEq, Repr

/-- Run one event with the two managers as they are at that moment.  An event
that cannot occur (unknown id, or a timeout before it is due) changes nothing. -/
def step (rconManager : RconManager) (webSocketManager : WebSocketManager) (s : Shutdown) :
    Event → Shutdown
  | Event.shutdown e countdownTime config => (shutdown e countdownTime config s).1
  | Event.restart e countdownTime config => (restart e countdownTime config s).1
  | Event.cancelShutdown e config now titleRejects =>
    (cancelShutdown rconManager webSocketManager e config now titleRejects s).1
  | Event.confirmed id now titleRejects =>
    match s.confirming.find? (fun c => c.id == id) with
    | some c =>
      _initiateShutdown_resume rconManager webSocketManager c now titleRejects
        { s with confirming := s.confirming.filter (fun c => c.id != id) }
    | none => s
  | Event.tick id now titleRejects =>
    match s.timeouts.find? (fun t => t.id == id) with
    | some t =>
      if t.due ≤ now then
        _updateCountdown rconManager webSocketManager t.serverName now titleRejects
          { s with timeouts := s.timeouts.filter (fun t => t.id != id) }
      else s
    | none => s
  | Event.finalWait id now =>
    match s.finalWaits.find? (fun w => w.id == id) with
    | some w =>
      if w.due ≤ now then
        _executeShutdown_afterWait rconManager w
          { s with finalWaits := s.finalWaits.filter (fun w => w.id != id) }
      else s
    | none => s

/-- The plugin after a sequence of events, starting from a fresh instance,
while the two managers stay as given. -/
def run (rconManager : RconManager) (webSocketManager : WebSocketManager)
    (events : List Event) : Shutdown :=
  events.foldl (step rconManager webSocketManager) new

/-- The plugin after a sequence of events, starting from a fresh instance;
each event comes with the two managers as they are when it runs. -/
def runWith (events : List (RconManager × WebSocketManager × Event)) : Shutdown :=
  events.foldl (fun s x => step x.1 x.2.1 s x.2.2) new

/-- Fire the armed timeout that is due first (for one server there is at most
one), at the clock reading at which it is due. -/
def fireDue (rconManager : RconManager) (webSocketManager : WebSocketManager)
    (titleRejects : Bool) (s : Shutdown) : Shutdown :=
  match s.timeouts, s.finalWaits with
  | t :: _, _ => step rconManager webSocketManager s (Event.tick t.id t.due titleRejects)
  | [], w :: _ => step rconManager webSocketManager s (Event.finalWait w.id w.due)
  | [], [] => s

/-- Fire `n` timeouts one after the other, each when it is due. -/
def fireDueTimes (rconManager : RconManager) (webSocketManager : WebSocketManager)
    (titleRejects : Bool) : Nat → Shutdown → Shutdown
  | 0, s => s
  | n + 1, s =>
    fireDueTimes rconManager webSocketManager titleRejects n
      (fireDue rconManager webSocketManager titleRejects s)

/-- The titles of the payloads sent over sockets, oldest first. -/
def titlesSent (s : Shutdown) : List String :=
  s.sent.filterMap (fun x =>
    match x with
    | Sent.ws _ payload => some payload.title
    | _ => none)

/-- The commands sent over RCON clients, oldest first. -/
def commandsSent (s : Shutdown) : List String :=
  s.sent.filterMap (fun x =>
    match x with
    | Sent.rcon _ command => some command
    | _ => none)

/-- The remaining time as the specification words it: `totalSeconds` minus the
whole seconds elapsed since `startTimestamp`, and 0 when that is negative. -/
def specRemaining (totalSeconds : Nat) (startTimestamp now : Int) : Int :=
  if 0 ≤ (totalSeconds : Int) - Int.fdiv (now - startTimestamp) 1000 then
    (totalSeconds : Int) - Int.fdiv (now - startTimestamp) 1000
  else 0

end Shutdown

/-! ## `apps/ExecuteCommand.js`

Texts are sequences of Unicode characters.  The calls `split(' ')`,
`startsWith` and `includes` with the keywords of the class, which are ASCII,
give the same result on characters as on UTF-16 code units.  `toLowerCase` is
taken on the letters `A` to `Z` only. -/

/-- The result of `_parseCommand`: `{ success: false, error }` or
`{ success: true, serverName, command }`, `serverName` being `null` or a text. -/
inductive ParsedCommand where
  | failure (error : String)
  | success (serverName : Option String) (command : String)
  deriving DecidableEq, Repr

/-- The result of `_checkPermission` and of `_checkCommandSafety`:
`{ success: true }` or `{ success: false, error }`. -/
inductive Check where
  | ok
  | denied (error : String)
  deriving DecidableEq, Repr

/-- What `executeCommand` does in the end: one reply to the chat, or the call
`_executeOnServers(e, servers, command, debugMode)`. -/
inductive Outcome where
  | reply (text : String)
  | execute (servers : List ServerCfg) (command : String)
  deriving DecidableEq, Repr

namespace ExecuteCommand

/-- Field `adminOnlyCommands`. -/
def adminOnlyCommands : List String :=
  ["stop", "restart", "shutdown", "reload",
   "ban", "ban-ip", "pardon", "pardon-ip",
   "whitelist add", "whitelist remove",
   "op", "deop", "kick", "save-all",
   "difficulty", "gamerule", "worldborder"]

/-- Field `forbiddenCommands`. -/
def forbiddenCommands : List String :=
  ["rm ", "del ", "delete ", "format",
   "kill ", "killall", "sudo", "chmod",
   "mv ", "cp ", "wget", "curl"]

/-- Field `safeCommands`. -/
def safeCommands : List String :=
  ["list", "help", "tps", "time", "weather", "seed",
   "tp", "teleport", "give", "summon", "setblock",
   "fill", "clone", "gamemode", "effect", "enchant"]

/-- The pieces of a text between its spaces: there is one piece more than
there are spaces. -/
def splitChars : List Char → List (List Char)
  | [] => [[]]
  | c :: cs =>
    if c = ' ' then [] :: splitChars cs
    else
      match splitChars cs with
      | [] => [[c]]
      | p :: ps => (c :: p) :: ps

/-- The pieces put together again with one space between neighbours. -/
def joinChars : List (List Char) → List Char
  | [] => []
  | [p] => p
  | p :: q :: ps => p ++ ' ' :: joinChars (q :: ps)

/-- Expression `s.split(' ')`. -/
def split (s : String) : List String :=
  (splitChars s.data).map String.mk

/-- Expression `parts.join(' ')`. -/
def join (parts : List String) : String :=
  String.mk (joinChars (parts.map String.data))

/-- Expression `s.toLowerCase()`, on the letters `A` to `Z`. -/
def toLowerCase (s : String) : String :=
  String.mk (s.data.map Char.toLower)

/-- Expression `s.startsWith(p)`. -/
def startsWith (s p : String) : Bool :=
  p.data.isPrefixOf s.data

/-- Whether the characters `p` occur in `s` as a contiguous run. -/
def includesChars (p : List Char) : List Char → Bool
  | [] => p.isEmpty
  | c :: cs => p.isPrefixOf (c :: cs) || includesChars p cs

/-- Expression `s.includes(p)`. -/
def includes (s p : String) : Bool :=
  includesChars p.data s.data

/-- Expression `s.trim()`. -/
def trim (s : String) : String :=
  String.mk ((s.data.dropWhile isWhiteSpace).reverse.dropWhile isWhiteSpace).reverse

/-- Expression `s.length`: the number of UTF-16 code units. -/
def length (s : String) : Nat :=
  (s.data.map (fun c => if c.toNat < 65536 then 1 else 2)).sum

/-- The text that `showUsage` sends. -/
def usageMessage : String :=
  "❓ 指令格式错误\n\n正确格式：\n• #执行 <指令内容>\n• #执行 <服务器名> <指令内容>\n\n"
    ++ "示例：\n• #执行 list\n• #执行 生存服务器 time set day\n\n发送 #指令帮助 查看详细说明"

/-- Method `_parseCommand`; `config` is the object that `Config.getConfig()`
returns. -/
def _parseCommand (config : Config) (args : String) : ParsedCommand :=
  let parts := split args
  match parts with
  | [] => ParsedCommand.failure "❌ 请提供要执行的指令"
  | firstPart :: rest =>
    let serverList := config.mc_qq_server_list.getD []
    let isServerName := serverList.any (fun server => server.server_name == firstPart)
    if isServerName && parts.length > 1 then
      ParsedCommand.success (some firstPart) (join rest)
    else
      ParsedCommand.success none args

/-- Expression `targetServers.some(server => server.command_user?.some(userId =>
userId == e.user_id))`. -/
def hasServerPermission (e : MessageEvent) (targetServers : List ServerCfg) : Bool :=
  targetServers.any (fun server =>
    match server.command_user with
    | some users => users.any (fun userId => userId == e.user_id)
    | none => false)

/-- Method `_checkPermission`. -/
def _checkPermission (e : MessageEvent) (targetServers : List ServerCfg) (command : String) :
    Check :=
  let lowerCommand := toLowerCase command
  let isAdminOnlyCommand :=
    adminOnlyCommands.any (fun admin => startsWith lowerCommand (toLowerCase admin))
  if isAdminOnlyCommand then
    if !e.isMaster then
      Check.denied ("🔒 管理员专用指令\n指令 \"" ++ command
        ++ "\" 仅限机器人主人使用\n这是为了服务器安全考虑")
    else Check.ok
  else if e.isMaster then
    Check.ok
  else
    let isSafeCommand :=
      safeCommands.any (fun safe => startsWith lowerCommand (toLowerCase safe))
    if isSafeCommand && hasServerPermission e targetServers then
      Check.ok
    else if !hasServerPermission e targetServers then
      Check.denied ("❌ 权限不足\n您需要是机器人主人或在服务器配置的授权用户列表中\n当前指令 \""
        ++ command ++ "\" 需要管理员权限")
    else Check.ok

/-- Method `_checkCommandSafety`. -/
def _checkCommandSafety (command : String) : Check :=
  let lowerCommand := toLowerCase command
  match forbiddenCommands.find? (fun forbidden => includes lowerCommand (toLowerCase forbidden))
    with
  | some forbidden =>
    Check.denied ("🚫 系统指令已被禁用\n检测到危险关键词: \"" ++ trim forbidden
      ++ "\"\n此类系统级指令出于安全考虑被完全禁用")
  | none =>
    if length command > 500 then
      Check.denied "❌ 指令过长，请确保指令长度在500字符以内"
    else Check.ok

/-- Handler `executeCommand` from the text `args` captured by the rule on, up
to the call of `_executeOnServers`. -/
def executeCommand (config : Config) (e : MessageEvent) (args : String) : Outcome :=
  match config.mc_qq_server_list with
  | none => Outcome.reply "❌ 没有配置任何服务器"
  | some [] => Outcome.reply "❌ 没有配置任何服务器"
  | some serverList =>
    if args = "" ∨ trim args = "" then Outcome.reply usageMessage
    else
      match _parseCommand config (trim args) with
      | ParsedCommand.failure error => Outcome.reply error
      | ParsedCommand.success serverName command =>
        let targetServers := Shutdown.targetServers serverList e
        if targetServers.length = 0 then Outcome.reply "❌ 当前群未关联任何服务器"
        else
          match _checkPermission e targetServers command with
          | Check.denied error => Outcome.reply error
          | Check.ok =>
            match _checkCommandSafety command with
            | Check.denied error => Outcome.reply error
            | Check.ok =>
              match serverName with
              | some name =>
                if name = "" then Outcome.execute targetServers command
                else
                  match targetServers.find? (fun server => server.server_name == name) with
                  | none =>
                    Outcome.reply ("❌ 服务器\"" ++ name ++ "\"不存在或未关联到当前群\n可用服务器："
                      ++ String.intercalate "、" (targetServers.map (fun s => s.server_name)))
                  | some targetServer => Outcome.execute [targetServer] command
              | none => Outcome.execute targetServers command

end ExecuteCommand

/-! ## Invariants -/

/-- Every registered handle belongs to a server whose state is `connected`. -/
def HandleImpliesConnected (handles : Dict Nat) (states : Dict ConnectionState) : Prop :=
  ∀ n, (handles n).isSome = true → states n = some ConnectionState.CONNECTED

/-- Every server whose state is `connected` has a registered handle. -/
def ConnectedImpliesHandle (handles : Dict Nat) (states : Dict ConnectionState) : Prop :=
  ∀ n, states n = some ConnectionState.CONNECTED → (handles n).isSome = true

/-- The armed timeouts whose callback reconnects server `n`. -/
def armedFor (timeouts : List Timeout) (n : String) : List Timeout :=
  timeouts.filter (fun t => t.serverCfg.server_name == n)

/-- The armed timeouts of every server are among the one recorded for it. -/
def TimersRecorded (timeouts : List Timeout) (timers : Dict Timeout) : Prop :=
  ∀ n, (armedFor timeouts n).Sublist (timers n).toList

/-- The invariants of `RconManager`.  After every event the armed timeouts are
the recorded ones.  As long as no captured profile is disabled (`stable`), a
registered handle implies state `connected` and every armed timeout reconnects
an enabled profile. -/
structure RconManager.Inv (stable : Prop) (m : RconManager) : Prop where
  handles : stable → HandleImpliesConnected m.activeConnections m.connectionStates
  enabled : stable → ∀ t ∈ m.timeouts, t.serverCfg.rcon_able = true
  recorded : TimersRecorded m.timeouts m.reconnectTimers

/-- The invariants of `WebSocketManager`.  After every event the armed
timeouts are the recorded ones.  As long as no captured profile is disabled
(`stable`), every armed timeout reconnects an enabled profile. -/
structure WebSocketManager.Inv (stable : Prop) (m : WebSocketManager) : Prop where
  wsEnabled : stable → ∀ t ∈ m.timeouts, t.serverCfg.ws_able = true
  wsRecorded : TimersRecorded m.timeouts m.reconnectTimers

/-- From `m` to `m2` no socket number is reused: the counter does not decrease
and every new entry of `peers` carries a number created in between. -/
def WebSocketManager.Grows (m m2 : WebSocketManager) : Prop :=
  m.nextSocket ≤ m2.nextSocket ∧
  ∀ p ∈ m2.peers, p ∈ m.peers ∨ (m.nextSocket ≤ p.1 ∧ p.1 < m2.nextSocket)

/-- Every socket with handlers of the inbound listener has been created. -/
def WebSocketManager.PeersFresh (m : WebSocketManager) : Prop :=
  ∀ p ∈ m.peers, p.1 < m.nextSocket

/-- Every stored task and every call of `_initiateShutdown` that waits to
create tasks has a countdown between 5 and 300. -/
def CountdownInRange (s : Shutdown) : Prop :=
  (∀ name task, s.shutdownTasks name = some task → 5 ≤ task.countdown ∧ task.countdown ≤ 300) ∧
  (∀ c ∈ s.confirming, 5 ≤ c.countdown ∧ c.countdown ≤ 300)

/-! ## Example configuration -/

/-- A complete profile with both transports enabled and no `*_max_attempts`. -/
def exampleServer : ServerCfg :=
  { server_name := "a", rcon_able := true, rcon_host := "h", rcon_port := 25575,
    rcon_password := "p", rcon_max_attempts := none, ws_able := true, ws_url := "ws://h",
    ws_password := "", ws_max_attempts := none, group_list := some ["g1"],
    command_user := none }

/-- The profile `exampleServer` with both transports disabled. -/
def disabledServer : ServerCfg :=
  { exampleServer with rcon_able := false, ws_able := false }

/-- A message from the chat group bound to `exampleServer`. -/
def exampleMessage : MessageEvent :=
  { isGroup := true, group_id := "g1", user_id := "u1", isMaster := false }

/-- A configuration with the single profile `exampleServer` and a local
listener protected by a shared secret. -/
def exampleConfig : Config :=
  { mc_qq_server_list := some [exampleServer], debug_mode := false, mc_qq_ws_server := true,
    mc_qq_ws_port := 8080, mc_qq_ws_url := "/mc", mc_qq_ws_password := "secret" }

/-- The RCON manager after the example server has connected: handle 0. -/
def connectedRcon : RconManager :=
  RconManager.run [RconManager.Event.construct (some exampleConfig),
    RconManager.Event.connectResolved 0]

/-- The WebSocket manager after the example server has connected: socket 0. -/
def connectedSocket : WebSocketManager :=
  WebSocketManager.run (fun _ => false)
    [WebSocketManager.Event.construct (some exampleConfig),
     WebSocketManager.Event.socketOpen 0]

/-- The plugin after `#mc关机 5` from the example group was confirmed at clock
reading 0, with both transports of the example server connected. -/
def countdownStarted : Shutdown :=
  Shutdown.run connectedRcon connectedSocket
    [Shutdown.Event.shutdown exampleMessage (some 5) exampleConfig,
     Shutdown.Event.confirmed 0 0 false]

/-- The WebSocket manager after the heartbeat dropped socket 0 of the example
server and the reconnect timer created socket 1, which opened: socket 1 is
registered, and socket 0 is closing and has not yet emitted `close`. -/
def supersededSocket : WebSocketManager :=
  WebSocketManager.run (fun _ => false)
    [WebSocketManager.Event.construct (some exampleConfig),
     WebSocketManager.Event.socketOpen 0,
     WebSocketManager.Event.heartbeat exampleConfig "a" 0 true,
     WebSocketManager.Event.timeout 1,
     WebSocketManager.Event.socketOpen 1]

/-- The example profile with the user of `exampleMessage` among its
`command_user`. -/
def commandServer : ServerCfg :=
  { exampleServer with command_user := some ["u1"] }

/-- A configuration with the single profile `commandServer`. -/
def commandConfig : Config :=
  { exampleConfig with mc_qq_server_list := some [commandServer] }

/-- The example profile under the name `constructor`, which every plain
object inherits from `Object.prototype`. -/
def inheritedNameServer : ServerCfg :=
  { exampleServer with server_name := "constructor" }

/-- A configuration with the single profile `inheritedNameServer`. -/
def inheritedNameConfig : Config :=
  { exampleConfig with mc_qq_server_list := some [inheritedNameServer] }

/-! ## Dictionary-level invariant lemmas -/

theorem HandleImpliesConnected.hic_drop {h : Dict Nat} {s : Dict ConnectionState}
    (hc : HandleImpliesConnected h s) (n : String) (st : ConnectionState) :
    HandleImpliesConnected (Dict.delete h n) (Dict.set s n st) := by
  intro x hx
  by_cases hxn : x = n
  · simp [Dict.delete, hxn] at hx
  · simp [Dict.delete, hxn] at hx
    simpa [Dict.set, hxn] using hc x hx

theorem HandleImpliesConnected.hic_delete {h : Dict Nat} {s : Dict ConnectionState}
    (hc : HandleImpliesConnected h s) (n : String) :
    HandleImpliesConnected (Dict.delete h n) s := by
  intro x hx
  by_cases hxn : x = n
  · simp [Dict.delete, hxn] at hx
  · simp [Dict.delete, hxn] at hx
    exact hc x hx

theorem HandleImpliesConnected.hic_setState {h : Dict Nat} {s : Dict ConnectionState}
    (hc : HandleImpliesConnected h s) {n : String} (hn : h n = none) (st : ConnectionState) :
    HandleImpliesConnected h (Dict.set s n st) := by
  intro x hx
  by_cases hxn : x = n
  · subst hxn; simp [hn] at hx
  · simpa [Dict.set, hxn] using hc x hx

theorem HandleImpliesConnected.hic_connect {h : Dict Nat} {s : Dict ConnectionState}
    (hc : HandleImpliesConnected h s) (n : String) (x : Nat) :
    HandleImpliesConnected (Dict.set h n x) (Dict.set s n ConnectionState.CONNECTED) := by
  intro y hy
  by_cases hyn : y = n
  · simp [Dict.set, hyn]
  · simp [Dict.set, hyn] at hy ⊢
    exact hc y hy

theorem HandleImpliesConnected.hic_none_of_ne {h : Dict Nat} {s : Dict ConnectionState}
    (hc : HandleImpliesConnected h s) {n : String}
    (hn : s n ≠ some ConnectionState.CONNECTED) : h n = none := by
  cases hh : h n with
  | none => rfl
  | some x => exact absurd (hc n (by simp [hh])) hn

theorem ConnectedImpliesHandle.cih_drop {h : Dict Nat} {s : Dict ConnectionState}
    (ch : ConnectedImpliesHandle h s) (n : String) {st : ConnectionState}
    (hst : st ≠ ConnectionState.CONNECTED) :
    ConnectedImpliesHandle (Dict.delete h n) (Dict.set s n st) := by
  intro x hx
  by_cases hxn : x = n
  · simp [Dict.set, hxn, hst] at hx
  · simp [Dict.set, hxn] at hx
    simpa [Dict.delete, hxn] using ch x hx

theorem ConnectedImpliesHandle.cih_setState {h : Dict Nat} {s : Dict ConnectionState}
    (ch : ConnectedImpliesHandle h s) (n : String) {st : ConnectionState}
    (hst : st ≠ ConnectionState.CONNECTED) :
    ConnectedImpliesHandle h (Dict.set s n st) := by
  intro x hx
  by_cases hxn : x = n
  · simp [Dict.set, hxn, hst] at hx
  · simp [Dict.set, hxn] at hx
    exact ch x hx

theorem ConnectedImpliesHandle.cih_connect {h : Dict Nat} {s : Dict ConnectionState}
    (ch : ConnectedImpliesHandle h s) (n : String) (x : Nat) :
    ConnectedImpliesHandle (Dict.set h n x) (Dict.set s n ConnectionState.CONNECTED) := by
  intro y hy
  by_cases hyn : y = n
  · simp [Dict.set, hyn]
  · simp [Dict.set, hyn] at hy ⊢
    exact ch y hy

theorem armedFor_filter (timeouts : List Timeout) (p : Timeout → Bool) (n : String) :
    armedFor (timeouts.filter p) n = (armedFor timeouts n).filter p := by
  simp [armedFor, List.filter_filter, Bool.and_comm]

theorem TimersRecorded.tr_clear {ts : List Timeout} {ti : Dict Timeout}
    (tr : TimersRecorded ts ti) (n : String) :
    TimersRecorded
      (match ti n with
        | some t => ts.filter (fun u => u.id != t.id)
        | none => ts)
      (Dict.delete ti n) := by
  intro x
  by_cases hxn : x = n
  · subst hxn
    have hx := tr x
    cases h : ti x with
    | none => simpa [Dict.delete, h] using hx
    | some t =>
      simp only [Dict.delete, if_true, Option.toList]
      rw [armedFor_filter]
      rw [h] at hx
      have := hx.filter (fun u => u.id != t.id)
      simpa using this
  · have hx := tr x
    simp only [Dict.delete, hxn, if_false]
    cases h : ti n with
    | none => exact hx
    | some t =>
      simp only []
      rw [armedFor_filter]
      exact (List.filter_sublist _).trans hx

theorem TimersRecorded.tr_arm {ts : List Timeout} {ti : Dict Timeout}
    (tr : TimersRecorded ts ti) {t : Timeout} (hn : ti t.serverCfg.server_name = none) :
    TimersRecorded (ts ++ [t]) (Dict.set ti t.serverCfg.server_name t) := by
  intro x
  by_cases hxn : x = t.serverCfg.server_name
  · subst hxn
    have hx := tr t.serverCfg.server_name
    rw [hn] at hx
    have h0 : armedFor ts t.serverCfg.server_name = [] := by simpa using hx
    unfold armedFor at h0 ⊢
    rw [List.filter_append, h0]
    simp [Dict.set]
  · have hx := tr x
    have hne : ¬ t.serverCfg.server_name = x := fun h => hxn h.symm
    simpa [armedFor, Dict.set, hxn, hne] using hx

theorem TimersRecorded.tr_fire {ts : List Timeout} {ti : Dict Timeout}
    (tr : TimersRecorded ts ti) {t : Timeout} (ht : t ∈ ts) :
    TimersRecorded (ts.filter (fun u => u.id != t.id))
      (Dict.delete ti t.serverCfg.server_name) := by
  intro x
  rw [armedFor_filter]
  by_cases hxn : x = t.serverCfg.server_name
  · subst hxn
    have hx := tr t.serverCfg.server_name
    have hmem : t ∈ armedFor ts t.serverCfg.server_name := by
      simp [armedFor, ht]
    cases h : ti t.serverCfg.server_name with
    | none => rw [h] at hx; simp at hx; rw [hx] at hmem; simp at hmem
    | some u =>
      rw [h] at hx
      have hu : t = u := by
        have := hx.subset hmem
        simpa using this
      subst hu
      have := hx.filter (fun u => u.id != t.id)
      simpa [Dict.delete] using this
  · simp only [Dict.delete, hxn, if_false]
    exact (List.filter_sublist _).trans (tr x)

theorem updateProfile_name (changed serverCfg : ServerCfg) :
    (updateProfile changed serverCfg).server_name = serverCfg.server_name := by
  unfold updateProfile
  split
  · rename_i h; exact h.symm
  · rfl

theorem armedFor_afterChange (changed : ServerCfg) (ts : List Timeout) (n : String) :
    armedFor (ts.map (Timeout.afterChange changed)) n
      = (armedFor ts n).map (Timeout.afterChange changed) := by
  induction ts with
  | nil => rfl
  | cons t ts ih =>
    have hname : (Timeout.afterChange changed t).serverCfg.server_name
        = t.serverCfg.server_name := updateProfile_name changed t.serverCfg
    simp only [armedFor, List.map_cons, List.filter_cons, hname] at ih ⊢
    split
    · simp only [List.map_cons]
      rw [← ih]
    · rw [← ih]

theorem TimersRecorded.tr_change {ts : List Timeout} {ti : Dict Timeout}
    (h : TimersRecorded ts ti) (changed : ServerCfg) :
    TimersRecorded (ts.map (Timeout.afterChange changed))
      (fun n => (ti n).map (Timeout.afterChange changed)) := by
  intro n
  rw [armedFor_afterChange]
  have hs := (h n).map (Timeout.afterChange changed)
  cases hti : ti n with
  | none => simpa [hti] using hs
  | some t => simpa [hti] using hs

theorem find_server_name {l : List ServerCfg} {n : String} {c : ServerCfg}
    (h : l.find? (fun s => s.server_name == n) = some c) : c.server_name = n := by
  have := List.find?_some h
  simpa using this

theorem findServerCfg_name {config : Config} {n : String} {c : ServerCfg}
    (h : findServerCfg config n = some c) : c.server_name = n := by
  unfold findServerCfg at h
  cases hl : config.mc_qq_server_list with
  | none => simp [hl] at h
  | some l => rw [hl] at h; exact find_server_name h

namespace RconManager

theorem rcon_cleanupConnection_activeConnections (n : String) (m : RconManager) :
    (_cleanupConnection n m).activeConnections = Dict.delete m.activeConnections n := by
  unfold _cleanupConnection
  funext x
  cases h : m.activeConnections n <;> cases h2 : m.reconnectTimers n <;>
    simp [h, h2, Dict.delete, clearTimeout]
  all_goals (split <;> simp_all)

theorem rcon_cleanupConnection_connectionStates (n : String) (m : RconManager) :
    (_cleanupConnection n m).connectionStates = m.connectionStates := by
  unfold _cleanupConnection
  cases h : m.activeConnections n <;> cases h2 : m.reconnectTimers n <;>
    simp [h, h2, clearTimeout]

theorem rcon_cleanupConnection_reconnectTimers (n : String) (m : RconManager) :
    (_cleanupConnection n m).reconnectTimers = Dict.delete m.reconnectTimers n := by
  unfold _cleanupConnection
  funext x
  cases h : m.activeConnections n <;> cases h2 : m.reconnectTimers n <;>
    simp [h, h2, Dict.delete, clearTimeout]
  all_goals (split <;> simp_all)

theorem rcon_cleanupConnection_timeouts (n : String) (m : RconManager) :
    (_cleanupConnection n m).timeouts =
      match m.reconnectTimers n with
      | some t => m.timeouts.filter (fun u => u.id != t.id)
      | none => m.timeouts := by
  unfold _cleanupConnection
  cases h : m.activeConnections n <;> cases h2 : m.reconnectTimers n <;>
    simp [h, h2, clearTimeout]

/-- Either `_scheduleReconnect` changes nothing, or it arms and records one
timeout for an enabled profile that had none recorded. -/
theorem rcon_scheduleReconnect_cases (c : ServerCfg) (m : RconManager) :
    _scheduleReconnect c m = m ∨
    (m.reconnectTimers c.server_name = none ∧ c.rcon_able = true ∧
      ∃ t : Timeout, t.serverCfg = c ∧
        (_scheduleReconnect c m).timeouts = m.timeouts ++ [t] ∧
        (_scheduleReconnect c m).reconnectTimers = Dict.set m.reconnectTimers c.server_name t ∧
        (_scheduleReconnect c m).activeConnections = m.activeConnections ∧
        ((_scheduleReconnect c m).connectionStates = m.connectionStates ∨
          (_scheduleReconnect c m).connectionStates
            = Dict.set m.connectionStates c.server_name ConnectionState.RECONNECTING)) := by
  unfold _scheduleReconnect
  simp only []
  split
  · left; rfl
  · rename_i hg
    split
    · left; rfl
    · rename_i ha
      right
      have hnone : m.reconnectTimers c.server_name = none := by
        cases h : m.reconnectTimers c.server_name <;> simp_all
      refine ⟨hnone, by simpa using ha, ?_⟩
      split
      · exact ⟨_, rfl, rfl, rfl, rfl, Or.inr rfl⟩
      · exact ⟨_, rfl, rfl, rfl, rfl, Or.inl rfl⟩

/-- Either `_establishConnection` changes nothing, or the state was neither
`connecting` nor `connected` and becomes `connecting`. -/
theorem rcon_establishConnection_cases (c : ServerCfg) (b : Bool) (m : RconManager) :
    _establishConnection c b m = m ∨
    (_getConnectionState m c.server_name ≠ ConnectionState.CONNECTED ∧
      (_establishConnection c b m).activeConnections = m.activeConnections ∧
      (_establishConnection c b m).connectionStates
        = Dict.set m.connectionStates c.server_name ConnectionState.CONNECTING ∧
      (_establishConnection c b m).reconnectTimers = m.reconnectTimers ∧
      (_establishConnection c b m).timeouts = m.timeouts) := by
  unfold _establishConnection
  simp only []
  split
  · left; rfl
  · rename_i hg
    right
    refine ⟨by simp_all, ?_⟩
    cases b <;> simp [_setConnectionState]

theorem rcon_getConnectionState_eq_connected (m : RconManager) (n : String) :
    _getConnectionState m n = ConnectionState.CONNECTED
      ↔ m.connectionStates n = some ConnectionState.CONNECTED := by
  unfold _getConnectionState
  cases m.connectionStates n <;> simp

theorem rcon_new_inv (stable : Prop) : Inv stable new :=
  ⟨fun _ n h => by simp [new, Dict.empty] at h, fun _ t h => by simp [new] at h,
   fun n => by simp [new, armedFor]⟩

/-- `_scheduleReconnect` keeps the invariants when the server has no handle. -/
theorem rcon_scheduleReconnect_inv {stable : Prop} (c : ServerCfg) (m : RconManager)
    (h : Inv stable m) (hn : m.activeConnections c.server_name = none) :
    Inv stable (_scheduleReconnect c m) := by
  rcases rcon_scheduleReconnect_cases c m with he | ⟨hnone, hable, t, htc, hto, hti, hac, hst⟩
  · rw [he]; exact h
  · refine ⟨?_, ?_, ?_⟩
    · intro hs
      rw [hac]
      rcases hst with hst | hst
      · rw [hst]; exact h.handles hs
      · rw [hst]; exact (h.handles hs).hic_setState hn _
    · intro hs u hu
      rw [hto] at hu
      rcases List.mem_append.mp hu with hu | hu
      · exact h.enabled hs u hu
      · have : u = t := by simpa using hu
        rw [this, htc]; exact hable
    · rw [hto, hti]
      have := h.recorded.tr_arm (t := t) (by rw [htc]; exact hnone)
      rwa [htc] at this

/-- Teardown followed by a state change keeps the invariants and leaves no handle. -/
theorem rcon_drop_inv {stable : Prop} (n : String) (s : ConnectionState) (m : RconManager)
    (h : Inv stable m) :
    Inv stable (_setConnectionState n s (_cleanupConnection n m)) ∧
    (_setConnectionState n s (_cleanupConnection n m)).activeConnections n = none := by
  refine ⟨⟨?_, ?_, ?_⟩, ?_⟩
  · intro hs
    simp only [_setConnectionState, rcon_cleanupConnection_activeConnections,
      rcon_cleanupConnection_connectionStates]
    exact (h.handles hs).hic_drop n s
  · intro hs u hu
    simp only [_setConnectionState, rcon_cleanupConnection_timeouts] at hu
    apply h.enabled hs
    cases hr : m.reconnectTimers n with
    | none => simpa [hr] using hu
    | some t => rw [hr] at hu; exact (List.mem_filter.mp hu).1
  · simp only [_setConnectionState, rcon_cleanupConnection_timeouts,
      rcon_cleanupConnection_reconnectTimers]
    exact h.recorded.tr_clear n
  · simp [_setConnectionState, rcon_cleanupConnection_activeConnections, Dict.delete]

theorem rcon_dropAndSchedule_inv {stable : Prop} (c : ServerCfg) (s : ConnectionState)
    (m : RconManager) (h : Inv stable m) :
    Inv stable (_scheduleReconnect c
      (_setConnectionState c.server_name s (_cleanupConnection c.server_name m))) :=
  rcon_scheduleReconnect_inv c _ (rcon_drop_inv c.server_name s m h).1
    (rcon_drop_inv c.server_name s m h).2

theorem rcon_establishConnection_inv {stable : Prop} (c : ServerCfg) (b : Bool)
    (m : RconManager) (h : Inv stable m) : Inv stable (_establishConnection c b m) := by
  rcases rcon_establishConnection_cases c b m with he | ⟨hne, hac, hst, hti, hto⟩
  · rw [he]; exact h
  · refine ⟨?_, ?_, ?_⟩
    · intro hs
      rw [hac, hst]
      refine (h.handles hs).hic_setState ((h.handles hs).hic_none_of_ne ?_) _
      rwa [Ne, ← rcon_getConnectionState_eq_connected]
    · rw [hto]; exact h.enabled
    · rw [hto, hti]; exact h.recorded

theorem rcon_establishConnection_resolved_inv {stable : Prop} (rcon : Nat) (c : ServerCfg)
    (m : RconManager) (h : Inv stable m) :
    Inv stable (_establishConnection_resolved rcon c m) := by
  refine ⟨?_, h.enabled, h.recorded⟩
  intro hs
  exact (h.handles hs).hic_connect c.server_name rcon

/-- A firing timeout keeps the invariants; the branch for a profile that has
been disabled sets `disconnected` and is not taken while profiles are stable. -/
theorem rcon_attemptReconnect_inv {stable : Prop} (t : Timeout) (m : RconManager)
    (h : Inv stable m) (ht : t ∈ m.timeouts) :
    Inv stable (_attemptReconnect t.serverCfg
      { m with timeouts := m.timeouts.filter (fun u => u.id != t.id) }) := by
  have h1 : Inv stable { m with
      timeouts := m.timeouts.filter (fun u => u.id != t.id)
      reconnectTimers := Dict.delete m.reconnectTimers t.serverCfg.server_name } :=
    ⟨h.handles, fun hs u hu => h.enabled hs u (List.mem_filter.mp hu).1, h.recorded.tr_fire ht⟩
  unfold _attemptReconnect
  by_cases hable : t.serverCfg.rcon_able = true
  · simp only [hable, Bool.not_true, Bool.false_eq_true, if_false]
    exact rcon_establishConnection_inv _ _ _ h1
  · simp only [hable, Bool.not_false, if_true]
    exact ⟨fun hs => absurd (h.enabled hs t ht) hable, h1.enabled, h1.recorded⟩

theorem rcon_forceReconnect_inv {stable : Prop} (config : Config) (n : String)
    (m : RconManager) (h : Inv stable m) : Inv stable (forceReconnect config n m).1 := by
  unfold forceReconnect
  cases hf : findServerCfg config n with
  | none => exact h
  | some c =>
    simp only []
    split
    · exact h
    · apply rcon_establishConnection_inv
      refine ⟨?_, ?_, ?_⟩
      · intro hs
        simp only [rcon_cleanupConnection_activeConnections,
          rcon_cleanupConnection_connectionStates]
        exact (h.handles hs).hic_delete n
      · intro hs u hu
        simp only [rcon_cleanupConnection_timeouts] at hu
        apply h.enabled hs
        cases hr : m.reconnectTimers n with
        | none => simpa [hr] using hu
        | some t => rw [hr] at hu; exact (List.mem_filter.mp hu).1
      · simp only [rcon_cleanupConnection_timeouts, rcon_cleanupConnection_reconnectTimers]
        exact h.recorded.tr_clear n

theorem rcon_initializeConnectionsAsync_inv {stable : Prop} (config : Option Config)
    (m : RconManager) (h : Inv stable m) : Inv stable (_initializeConnectionsAsync config m) := by
  unfold _initializeConnectionsAsync
  cases config with
  | none => exact h
  | some config =>
    simp only []
    cases config.mc_qq_server_list with
    | none => exact h
    | some l =>
      simp only []
      induction l generalizing m with
      | nil => exact h
      | cons c l ih =>
        simp only [List.foldl_cons]
        apply ih
        split
        · split
          · exact h
          · exact rcon_establishConnection_inv _ _ _ h
        · exact h

theorem rcon_performHeartbeatCheck_catch_inv {stable : Prop} (config : Config) (n : String)
    (m : RconManager) (h : Inv stable m) :
    Inv stable (_performHeartbeatCheck_catch config n m) := by
  unfold _performHeartbeatCheck_catch
  split
  · cases hf : findServerCfg config n with
    | none => exact h
    | some c =>
      simp only []
      have hn := findServerCfg_name hf
      subst hn
      exact rcon_dropAndSchedule_inv c _ m h
  · exact h

/-- A changed profile keeps the invariants; while profiles are stable the
changed profile is enabled. -/
theorem rcon_profileChanged_inv {stable : Prop} (c : ServerCfg) (m : RconManager)
    (h : Inv stable m) (hc : stable → c.rcon_able = true) :
    Inv stable (profileChanged c m) := by
  refine ⟨h.handles, ?_, h.recorded.tr_change c⟩
  intro hs u hu
  simp only [profileChanged, List.mem_map] at hu
  obtain ⟨t, ht, rfl⟩ := hu
  simp only [Timeout.afterChange, updateProfile]
  split
  · exact hc hs
  · exact h.enabled hs t ht

theorem rcon_step_inv {stable : Prop} (m : RconManager) (e : Event) (h : Inv stable m)
    (he : stable → e.keepsEnabled = true) : Inv stable (step m e) := by
  cases e with
  | construct config => exact rcon_initializeConnectionsAsync_inv config m h
  | connectResolved rcon =>
    simp only [step]
    split
    · exact rcon_establishConnection_resolved_inv _ _ _ ⟨h.handles, h.enabled, h.recorded⟩
    · exact h
  | connectRejected rcon =>
    simp only [step]
    split
    · exact rcon_dropAndSchedule_inv _ _ _ ⟨h.handles, h.enabled, h.recorded⟩
    · exact h
  | rconEnd rcon =>
    simp only [step]
    split
    · exact rcon_dropAndSchedule_inv _ _ _ h
    · exact h
  | rconError rcon =>
    simp only [step]
    split
    · exact rcon_dropAndSchedule_inv _ _ _ h
    · exact h
  | heartbeatFailed config n =>
    simp only [step]
    split
    · exact rcon_performHeartbeatCheck_catch_inv config n m h
    · exact h
  | timeout id =>
    simp only [step]
    split
    · rename_i t hf
      have hid : t.id = id := by simpa using List.find?_some hf
      subst hid
      exact rcon_attemptReconnect_inv t m h (List.mem_of_find?_eq_some hf)
    · exact h
  | forceReconnect config n => exact rcon_forceReconnect_inv config n m h
  | profileChanged c => exact rcon_profileChanged_inv c m h he

theorem rcon_foldl_step_inv {stable : Prop} (events : List Event) (m : RconManager)
    (h : Inv stable m) (he : stable → ∀ e ∈ events, e.keepsEnabled = true) :
    Inv stable (events.foldl step m) := by
  induction events generalizing m with
  | nil => exact h
  | cons e es ih =>
    exact ih _ (rcon_step_inv m e h (fun hs => he hs e (List.mem_cons_self _ _)))
      (fun hs x hx => he hs x (List.mem_cons_of_mem _ hx))

/-- After every sequence of events the armed timeouts are the recorded ones. -/
theorem rcon_run_inv (events : List Event) : Inv False (run events) :=
  rcon_foldl_step_inv events new (rcon_new_inv False) (fun hs => absurd hs id)

/-- After a sequence of events that disables no profile all invariants hold. -/
theorem rcon_run_stable (events : List Event)
    (he : ∀ e ∈ events, e.keepsEnabled = true) : Inv True (run events) :=
  rcon_foldl_step_inv events new (rcon_new_inv True) (fun _ => he)

theorem rcon_scheduleReconnect_ch (c : ServerCfg) (m : RconManager)
    (h : ConnectedImpliesHandle m.activeConnections m.connectionStates) :
    ConnectedImpliesHandle (_scheduleReconnect c m).activeConnections
      (_scheduleReconnect c m).connectionStates := by
  rcases rcon_scheduleReconnect_cases c m with he | ⟨_, _, t, _, _, _, hac, hst⟩
  · rw [he]; exact h
  · rw [hac]
    rcases hst with hst | hst
    · rw [hst]; exact h
    · rw [hst]; exact h.cih_setState _ (by decide)

theorem rcon_dropAndSchedule_ch (c : ServerCfg) (s : ConnectionState) (m : RconManager)
    (hs : s ≠ ConnectionState.CONNECTED)
    (h : ConnectedImpliesHandle m.activeConnections m.connectionStates) :
    ConnectedImpliesHandle
      (_scheduleReconnect c
        (_setConnectionState c.server_name s (_cleanupConnection c.server_name m))).activeConnections
      (_scheduleReconnect c
        (_setConnectionState c.server_name s (_cleanupConnection c.server_name m))).connectionStates := by
  apply rcon_scheduleReconnect_ch
  simp only [_setConnectionState, rcon_cleanupConnection_activeConnections,
    rcon_cleanupConnection_connectionStates]
  exact h.cih_drop _ hs

theorem rcon_establishConnection_ch (c : ServerCfg) (b : Bool) (m : RconManager)
    (h : ConnectedImpliesHandle m.activeConnections m.connectionStates) :
    ConnectedImpliesHandle (_establishConnection c b m).activeConnections
      (_establishConnection c b m).connectionStates := by
  rcases rcon_establishConnection_cases c b m with he | ⟨_, hac, hst, _, _⟩
  · rw [he]; exact h
  · rw [hac, hst]; exact h.cih_setState _ (by decide)

theorem rcon_attemptReconnect_ch (c : ServerCfg) (m : RconManager)
    (h : ConnectedImpliesHandle m.activeConnections m.connectionStates) :
    ConnectedImpliesHandle (_attemptReconnect c m).activeConnections
      (_attemptReconnect c m).connectionStates := by
  unfold _attemptReconnect
  simp only []
  split
  · exact h.cih_setState _ (by decide)
  · exact rcon_establishConnection_ch _ _ _ h

theorem rcon_initializeConnectionsAsync_ch (config : Option Config) (m : RconManager)
    (h : ConnectedImpliesHandle m.activeConnections m.connectionStates) :
    ConnectedImpliesHandle (_initializeConnectionsAsync config m).activeConnections
      (_initializeConnectionsAsync config m).connectionStates := by
  unfold _initializeConnectionsAsync
  cases config with
  | none => exact h
  | some config =>
    simp only []
    cases config.mc_qq_server_list with
    | none => exact h
    | some l =>
      simp only []
      induction l generalizing m with
      | nil => exact h
      | cons c l ih =>
        simp only [List.foldl_cons]
        apply ih
        split
        · split
          · exact h
          · exact rcon_establishConnection_ch _ _ _ h
        · exact h

theorem rcon_step_ch (m : RconManager) (e : Event) (he : e.isForceReconnect = false)
    (h : ConnectedImpliesHandle m.activeConnections m.connectionStates) :
    ConnectedImpliesHandle (step m e).activeConnections (step m e).connectionStates := by
  cases e with
  | construct config => exact rcon_initializeConnectionsAsync_ch config m h
  | connectResolved rcon =>
    simp only [step]
    split
    · exact h.cih_connect _ _
    · exact h
  | connectRejected rcon =>
    simp only [step]
    split
    · exact rcon_dropAndSchedule_ch _ _ _ (by decide) h
    · exact h
  | rconEnd rcon =>
    simp only [step]
    split
    · exact rcon_dropAndSchedule_ch _ _ _ (by decide) h
    · exact h
  | rconError rcon =>
    simp only [step]
    split
    · exact rcon_dropAndSchedule_ch _ _ _ (by decide) h
    · exact h
  | heartbeatFailed config n =>
    simp only [step]
    split
    · unfold _performHeartbeatCheck_catch
      split
      · cases hf : findServerCfg config n with
        | none => exact h
        | some c =>
          simp only []
          have hn := findServerCfg_name hf
          subst hn
          exact rcon_dropAndSchedule_ch c _ m (by decide) h
      · exact h
    · exact h
  | timeout id =>
    simp only [step]
    split
    · exact rcon_attemptReconnect_ch _ _ h
    · exact h
  | forceReconnect config n => simp [Event.isForceReconnect] at he
  | profileChanged c => exact h

theorem rcon_run_ch (events : List Event) (he : ∀ e ∈ events, e.isForceReconnect = false) :
    ConnectedImpliesHandle (run events).activeConnections (run events).connectionStates := by
  have key : ∀ (es : List Event) (m : RconManager),
      (∀ e ∈ es, e.isForceReconnect = false) →
      ConnectedImpliesHandle m.activeConnections m.connectionStates →
      ConnectedImpliesHandle (es.foldl step m).activeConnections
        (es.foldl step m).connectionStates := by
    intro es
    induction es with
    | nil => intro m _ h; exact h
    | cons e es ih =>
      intro m hes h
      exact ih _ (fun e' he' => hes e' (List.mem_cons_of_mem _ he'))
        (rcon_step_ch m e (hes e (List.mem_cons_self _ _)) h)
  exact key events new he (fun n hn => by simp [new, Dict.empty] at hn)

end RconManager

namespace WebSocketManager

theorem ws_getConnectionState_eq_connected (m : WebSocketManager) (n : String) :
    _getConnectionState m n = ConnectionState.CONNECTED
      ↔ m.connectionStates n = some ConnectionState.CONNECTED := by
  unfold _getConnectionState
  cases m.connectionStates n <;> simp

/-- What `_cleanupConnection` does to the four dictionaries and the armed timeouts. -/
theorem ws_cleanupConnection_fields (n : String) (m : WebSocketManager) :
    (_cleanupConnection n m).activeSockets = Dict.delete m.activeSockets n ∧
    (_cleanupConnection n m).connectionStates = m.connectionStates ∧
    (_cleanupConnection n m).reconnectTimers = Dict.delete m.reconnectTimers n ∧
    (_cleanupConnection n m).timeouts =
      (match m.reconnectTimers n with
      | some t => m.timeouts.filter (fun u => u.id != t.id)
      | none => m.timeouts) := by
  have hd : ∀ {α : Type} (d : Dict α), d n = none → Dict.delete d n = d := by
    intro α d hd
    funext x
    by_cases hx : x = n
    · simp [Dict.delete, hx, hd]
    · simp [Dict.delete, hx]
  unfold _cleanupConnection
  cases h : m.activeSockets n with
  | none =>
    cases h2 : m.reconnectTimers n with
    | none => simp [h2, hd _ h, hd _ h2]
    | some t => simp [h2, hd _ h, clearTimeout]
  | some ws =>
    by_cases hr : m.readyState ws = ReadyState.OPEN ∨ m.readyState ws = ReadyState.CONNECTING
    · cases h2 : m.reconnectTimers n with
      | none => simp [h2, hr, hd _ h2, socketClose]
      | some t => simp [h2, hr, clearTimeout, socketClose]
    · cases h2 : m.reconnectTimers n with
      | none => simp [h2, hr, hd _ h2]
      | some t => simp [h2, hr, clearTimeout]

theorem ws_cleanupConnection_activeSockets (n : String) (m : WebSocketManager) :
    (_cleanupConnection n m).activeSockets = Dict.delete m.activeSockets n :=
  (ws_cleanupConnection_fields n m).1

theorem ws_cleanupConnection_connectionStates (n : String) (m : WebSocketManager) :
    (_cleanupConnection n m).connectionStates = m.connectionStates :=
  (ws_cleanupConnection_fields n m).2.1

theorem ws_cleanupConnection_reconnectTimers (n : String) (m : WebSocketManager) :
    (_cleanupConnection n m).reconnectTimers = Dict.delete m.reconnectTimers n :=
  (ws_cleanupConnection_fields n m).2.2.1

theorem ws_cleanupConnection_timeouts (n : String) (m : WebSocketManager) :
    (_cleanupConnection n m).timeouts =
      match m.reconnectTimers n with
      | some t => m.timeouts.filter (fun u => u.id != t.id)
      | none => m.timeouts :=
  (ws_cleanupConnection_fields n m).2.2.2

/-- Either `_scheduleReconnect` changes nothing, or it arms and records one
timeout for an enabled profile that had none recorded. -/
theorem ws_scheduleReconnect_cases (c : ServerCfg) (g : Bool) (m : WebSocketManager) :
    _scheduleReconnect c g m = m ∨
    (m.reconnectTimers c.server_name = none ∧ c.ws_able = true ∧
      ∃ t : Timeout, t.serverCfg = c ∧
        (_scheduleReconnect c g m).timeouts = m.timeouts ++ [t] ∧
        (_scheduleReconnect c g m).reconnectTimers
          = Dict.set m.reconnectTimers c.server_name t ∧
        (_scheduleReconnect c g m).activeSockets = m.activeSockets ∧
        ((_scheduleReconnect c g m).connectionStates = m.connectionStates ∨
          (_scheduleReconnect c g m).connectionStates
            = Dict.set m.connectionStates c.server_name ConnectionState.RECONNECTING)) := by
  unfold _scheduleReconnect
  simp only []
  split
  · left; rfl
  · rename_i hg
    split
    · left; rfl
    · rename_i ha
      right
      have hnone : m.reconnectTimers c.server_name = none := by
        cases h : m.reconnectTimers c.server_name <;> simp_all
      refine ⟨hnone, by simpa using ha, ?_⟩
      split
      · exact ⟨_, rfl, rfl, rfl, rfl, Or.inr rfl⟩
      · exact ⟨_, rfl, rfl, rfl, rfl, Or.inl rfl⟩

theorem ws_cleanupConnection_frame (n : String) (m : WebSocketManager) :
    (_cleanupConnection n m).reconnectAttempts = m.reconnectAttempts ∧
    (_cleanupConnection n m).nextTimeout = m.nextTimeout ∧
    (_cleanupConnection n m).clients = m.clients := by
  unfold _cleanupConnection
  cases h : m.activeSockets n with
  | none =>
    cases h2 : m.reconnectTimers n <;> simp [h2, clearTimeout]
  | some ws =>
    by_cases hr : m.readyState ws = ReadyState.OPEN ∨ m.readyState ws = ReadyState.CONNECTING
    · cases h2 : m.reconnectTimers n <;> simp [h2, hr, clearTimeout, socketClose]
    · cases h2 : m.reconnectTimers n <;> simp [h2, hr, clearTimeout]

theorem ws_cleanupConnection_handle (n : String) (m : WebSocketManager) (other : Nat)
    (h : m.activeSockets n = some other) :
    (_cleanupConnection n m).readyState
      = (if m.readyState other = ReadyState.OPEN ∨ m.readyState other = ReadyState.CONNECTING
         then (socketClose other none m).readyState else m.readyState) ∧
    (_cleanupConnection n m).closeCalls
      = (if m.readyState other = ReadyState.OPEN ∨ m.readyState other = ReadyState.CONNECTING
         then m.closeCalls ++ [(other, none)] else m.closeCalls) := by
  unfold _cleanupConnection
  by_cases hr : m.readyState other = ReadyState.OPEN ∨ m.readyState other = ReadyState.CONNECTING
  · cases h2 : m.reconnectTimers n <;> simp [h, h2, hr, clearTimeout, socketClose]
  · cases h2 : m.reconnectTimers n <;> simp [h, h2, hr, clearTimeout]

theorem ws_cleanupConnection_readyState (n : String) (m : WebSocketManager) (x : Nat) :
    (_cleanupConnection n m).readyState x = m.readyState x ∨
    (_cleanupConnection n m).readyState x = ReadyState.CLOSING := by
  unfold _cleanupConnection
  cases h : m.activeSockets n with
  | none =>
    cases h2 : m.reconnectTimers n <;> simp [h2, clearTimeout]
  | some ws =>
    by_cases hr : m.readyState ws = ReadyState.OPEN ∨ m.readyState ws = ReadyState.CONNECTING
    · by_cases hx : x = ws
      · cases h2 : m.reconnectTimers n <;> simp [h2, hr, hx, clearTimeout, socketClose]
      · cases h2 : m.reconnectTimers n <;> simp [h2, hr, hx, clearTimeout, socketClose]
    · cases h2 : m.reconnectTimers n <;> simp [h2, hr, clearTimeout]

theorem ws_scheduleReconnect_frame (c : ServerCfg) (g : Bool) (m : WebSocketManager) :
    (_scheduleReconnect c g m).activeSockets = m.activeSockets ∧
    (_scheduleReconnect c g m).readyState = m.readyState ∧
    (_scheduleReconnect c g m).closeCalls = m.closeCalls ∧
    (_scheduleReconnect c g m).clients = m.clients := by
  unfold _scheduleReconnect
  simp only []
  split
  · exact ⟨rfl, rfl, rfl, rfl⟩
  · split
    · exact ⟨rfl, rfl, rfl, rfl⟩
    · split <;> exact ⟨rfl, rfl, rfl, rfl⟩

/-- After `_cleanupConnection` and a state that is neither `connecting` nor
`reconnecting`, `_scheduleReconnect` for an enabled profile passes its guard. -/
theorem ws_dropAndSchedule_fields (c : ServerCfg) (g : Bool) (s : ConnectionState)
    (m : WebSocketManager) (hable : c.ws_able = true) (h1 : s ≠ ConnectionState.CONNECTING)
    (h2 : s ≠ ConnectionState.RECONNECTING) :
    (_scheduleReconnect c g (_setConnectionState c.server_name s
        (_cleanupConnection c.server_name m))).reconnectAttempts c.server_name
      = some ((m.reconnectAttempts c.server_name).getD 0 + 1) ∧
    (_scheduleReconnect c g (_setConnectionState c.server_name s
        (_cleanupConnection c.server_name m))).reconnectTimers c.server_name
      = some { id := m.nextTimeout,
               delay := if (m.reconnectAttempts c.server_name).getD 0 + 1
                   ≤ orThree c.ws_max_attempts
                 then _calculateReconnectDelay ((m.reconnectAttempts c.server_name).getD 0 + 1)
                 else 300000,
               serverCfg := c, globalDebug := g } ∧
    (_scheduleReconnect c g (_setConnectionState c.server_name s
        (_cleanupConnection c.server_name m))).timeouts
      = (_cleanupConnection c.server_name m).timeouts ++
          [{ id := m.nextTimeout,
             delay := if (m.reconnectAttempts c.server_name).getD 0 + 1
                 ≤ orThree c.ws_max_attempts
               then _calculateReconnectDelay ((m.reconnectAttempts c.server_name).getD 0 + 1)
               else 300000,
             serverCfg := c, globalDebug := g }] ∧
    (_scheduleReconnect c g (_setConnectionState c.server_name s
        (_cleanupConnection c.server_name m))).nextTimeout = m.nextTimeout + 1 := by
  have hf := ws_cleanupConnection_frame c.server_name m
  have ht := ws_cleanupConnection_reconnectTimers c.server_name m
  by_cases hle : (m.reconnectAttempts c.server_name).getD 0 + 1 ≤ orThree c.ws_max_attempts
  · simp [_scheduleReconnect, _setConnectionState, _getConnectionState, ht, hf.1, hf.2.1,
      Dict.delete, Dict.set, hable, h1, h2, hle, setTimeout]
  · simp [_scheduleReconnect, _setConnectionState, _getConnectionState, ht, hf.1, hf.2.1,
      Dict.delete, Dict.set, hable, h1, h2, hle, setTimeout]

theorem ws_new_inv (stable : Prop) (urlRejected : String → Bool) :
    Inv stable (new urlRejected) :=
  ⟨fun _ t h => by simp [new] at h, fun n => by simp [new, armedFor]⟩

theorem ws_scheduleReconnect_inv {stable : Prop} (c : ServerCfg) (g : Bool) (m : WebSocketManager) (h : Inv stable m) :
    Inv stable (_scheduleReconnect c g m) := by
  rcases ws_scheduleReconnect_cases c g m with he | ⟨hnone, hable, t, htc, hto, hti, _, _⟩
  · rw [he]; exact h
  · refine ⟨?_, ?_⟩
    · intro hs u hu
      rw [hto] at hu
      rcases List.mem_append.mp hu with hu | hu
      · exact h.wsEnabled hs u hu
      · have : u = t := by simpa using hu
        rw [this, htc]; exact hable
    · rw [hto, hti]
      have := h.wsRecorded.tr_arm (t := t) (by rw [htc]; exact hnone)
      rwa [htc] at this

theorem ws_cleanupConnection_inv {stable : Prop} (n : String) (m : WebSocketManager) (h : Inv stable m) :
    Inv stable (_cleanupConnection n m) := by
  refine ⟨?_, ?_⟩
  · intro hs u hu
    rw [ws_cleanupConnection_timeouts] at hu
    apply h.wsEnabled hs
    cases hr : m.reconnectTimers n with
    | none => simpa [hr] using hu
    | some t => rw [hr] at hu; exact (List.mem_filter.mp hu).1
  · rw [ws_cleanupConnection_timeouts, ws_cleanupConnection_reconnectTimers]
    exact h.wsRecorded.tr_clear n

theorem ws_dropAndSchedule_inv {stable : Prop} (c : ServerCfg) (g : Bool) (n : String) (s : ConnectionState)
    (m : WebSocketManager) (h : Inv stable m) :
    Inv stable (_scheduleReconnect c g (_setConnectionState n s (_cleanupConnection n m))) := by
  apply ws_scheduleReconnect_inv
  have := ws_cleanupConnection_inv n m h
  exact ⟨this.wsEnabled, this.wsRecorded⟩

theorem ws_establishClientConnection_inv {stable : Prop} (c : ServerCfg) (g b : Bool) (m : WebSocketManager)
    (h : Inv stable m) : Inv stable (_establishClientConnection c g b m) := by
  cases b
  all_goals
    unfold _establishClientConnection
    simp only [Bool.not_true, Bool.not_false, Bool.false_eq_true, if_false, if_true]
    split
    · exact h
    · split
      · apply ws_dropAndSchedule_inv
        exact ⟨h.wsEnabled, h.wsRecorded⟩
      · exact ⟨h.wsEnabled, h.wsRecorded⟩

theorem ws_attemptReconnect_inv {stable : Prop} (t : Timeout) (m : WebSocketManager) (h : Inv stable m)
    (ht : t ∈ m.timeouts) :
    Inv stable (_attemptReconnect t.serverCfg t.globalDebug
      { m with timeouts := m.timeouts.filter (fun u => u.id != t.id) }) := by
  have h1 : Inv stable { m with
      timeouts := m.timeouts.filter (fun u => u.id != t.id)
      reconnectTimers := Dict.delete m.reconnectTimers t.serverCfg.server_name } :=
    ⟨fun hs u hu => h.wsEnabled hs u (List.mem_filter.mp hu).1, h.wsRecorded.tr_fire ht⟩
  unfold _attemptReconnect
  by_cases hable : t.serverCfg.ws_able = true
  · simp only [hable, Bool.not_true, Bool.false_eq_true, if_false]
    exact ws_establishClientConnection_inv _ _ _ _ h1
  · simp only [hable, Bool.not_false, if_true]
    exact ⟨h1.wsEnabled, h1.wsRecorded⟩

theorem ws_forceReconnect_inv {stable : Prop} (config : Config) (n : String) (m : WebSocketManager) (h : Inv stable m) :
    Inv stable (forceReconnect config n m).1 := by
  unfold forceReconnect
  cases hf : findServerCfg config n with
  | none => exact h
  | some c =>
    simp only []
    split
    · exact h
    · apply ws_establishClientConnection_inv
      have := ws_cleanupConnection_inv n m h
      exact ⟨this.wsEnabled, this.wsRecorded⟩

theorem ws_connectToRemoteServers_inv {stable : Prop} (config : Config) (m : WebSocketManager) (h : Inv stable m) :
    Inv stable (_connectToRemoteServers config m) := by
  unfold _connectToRemoteServers
  cases config.mc_qq_server_list with
  | none => exact h
  | some l =>
    simp only []
    induction l generalizing m with
    | nil => exact h
    | cons c l ih =>
      simp only [List.foldl_cons]
      apply ih
      split
      · split
        · exact h
        · exact ws_establishClientConnection_inv _ _ _ _ h
      · exact h

theorem ws_initializeAsync_inv {stable : Prop} (config : Option Config) (m : WebSocketManager) (h : Inv stable m) :
    Inv stable (_initializeAsync config m) := by
  unfold _initializeAsync
  cases config with
  | none => exact h
  | some config =>
    simp only []
    apply ws_connectToRemoteServers_inv
    split
    · unfold _startLocalServer
      split
      · exact h
      · exact ⟨h.wsEnabled, h.wsRecorded⟩
    · exact h

theorem ws_performHeartbeatCheck_drop_inv {stable : Prop} (config : Config) (n : String) (m : WebSocketManager)
    (h : Inv stable m) : Inv stable (_performHeartbeatCheck_drop config n m) := by
  unfold _performHeartbeatCheck_drop
  cases hf : findServerCfg config n with
  | none => exact h
  | some c => exact ws_dropAndSchedule_inv _ _ _ _ _ h

theorem ws_onConnection_inv {stable : Prop} (wsPassword : String) (ws : Nat) (request : Request)
    (m : WebSocketManager) (h : Inv stable m) :
    Inv stable (_startLocalServer_onConnection wsPassword ws request m) := by
  unfold _startLocalServer_onConnection
  simp only []
  split
  · split <;> exact ⟨h.wsEnabled, h.wsRecorded⟩
  · split
    · split <;> exact ⟨h.wsEnabled, h.wsRecorded⟩
    · split
      · exact ⟨h.wsEnabled, h.wsRecorded⟩
      · split
        · exact ⟨h.wsEnabled, h.wsRecorded⟩
        · split <;> exact ⟨h.wsEnabled, h.wsRecorded⟩

/-- A changed profile keeps the invariants; while profiles are stable the
changed profile is enabled. -/
theorem ws_profileChanged_inv {stable : Prop} (c : ServerCfg) (m : WebSocketManager)
    (h : Inv stable m) (hc : stable → c.ws_able = true) :
    Inv stable (profileChanged c m) := by
  refine ⟨?_, h.wsRecorded.tr_change c⟩
  intro hs u hu
  simp only [profileChanged, List.mem_map] at hu
  obtain ⟨t, ht, rfl⟩ := hu
  simp only [Timeout.afterChange, updateProfile]
  split
  · exact hc hs
  · exact h.wsEnabled hs t ht

theorem ws_step_inv {stable : Prop} (m : WebSocketManager) (e : Event) (h : Inv stable m)
    (he : stable → e.keepsEnabled = true) : Inv stable (step m e) := by
  cases e with
  | construct config => exact ws_initializeAsync_inv config m h
  | socketOpen ws =>
    simp only [step]
    split
    · split
      · exact ⟨h.wsEnabled, h.wsRecorded⟩
      · exact h
    · exact h
  | socketClosed ws code =>
    simp only [step]
    split
    · split
      · unfold _establishClientConnection_onClose
        simp only []
        split
        · exact ws_dropAndSchedule_inv _ _ _ _ _ ⟨h.wsEnabled, h.wsRecorded⟩
        · rename_i c g _ _ _
          have := ws_cleanupConnection_inv c.server_name _
            (show Inv stable (setReadyState ws ReadyState.CLOSED m) from ⟨h.wsEnabled, h.wsRecorded⟩)
          exact ⟨this.wsEnabled, this.wsRecorded⟩
      · exact h
    · exact h
  | socketError ws =>
    simp only [step]
    split
    · split
      · exact ws_dropAndSchedule_inv _ _ _ _ _ ⟨h.wsEnabled, h.wsRecorded⟩
      · exact h
    · exact h
  | connection request =>
    simp only [step]
    split
    · exact ws_onConnection_inv _ _ _ _ ⟨h.wsEnabled, h.wsRecorded⟩
    · exact h
  | peerClosed ws =>
    simp only [step]
    split
    · split
      · exact ⟨h.wsEnabled, h.wsRecorded⟩
      · exact h
    · exact h
  | peerError ws =>
    simp only [step]
    split
    · split
      · exact ⟨h.wsEnabled, h.wsRecorded⟩
      · exact h
    · exact h
  | heartbeat config n now pingThrows =>
    simp only [step]
    split
    · unfold _performHeartbeatCheck_entry
      simp only []
      split
      · split
        · exact ws_performHeartbeatCheck_drop_inv _ _ _ ⟨h.wsEnabled, h.wsRecorded⟩
        · exact ⟨h.wsEnabled, h.wsRecorded⟩
      · split
        · exact ws_performHeartbeatCheck_drop_inv _ _ _ h
        · exact h
    · exact h
  | pong ws => exact ⟨h.wsEnabled, h.wsRecorded⟩
  | pongTimeout id =>
    simp only [step]
    split
    · exact ws_performHeartbeatCheck_drop_inv _ _ _ ⟨h.wsEnabled, h.wsRecorded⟩
    · exact h
  | timeout id =>
    simp only [step]
    split
    · rename_i t hf
      have hid : t.id = id := by simpa using List.find?_some hf
      subst hid
      exact ws_attemptReconnect_inv t m h (List.mem_of_find?_eq_some hf)
    · exact h
  | forceReconnect config n => exact ws_forceReconnect_inv config n m h
  | profileChanged c => exact ws_profileChanged_inv c m h he

theorem ws_foldl_step_inv {stable : Prop} (events : List Event) (m : WebSocketManager)
    (h : Inv stable m) (he : stable → ∀ e ∈ events, e.keepsEnabled = true) :
    Inv stable (events.foldl step m) := by
  induction events generalizing m with
  | nil => exact h
  | cons e es ih =>
    exact ih _ (ws_step_inv m e h (fun hs => he hs e (List.mem_cons_self _ _)))
      (fun hs x hx => he hs x (List.mem_cons_of_mem _ hx))

/-- After every sequence of events the armed timeouts are the recorded ones. -/
theorem ws_run_inv (urlRejected : String → Bool) (events : List Event) :
    Inv False (run urlRejected events) :=
  ws_foldl_step_inv events _ (ws_new_inv False urlRejected) (fun hs => absurd hs id)

/-- After a sequence of events that disables no profile every armed timeout
reconnects an enabled profile. -/
theorem ws_run_stable (urlRejected : String → Bool) (events : List Event)
    (he : ∀ e ∈ events, e.keepsEnabled = true) : Inv True (run urlRejected events) :=
  ws_foldl_step_inv events _ (ws_new_inv True urlRejected) (fun _ => he)

theorem ws_scheduleReconnect_hc (c : ServerCfg) (g : Bool) (m : WebSocketManager)
    (h : HandleImpliesConnected m.activeSockets m.connectionStates)
    (hn : m.activeSockets c.server_name = none) :
    HandleImpliesConnected (_scheduleReconnect c g m).activeSockets
      (_scheduleReconnect c g m).connectionStates := by
  rcases ws_scheduleReconnect_cases c g m with he | ⟨_, _, t, _, _, _, hac, hst⟩
  · rw [he]; exact h
  · rw [hac]
    rcases hst with hst | hst
    · rw [hst]; exact h
    · rw [hst]; exact h.hic_setState hn _

theorem ws_scheduleReconnect_ch (c : ServerCfg) (g : Bool) (m : WebSocketManager)
    (h : ConnectedImpliesHandle m.activeSockets m.connectionStates) :
    ConnectedImpliesHandle (_scheduleReconnect c g m).activeSockets
      (_scheduleReconnect c g m).connectionStates := by
  rcases ws_scheduleReconnect_cases c g m with he | ⟨_, _, t, _, _, _, hac, hst⟩
  · rw [he]; exact h
  · rw [hac]
    rcases hst with hst | hst
    · rw [hst]; exact h
    · rw [hst]; exact h.cih_setState _ (by decide)

theorem ws_dropAndSchedule_hc (c : ServerCfg) (g : Bool) (s : ConnectionState)
    (m : WebSocketManager) (h : HandleImpliesConnected m.activeSockets m.connectionStates) :
    HandleImpliesConnected
      (_scheduleReconnect c g
        (_setConnectionState c.server_name s (_cleanupConnection c.server_name m))).activeSockets
      (_scheduleReconnect c g
        (_setConnectionState c.server_name s
          (_cleanupConnection c.server_name m))).connectionStates := by
  apply ws_scheduleReconnect_hc
  · simp only [_setConnectionState, ws_cleanupConnection_activeSockets,
      ws_cleanupConnection_connectionStates]
    exact h.hic_drop _ _
  · simp [_setConnectionState, ws_cleanupConnection_activeSockets, Dict.delete]

theorem ws_dropAndSchedule_ch (c : ServerCfg) (g : Bool) (s : ConnectionState)
    (m : WebSocketManager) (hs : s ≠ ConnectionState.CONNECTED)
    (h : ConnectedImpliesHandle m.activeSockets m.connectionStates) :
    ConnectedImpliesHandle
      (_scheduleReconnect c g
        (_setConnectionState c.server_name s (_cleanupConnection c.server_name m))).activeSockets
      (_scheduleReconnect c g
        (_setConnectionState c.server_name s
          (_cleanupConnection c.server_name m))).connectionStates := by
  apply ws_scheduleReconnect_ch
  simp only [_setConnectionState, ws_cleanupConnection_activeSockets,
    ws_cleanupConnection_connectionStates]
  exact h.cih_drop _ hs

theorem ws_establishClientConnection_hc (c : ServerCfg) (g b : Bool) (m : WebSocketManager)
    (h : HandleImpliesConnected m.activeSockets m.connectionStates) :
    HandleImpliesConnected (_establishClientConnection c g b m).activeSockets
      (_establishClientConnection c g b m).connectionStates := by
  cases b
  all_goals
    unfold _establishClientConnection
    simp only [Bool.not_true, Bool.not_false, Bool.false_eq_true, if_false, if_true]
    split
    · exact h
    · rename_i hg
      have hne : m.connectionStates c.server_name ≠ some ConnectionState.CONNECTED := by
        rw [Ne, ← ws_getConnectionState_eq_connected]
        simp_all
      have h1 : HandleImpliesConnected m.activeSockets
          (Dict.set m.connectionStates c.server_name ConnectionState.CONNECTING) :=
        h.hic_setState (h.hic_none_of_ne hne) _
      split
      · exact ws_dropAndSchedule_hc c g _ _ h1
      · exact h1

theorem ws_establishClientConnection_ch (c : ServerCfg) (g b : Bool) (m : WebSocketManager)
    (h : ConnectedImpliesHandle m.activeSockets m.connectionStates) :
    ConnectedImpliesHandle (_establishClientConnection c g b m).activeSockets
      (_establishClientConnection c g b m).connectionStates := by
  cases b
  all_goals
    unfold _establishClientConnection
    simp only [Bool.not_true, Bool.not_false, Bool.false_eq_true, if_false, if_true]
    split
    · exact h
    · have h1 : ConnectedImpliesHandle m.activeSockets
          (Dict.set m.connectionStates c.server_name ConnectionState.CONNECTING) :=
        h.cih_setState _ (by decide)
      split
      · exact ws_dropAndSchedule_ch c g _ _ (by decide) h1
      · exact h1

theorem ws_connectToRemoteServers_hc (config : Config) (m : WebSocketManager)
    (h : HandleImpliesConnected m.activeSockets m.connectionStates) :
    HandleImpliesConnected (_connectToRemoteServers config m).activeSockets
      (_connectToRemoteServers config m).connectionStates := by
  unfold _connectToRemoteServers
  cases config.mc_qq_server_list with
  | none => exact h
  | some l =>
    simp only []
    induction l generalizing m with
    | nil => exact h
    | cons c l ih =>
      simp only [List.foldl_cons]
      apply ih
      split
      · split
        · exact h
        · exact ws_establishClientConnection_hc _ _ _ _ h
      · exact h

theorem ws_connectToRemoteServers_ch (config : Config) (m : WebSocketManager)
    (h : ConnectedImpliesHandle m.activeSockets m.connectionStates) :
    ConnectedImpliesHandle (_connectToRemoteServers config m).activeSockets
      (_connectToRemoteServers config m).connectionStates := by
  unfold _connectToRemoteServers
  cases config.mc_qq_server_list with
  | none => exact h
  | some l =>
    simp only []
    induction l generalizing m with
    | nil => exact h
    | cons c l ih =>
      simp only [List.foldl_cons]
      apply ih
      split
      · split
        · exact h
        · exact ws_establishClientConnection_ch _ _ _ _ h
      · exact h

theorem ws_initializeAsync_hc (config : Option Config) (m : WebSocketManager)
    (h : HandleImpliesConnected m.activeSockets m.connectionStates) :
    HandleImpliesConnected (_initializeAsync config m).activeSockets
      (_initializeAsync config m).connectionStates := by
  unfold _initializeAsync
  cases config with
  | none => exact h
  | some config =>
    simp only []
    apply ws_connectToRemoteServers_hc
    split
    · unfold _startLocalServer
      split <;> exact h
    · exact h

theorem ws_initializeAsync_ch (config : Option Config) (m : WebSocketManager)
    (h : ConnectedImpliesHandle m.activeSockets m.connectionStates) :
    ConnectedImpliesHandle (_initializeAsync config m).activeSockets
      (_initializeAsync config m).connectionStates := by
  unfold _initializeAsync
  cases config with
  | none => exact h
  | some config =>
    simp only []
    apply ws_connectToRemoteServers_ch
    split
    · unfold _startLocalServer
      split <;> exact h
    · exact h

theorem ws_performHeartbeatCheck_drop_hc (config : Config) (n : String) (m : WebSocketManager)
    (h : HandleImpliesConnected m.activeSockets m.connectionStates) :
    HandleImpliesConnected (_performHeartbeatCheck_drop config n m).activeSockets
      (_performHeartbeatCheck_drop config n m).connectionStates := by
  unfold _performHeartbeatCheck_drop
  cases hf : findServerCfg config n with
  | none => exact h
  | some c =>
    have hn := findServerCfg_name hf
    subst hn
    exact ws_dropAndSchedule_hc c _ _ m h

theorem ws_performHeartbeatCheck_drop_ch (config : Config) (n : String) (m : WebSocketManager)
    (h : ConnectedImpliesHandle m.activeSockets m.connectionStates) :
    ConnectedImpliesHandle (_performHeartbeatCheck_drop config n m).activeSockets
      (_performHeartbeatCheck_drop config n m).connectionStates := by
  unfold _performHeartbeatCheck_drop
  cases hf : findServerCfg config n with
  | none => exact h
  | some c =>
    have hn := findServerCfg_name hf
    subst hn
    exact ws_dropAndSchedule_ch c _ _ m (by decide) h

theorem ws_step_hc (m : WebSocketManager) (e : Event) (he : e.isInbound = false)
    (hi : Inv True m)
    (h : HandleImpliesConnected m.activeSockets m.connectionStates) :
    HandleImpliesConnected (step m e).activeSockets (step m e).connectionStates := by
  cases e with
  | construct config => exact ws_initializeAsync_hc config m h
  | socketOpen ws =>
    simp only [step]
    split
    · split
      · exact h.hic_connect _ _
      · exact h
    · exact h
  | socketClosed ws code =>
    simp only [step]
    split
    · split
      · unfold _establishClientConnection_onClose
        simp only []
        split
        · exact ws_dropAndSchedule_hc _ _ _ (setReadyState ws ReadyState.CLOSED m) h
        · simp only [_setConnectionState, ws_cleanupConnection_activeSockets,
            ws_cleanupConnection_connectionStates]
          exact h.hic_drop _ _
      · exact h
    · exact h
  | socketError ws =>
    simp only [step]
    split
    · split
      · exact ws_dropAndSchedule_hc _ _ _ (setReadyState ws ReadyState.CLOSING m) h
      · exact h
    · exact h
  | connection request => simp [Event.isInbound] at he
  | peerClosed ws => simp [Event.isInbound] at he
  | peerError ws => simp [Event.isInbound] at he
  | heartbeat config n now pingThrows =>
    simp only [step]
    split
    · unfold _performHeartbeatCheck_entry
      simp only []
      split
      · split
        · exact ws_performHeartbeatCheck_drop_hc config n _ h
        · exact h
      · split
        · exact ws_performHeartbeatCheck_drop_hc config n m h
        · exact h
    · exact h
  | pong ws => exact h
  | pongTimeout id =>
    simp only [step]
    split
    · exact ws_performHeartbeatCheck_drop_hc _ _ _ h
    · exact h
  | timeout id =>
    simp only [step]
    split
    · rename_i t hf
      unfold _attemptReconnect
      simp only [hi.wsEnabled trivial t (List.mem_of_find?_eq_some hf), Bool.not_true,
        Bool.false_eq_true, if_false]
      exact ws_establishClientConnection_hc _ _ _ _ h
    · exact h
  | forceReconnect config n =>
    simp only [step]
    unfold forceReconnect
    cases hf : findServerCfg config n with
    | none => exact h
    | some c =>
      simp only []
      split
      · exact h
      · apply ws_establishClientConnection_hc
        simp only [ws_cleanupConnection_activeSockets, ws_cleanupConnection_connectionStates]
        exact h.hic_delete n
  | profileChanged c => exact h

theorem ws_step_ch (m : WebSocketManager) (e : Event) (he : e.isInbound = false)
    (hf : e.isForceReconnect = false)
    (h : ConnectedImpliesHandle m.activeSockets m.connectionStates) :
    ConnectedImpliesHandle (step m e).activeSockets (step m e).connectionStates := by
  cases e with
  | construct config => exact ws_initializeAsync_ch config m h
  | socketOpen ws =>
    simp only [step]
    split
    · split
      · exact h.cih_connect _ _
      · exact h
    · exact h
  | socketClosed ws code =>
    simp only [step]
    split
    · split
      · unfold _establishClientConnection_onClose
        simp only []
        split
        · exact ws_dropAndSchedule_ch _ _ _ (setReadyState ws ReadyState.CLOSED m) (by decide) h
        · simp only [_setConnectionState, ws_cleanupConnection_activeSockets,
            ws_cleanupConnection_connectionStates]
          exact h.cih_drop _ (by decide)
      · exact h
    · exact h
  | socketError ws =>
    simp only [step]
    split
    · split
      · exact ws_dropAndSchedule_ch _ _ _ (setReadyState ws ReadyState.CLOSING m) (by decide) h
      · exact h
    · exact h
  | connection request => simp [Event.isInbound] at he
  | peerClosed ws => simp [Event.isInbound] at he
  | peerError ws => simp [Event.isInbound] at he
  | heartbeat config n now pingThrows =>
    simp only [step]
    split
    · unfold _performHeartbeatCheck_entry
      simp only []
      split
      · split
        · exact ws_performHeartbeatCheck_drop_ch config n _ h
        · exact h
      · split
        · exact ws_performHeartbeatCheck_drop_ch config n m h
        · exact h
    · exact h
  | pong ws => exact h
  | pongTimeout id =>
    simp only [step]
    split
    · exact ws_performHeartbeatCheck_drop_ch _ _ _ h
    · exact h
  | timeout id =>
    simp only [step]
    split
    · unfold _attemptReconnect
      simp only []
      split
      · exact h.cih_setState _ (by decide)
      · exact ws_establishClientConnection_ch _ _ _ _ h
    · exact h
  | forceReconnect config n => simp [Event.isForceReconnect] at hf
  | profileChanged c => exact h

theorem ws_run_hc (urlRejected : String → Bool) (events : List Event)
    (he : ∀ e ∈ events, e.isInbound = false)
    (hk : ∀ e ∈ events, e.keepsEnabled = true) :
    HandleImpliesConnected (run urlRejected events).activeSockets
      (run urlRejected events).connectionStates := by
  have key : ∀ (es : List Event) (m : WebSocketManager),
      (∀ e ∈ es, e.isInbound = false) → (∀ e ∈ es, e.keepsEnabled = true) → Inv True m →
      HandleImpliesConnected m.activeSockets m.connectionStates →
      HandleImpliesConnected (es.foldl step m).activeSockets
        (es.foldl step m).connectionStates := by
    intro es
    induction es with
    | nil => intro m _ _ _ h; exact h
    | cons e es ih =>
      intro m hes hks hi h
      exact ih _ (fun e' he' => hes e' (List.mem_cons_of_mem _ he'))
        (fun e' he' => hks e' (List.mem_cons_of_mem _ he'))
        (ws_step_inv m e hi (fun _ => hks e (List.mem_cons_self _ _)))
        (ws_step_hc m e (hes e (List.mem_cons_self _ _)) hi h)
  exact key events _ he hk (ws_new_inv True urlRejected)
    (fun n hn => by simp [new, Dict.empty] at hn)

theorem ws_run_ch (urlRejected : String → Bool) (events : List Event)
    (he : ∀ e ∈ events, e.isInbound = false)
    (hf : ∀ e ∈ events, e.isForceReconnect = false) :
    ConnectedImpliesHandle (run urlRejected events).activeSockets
      (run urlRejected events).connectionStates := by
  have key : ∀ (es : List Event) (m : WebSocketManager),
      (∀ e ∈ es, e.isInbound = false) → (∀ e ∈ es, e.isForceReconnect = false) →
      ConnectedImpliesHandle m.activeSockets m.connectionStates →
      ConnectedImpliesHandle (es.foldl step m).activeSockets
        (es.foldl step m).connectionStates := by
    intro es
    induction es with
    | nil => intro m _ _ h; exact h
    | cons e es ih =>
      intro m hes hfs h
      exact ih _ (fun e' he' => hes e' (List.mem_cons_of_mem _ he'))
        (fun e' he' => hfs e' (List.mem_cons_of_mem _ he'))
        (ws_step_ch m e (hes e (List.mem_cons_self _ _)) (hfs e (List.mem_cons_self _ _)) h)
  exact key events _ he hf (fun n hn => by simp [new, Dict.empty] at hn)

end WebSocketManager

theorem RconManager.rcon_scheduleReconnect_guard (serverCfg : ServerCfg) (m : RconManager)
    (h : (m.reconnectTimers serverCfg.server_name).isSome = true
      ∨ RconManager._getConnectionState m serverCfg.server_name = ConnectionState.CONNECTING
      ∨ RconManager._getConnectionState m serverCfg.server_name = ConnectionState.RECONNECTING) :
    RconManager._scheduleReconnect serverCfg m = m := by
  unfold RconManager._scheduleReconnect
  rcases h with h | h | h <;> simp [h]

theorem RconManager.rcon_scheduleReconnect_armed (serverCfg : ServerCfg) (m : RconManager) :
    RconManager._scheduleReconnect serverCfg m = m
      ∨ ((RconManager._scheduleReconnect serverCfg m).reconnectTimers
          serverCfg.server_name).isSome = true := by
  unfold RconManager._scheduleReconnect
  simp only []
  split
  · left; rfl
  · split
    · left; rfl
    · right
      split <;> simp [RconManager.setTimeout, Dict.set, RconManager._setConnectionState]

theorem WebSocketManager.ws_scheduleReconnect_guard (serverCfg : ServerCfg) (globalDebug : Bool)
    (m : WebSocketManager)
    (h : (m.reconnectTimers serverCfg.server_name).isSome = true
      ∨ WebSocketManager._getConnectionState m serverCfg.server_name = ConnectionState.CONNECTING
      ∨ WebSocketManager._getConnectionState m serverCfg.server_name
          = ConnectionState.RECONNECTING) :
    WebSocketManager._scheduleReconnect serverCfg globalDebug m = m := by
  unfold WebSocketManager._scheduleReconnect
  rcases h with h | h | h <;> simp [h]

theorem WebSocketManager.ws_scheduleReconnect_armed (serverCfg : ServerCfg) (globalDebug : Bool)
    (m : WebSocketManager) :
    WebSocketManager._scheduleReconnect serverCfg globalDebug m = m
      ∨ ((WebSocketManager._scheduleReconnect serverCfg globalDebug m).reconnectTimers
          serverCfg.server_name).isSome = true := by
  unfold WebSocketManager._scheduleReconnect
  simp only []
  split
  · left; rfl
  · split
    · left; rfl
    · right
      split <;> simp [WebSocketManager.setTimeout, Dict.set, WebSocketManager._setConnectionState]

namespace WebSocketManager

/-- The manager with which `step` runs the `connection` handler. -/
theorem ws_step_connection (m : WebSocketManager) (request : Request) (wsPassword : String)
    (debugMode : Bool) (h : m.localServer = some (wsPassword, debugMode)) :
    step m (Event.connection request) =
      _startLocalServer_onConnection wsPassword m.nextSocket request
        (setReadyState m.nextSocket ReadyState.OPEN
          { m with nextSocket := m.nextSocket + 1 }) := by
  simp [step, h]

theorem ws_grows_refl (m : WebSocketManager) : Grows m m :=
  ⟨Nat.le_refl _, fun _ hp => Or.inl hp⟩

theorem ws_grows_of_eq {m m2 : WebSocketManager} (hp : m2.peers = m.peers)
    (hn : m2.nextSocket = m.nextSocket) : Grows m m2 :=
  ⟨by rw [hn], fun p h => Or.inl (by rwa [hp] at h)⟩

theorem ws_grows_trans {a b c : WebSocketManager} (h1 : Grows a b) (h2 : Grows b c) :
    Grows a c := by
  refine ⟨Nat.le_trans h1.1 h2.1, ?_⟩
  intro p hp
  rcases h2.2 p hp with h | ⟨h, h'⟩
  · rcases h1.2 p h with h | ⟨h, h'⟩
    · exact Or.inl h
    · exact Or.inr ⟨h, Nat.lt_of_lt_of_le h' h2.1⟩
  · exact Or.inr ⟨Nat.le_trans h1.1 h, h'⟩

theorem ws_cleanupConnection_sockets (n : String) (m : WebSocketManager) :
    (_cleanupConnection n m).peers = m.peers ∧
    (_cleanupConnection n m).nextSocket = m.nextSocket := by
  unfold _cleanupConnection
  cases h : m.activeSockets n with
  | none =>
    cases h2 : m.reconnectTimers n <;> simp [h2, clearTimeout]
  | some ws =>
    by_cases hr : m.readyState ws = ReadyState.OPEN ∨ m.readyState ws = ReadyState.CONNECTING
    · cases h2 : m.reconnectTimers n <;> simp [h2, hr, clearTimeout, socketClose]
    · cases h2 : m.reconnectTimers n <;> simp [h2, hr, clearTimeout]

theorem ws_scheduleReconnect_sockets (c : ServerCfg) (g : Bool) (m : WebSocketManager) :
    (_scheduleReconnect c g m).peers = m.peers ∧
    (_scheduleReconnect c g m).nextSocket = m.nextSocket := by
  unfold _scheduleReconnect
  simp only []
  split
  · exact ⟨rfl, rfl⟩
  · split
    · exact ⟨rfl, rfl⟩
    · split <;> exact ⟨rfl, rfl⟩

theorem ws_dropAndSchedule_grows (c : ServerCfg) (g : Bool) (n : String) (s : ConnectionState)
    (m : WebSocketManager) :
    Grows m (_scheduleReconnect c g (_setConnectionState n s (_cleanupConnection n m))) := by
  apply ws_grows_of_eq
  · rw [(ws_scheduleReconnect_sockets c g _).1]
    exact (ws_cleanupConnection_sockets n m).1
  · rw [(ws_scheduleReconnect_sockets c g _).2]
    exact (ws_cleanupConnection_sockets n m).2

theorem ws_establishClientConnection_grows (c : ServerCfg) (g b : Bool) (m : WebSocketManager) :
    Grows m (_establishClientConnection c g b m) := by
  cases b
  all_goals
    unfold _establishClientConnection
    simp only [Bool.not_true, Bool.not_false, Bool.false_eq_true, if_false, if_true]
    split
    · exact ws_grows_refl m
    · split
      · refine ws_grows_trans ?_ (ws_dropAndSchedule_grows c g _ _ _)
        exact ws_grows_of_eq rfl rfl
      · exact ⟨Nat.le_succ _, fun p hp => Or.inl hp⟩

theorem ws_connectToRemoteServers_grows (config : Config) (m : WebSocketManager) :
    Grows m (_connectToRemoteServers config m) := by
  unfold _connectToRemoteServers
  cases config.mc_qq_server_list with
  | none => exact ws_grows_refl m
  | some l =>
    simp only []
    induction l generalizing m with
    | nil => exact ws_grows_refl m
    | cons c l ih =>
      simp only [List.foldl_cons]
      refine ws_grows_trans ?_ (ih _)
      split
      · split
        · exact ws_grows_refl m
        · exact ws_establishClientConnection_grows _ _ _ _
      · exact ws_grows_refl m

theorem ws_performHeartbeatCheck_drop_grows (config : Config) (n : String)
    (m : WebSocketManager) : Grows m (_performHeartbeatCheck_drop config n m) := by
  unfold _performHeartbeatCheck_drop
  cases hf : findServerCfg config n with
  | none => exact ws_grows_refl m
  | some c => exact ws_dropAndSchedule_grows _ _ _ _ _

theorem ws_onConnection_grows (wsPassword : String) (request : Request)
    (m : WebSocketManager) :
    Grows m (_startLocalServer_onConnection wsPassword m.nextSocket request
      (setReadyState m.nextSocket ReadyState.OPEN { m with nextSocket := m.nextSocket + 1 })) := by
  have h0 : ∀ m2 : WebSocketManager, m2.peers = m.peers → m2.nextSocket = m.nextSocket + 1 →
      Grows m m2 := fun m2 hp hn =>
    ⟨by rw [hn]; exact Nat.le_succ _, fun p h => Or.inl (by rwa [hp] at h)⟩
  unfold _startLocalServer_onConnection
  simp only []
  split
  · split <;> exact h0 _ rfl rfl
  · split
    · split <;> exact h0 _ rfl rfl
    · split
      · exact h0 _ rfl rfl
      · split
        · exact h0 _ rfl rfl
        · split
          · exact h0 _ rfl rfl
          · refine ⟨Nat.le_succ _, ?_⟩
            intro p hp
            simp only [setReadyState, List.mem_append, List.mem_singleton] at hp
            rcases hp with hp | hp
            · exact Or.inl hp
            · right
              subst hp
              exact ⟨Nat.le_refl _, Nat.lt_succ_self _⟩

theorem ws_step_grows (m : WebSocketManager) (e : Event) : Grows m (step m e) := by
  cases e with
  | construct config =>
    simp only [step]
    unfold _initializeAsync
    cases config with
    | none => exact ws_grows_refl m
    | some config =>
      simp only []
      refine ws_grows_trans ?_ (ws_connectToRemoteServers_grows config _)
      split
      · unfold _startLocalServer
        split
        · exact ws_grows_refl m
        · exact ws_grows_of_eq rfl rfl
      · exact ws_grows_refl m
  | socketOpen ws =>
    simp only [step]
    split
    · split
      · exact ws_grows_of_eq rfl rfl
      · exact ws_grows_refl m
    · exact ws_grows_refl m
  | socketClosed ws code =>
    simp only [step]
    split
    · split
      · unfold _establishClientConnection_onClose
        simp only []
        split
        · refine ws_grows_trans ?_
            (ws_dropAndSchedule_grows _ _ _ _ (setReadyState ws ReadyState.CLOSED m))
          exact ws_grows_of_eq rfl rfl
        · rename_i c g _ _ _
          exact ws_grows_of_eq
            (ws_cleanupConnection_sockets c.server_name (setReadyState ws ReadyState.CLOSED m)).1
            (ws_cleanupConnection_sockets c.server_name (setReadyState ws ReadyState.CLOSED m)).2
      · exact ws_grows_refl m
    · exact ws_grows_refl m
  | socketError ws =>
    simp only [step]
    split
    · split
      · refine ws_grows_trans ?_
          (ws_dropAndSchedule_grows _ _ _ _ (setReadyState ws ReadyState.CLOSING m))
        exact ws_grows_of_eq rfl rfl
      · exact ws_grows_refl m
    · exact ws_grows_refl m
  | connection request =>
    simp only [step]
    split
    · exact ws_onConnection_grows _ _ _
    · exact ws_grows_refl m
  | peerClosed ws =>
    simp only [step]
    split
    · split
      · exact ws_grows_of_eq rfl rfl
      · exact ws_grows_refl m
    · exact ws_grows_refl m
  | peerError ws =>
    simp only [step]
    split
    · split
      · exact ws_grows_of_eq rfl rfl
      · exact ws_grows_refl m
    · exact ws_grows_refl m
  | heartbeat config n now pingThrows =>
    simp only [step]
    split
    · unfold _performHeartbeatCheck_entry
      simp only []
      split
      · split
        · refine ws_grows_trans ?_ (ws_performHeartbeatCheck_drop_grows _ _ _)
          exact ws_grows_of_eq rfl rfl
        · exact ws_grows_of_eq rfl rfl
      · split
        · exact ws_performHeartbeatCheck_drop_grows _ _ _
        · exact ws_grows_refl m
    · exact ws_grows_refl m
  | pong ws => exact ws_grows_of_eq rfl rfl
  | pongTimeout id =>
    simp only [step]
    split
    · refine ws_grows_trans ?_ (ws_performHeartbeatCheck_drop_grows _ _ _)
      exact ws_grows_of_eq rfl rfl
    · exact ws_grows_refl m
  | timeout id =>
    simp only [step]
    split
    · unfold _attemptReconnect
      simp only []
      split
      · exact ws_grows_of_eq rfl rfl
      · refine ws_grows_trans ?_ (ws_establishClientConnection_grows _ _ _ _)
        exact ws_grows_of_eq rfl rfl
    · exact ws_grows_refl m
  | forceReconnect config n =>
    simp only [step]
    unfold forceReconnect
    cases hf : findServerCfg config n with
    | none => exact ws_grows_refl m
    | some c =>
      simp only []
      split
      · exact ws_grows_refl m
      · refine ws_grows_trans ?_ (ws_establishClientConnection_grows _ _ _ _)
        exact ws_grows_of_eq (ws_cleanupConnection_sockets n m).1
          (ws_cleanupConnection_sockets n m).2
  | profileChanged c => exact ws_grows_of_eq rfl rfl

theorem ws_foldl_grows (events : List Event) (m : WebSocketManager) :
    Grows m (events.foldl step m) := by
  induction events generalizing m with
  | nil => exact ws_grows_refl m
  | cons e es ih => exact ws_grows_trans (ws_step_grows m e) (ih _)

theorem ws_run_peersFresh (urlRejected : String → Bool) (events : List Event) :
    PeersFresh (run urlRejected events) := by
  intro p hp
  rcases (ws_foldl_grows events (new urlRejected)).2 p hp with h | ⟨_, h⟩
  · simp [new] at h
  · exact h

/-- A `close` or `error` event of a socket without handlers changes nothing. -/
theorem ws_step_peer_noHandlers (m : WebSocketManager) (k : Nat)
    (h : ∀ p ∈ m.peers, p.1 ≠ k) :
    step m (Event.peerClosed k) = m ∧ step m (Event.peerError k) = m := by
  have hf : m.peers.find? (fun p => p.1 == k) = none := by
    rw [List.find?_eq_none]
    intro p hp
    simpa using h p hp
  simp [step, hf]

end WebSocketManager

/-- The entry that `RconManager.getConnectionStatus` writes for a server. -/
theorem rcon_getConnectionStatus_foldl (m : RconManager) (l : List ServerCfg)
    (acc : Dict RconManager.Status) (name : String) :
    (l.foldl (fun status serverCfg =>
      if serverCfg.rcon_able then
        Dict.setObject status serverCfg.server_name
          { state := Dict.getOr m.connectionStates serverCfg.server_name
              ConnectionState.DISCONNECTED
            connected := Dict.truthy m.activeConnections serverCfg.server_name
            reconnectAttempts := Dict.getOr m.reconnectAttempts serverCfg.server_name 0
            hasReconnectTimer := Dict.truthy m.reconnectTimers serverCfg.server_name }
      else status) acc) name =
    if name ≠ "__proto__" ∧ l.any (fun c => c.rcon_able && c.server_name == name) = true then
      some { state := Dict.getOr m.connectionStates name ConnectionState.DISCONNECTED
             connected := Dict.truthy m.activeConnections name
             reconnectAttempts := Dict.getOr m.reconnectAttempts name 0
             hasReconnectTimer := Dict.truthy m.reconnectTimers name }
    else acc name := by
  induction l generalizing acc with
  | nil => simp
  | cons c l ih =>
    simp only [List.foldl_cons, List.any_cons]
    rw [ih]
    by_cases hp : name = "__proto__"
    · subst hp
      by_cases ha : c.rcon_able = true
      · by_cases hn : c.server_name = "__proto__"
        · simp [ha, hn, Dict.setObject]
        · have hn2 : ¬ "__proto__" = c.server_name := fun h => hn h.symm
          simp [ha, hn, hn2, Dict.setObject, Dict.set]
      · simp [ha]
    · by_cases h1 : l.any (fun c => c.rcon_able && c.server_name == name) = true
      · simp [h1, hp]
      · simp only [h1, Bool.or_false]
        by_cases ha : c.rcon_able = true
        · by_cases hn : c.server_name = name
          · subst hn; simp [ha, hp, Dict.setObject, Dict.set]
          · have hn2 : ¬ name = c.server_name := fun h => hn h.symm
            by_cases hq : c.server_name = "__proto__"
            · have hp2 : ¬ "__proto__" = name := fun h => hp h.symm
              simp [ha, hn, hp, hp2, hq, Dict.setObject]
            · simp [ha, hn, hn2, hp, hq, Dict.setObject, Dict.set]
        · simp [ha, hp]

/-- The entry that `WebSocketManager.getConnectionStatus` writes for a server. -/
theorem ws_getConnectionStatus_foldl (m : WebSocketManager) (l : List ServerCfg)
    (acc : Dict WebSocketManager.Status) (name : String) :
    (l.foldl (fun status serverCfg =>
      if serverCfg.ws_able then
        Dict.setObject status serverCfg.server_name
          { state := Dict.getOr m.connectionStates serverCfg.server_name
              ConnectionState.DISCONNECTED
            connected := Dict.truthy m.activeSockets serverCfg.server_name
            reconnectAttempts := Dict.getOr m.reconnectAttempts serverCfg.server_name 0
            hasReconnectTimer := Dict.truthy m.reconnectTimers serverCfg.server_name }
      else status) acc) name =
    if name ≠ "__proto__" ∧ l.any (fun c => c.ws_able && c.server_name == name) = true then
      some { state := Dict.getOr m.connectionStates name ConnectionState.DISCONNECTED
             connected := Dict.truthy m.activeSockets name
             reconnectAttempts := Dict.getOr m.reconnectAttempts name 0
             hasReconnectTimer := Dict.truthy m.reconnectTimers name }
    else acc name := by
  induction l generalizing acc with
  | nil => simp
  | cons c l ih =>
    simp only [List.foldl_cons, List.any_cons]
    rw [ih]
    by_cases hp : name = "__proto__"
    · subst hp
      by_cases ha : c.ws_able = true
      · by_cases hn : c.server_name = "__proto__"
        · simp [ha, hn, Dict.setObject]
        · have hn2 : ¬ "__proto__" = c.server_name := fun h => hn h.symm
          simp [ha, hn, hn2, Dict.setObject, Dict.set]
      · simp [ha]
    · by_cases h1 : l.any (fun c => c.ws_able && c.server_name == name) = true
      · simp [h1, hp]
      · simp only [h1, Bool.or_false]
        by_cases ha : c.ws_able = true
        · by_cases hn : c.server_name = name
          · subst hn; simp [ha, hp, Dict.setObject, Dict.set]
          · have hn2 : ¬ name = c.server_name := fun h => hn h.symm
            by_cases hq : c.server_name = "__proto__"
            · have hp2 : ¬ "__proto__" = name := fun h => hp h.symm
              simp [ha, hn, hp, hp2, hq, Dict.setObject]
            · simp [ha, hn, hn2, hp, hq, Dict.setObject, Dict.set]
        · simp [ha, hp]

namespace Shutdown

theorem shutdown_sendTitleToServer_tasks (rconManager : RconManager)
    (webSocketManager : WebSocketManager) (serverCfg : ServerCfg) (title subtitle : String)
    (now : Int) (titleRejects : Bool) (s : Shutdown) :
    (_sendTitleToServer rconManager webSocketManager serverCfg title subtitle now titleRejects
      s).shutdownTasks = s.shutdownTasks := by
  unfold _sendTitleToServer
  simp only []
  split
  · rfl
  · rfl
  · split
    · rfl
    · split <;> rfl

theorem shutdown_scheduleNextUpdate_currentCount (serverName : String) (now : Int)
    (s : Shutdown) :
    ((_scheduleNextUpdate serverName now s).shutdownTasks serverName).map
        (fun t => t.currentCount)
      = (s.shutdownTasks serverName).map (fun t => t.currentCount) := by
  unfold _scheduleNextUpdate
  cases h : s.shutdownTasks serverName with
  | none => simp [h]
  | some task => simp [Dict.set]

theorem shutdown_executeShutdown_tasks (rconManager : RconManager)
    (webSocketManager : WebSocketManager) (serverName : String) (now : Int)
    (titleRejects : Bool) (s : Shutdown) :
    (_executeShutdown rconManager webSocketManager serverName now titleRejects
      s).shutdownTasks = s.shutdownTasks := by
  unfold _executeShutdown
  cases h : s.shutdownTasks serverName with
  | none => rfl
  | some task => simp [shutdown_sendTitleToServer_tasks]

theorem shutdown_cancelServerShutdown_sent (serverName : String) (s : Shutdown) :
    (_cancelServerShutdown serverName s).sent = s.sent := by
  unfold _cancelServerShutdown
  cases s.shutdownTasks serverName with
  | none => rfl
  | some task =>
    rcases task with ⟨_, _, _, _, _, _, i, f⟩
    cases i <;> cases f <;> rfl

theorem shutdown_cancelServerShutdown_confirming (serverName : String) (s : Shutdown) :
    (_cancelServerShutdown serverName s).confirming = s.confirming := by
  unfold _cancelServerShutdown
  cases s.shutdownTasks serverName with
  | none => rfl
  | some task =>
    rcases task with ⟨_, _, _, _, _, _, i, f⟩
    cases i <;> cases f <;> rfl

theorem shutdown_cancelServerShutdown_tasks (serverName : String) (s : Shutdown) :
    (_cancelServerShutdown serverName s).shutdownTasks
      = Dict.delete s.shutdownTasks serverName := by
  unfold _cancelServerShutdown
  cases h : s.shutdownTasks serverName with
  | none =>
    funext x
    by_cases hx : x = serverName
    · simp [Dict.delete, hx, h]
    · simp [Dict.delete, hx]
  | some task =>
    rcases task with ⟨_, _, _, _, _, _, i, f⟩
    cases i <;> cases f <;> rfl

theorem shutdown_sendTitleToServer_frame (rconManager : RconManager)
    (webSocketManager : WebSocketManager) (serverCfg : ServerCfg) (title subtitle : String)
    (now : Int) (titleRejects : Bool) (s : Shutdown) :
    ∃ items, _sendTitleToServer rconManager webSocketManager serverCfg title subtitle now
      titleRejects s = { s with sent := s.sent ++ items } := by
  unfold _sendTitleToServer
  simp only []
  split
  · exact ⟨[], by simp⟩
  · exact ⟨_, rfl⟩
  · split
    · exact ⟨_, rfl⟩
    · split
      · rename_i rcon _ _ _ _
        exact ⟨[Sent.rcon rcon (titleCommand "title" title),
          Sent.rcon rcon (titleCommand "subtitle" subtitle)], by simp⟩
      · exact ⟨_, rfl⟩

theorem shutdown_scheduleDelay_armed (serverName : String) (now : Int) (s : Shutdown)
    (task : ShutdownTask) (h : s.shutdownTasks serverName = some task) :
    (_scheduleNextUpdate serverName now s).timeouts
      = s.timeouts ++ [{ id := s.nextId, serverName := serverName,
                         due := now + max (scheduleDelay (now - task.startTime)) 1 }] := by
  simp [_scheduleNextUpdate, h, scheduleDelay]

theorem shutdown_range_frame {s t : Shutdown} (h : CountdownInRange s)
    (ht : t.shutdownTasks = s.shutdownTasks) (hc : t.confirming = s.confirming) :
    CountdownInRange t := by
  unfold CountdownInRange
  rw [ht, hc]
  exact h

theorem shutdown_range_sendTitle (rconManager : RconManager)
    (webSocketManager : WebSocketManager) (serverCfg : ServerCfg) (title subtitle : String)
    (now : Int) (titleRejects : Bool) {s : Shutdown} (h : CountdownInRange s) :
    CountdownInRange (_sendTitleToServer rconManager webSocketManager serverCfg title subtitle
      now titleRejects s) := by
  obtain ⟨items, hs⟩ := shutdown_sendTitleToServer_frame rconManager webSocketManager serverCfg
    title subtitle now titleRejects s
  rw [hs]
  exact shutdown_range_frame h rfl rfl

theorem shutdown_range_cancel (serverName : String) {s : Shutdown} (h : CountdownInRange s) :
    CountdownInRange (_cancelServerShutdown serverName s) := by
  refine ⟨?_, ?_⟩
  · intro name task
    rw [shutdown_cancelServerShutdown_tasks]
    simp only [Dict.delete]
    split
    · simp
    · exact h.1 name task
  · rw [shutdown_cancelServerShutdown_confirming]
    exact h.2

theorem shutdown_range_set {s : Shutdown} (h : CountdownInRange s) (serverName : String)
    (task : ShutdownTask) (h5 : 5 ≤ task.countdown) (h300 : task.countdown ≤ 300) :
    CountdownInRange { s with shutdownTasks := Dict.set s.shutdownTasks serverName task } := by
  refine ⟨?_, h.2⟩
  intro name t
  simp only [Dict.set]
  split
  · intro ht
    cases ht
    exact ⟨h5, h300⟩
  · exact h.1 name t

theorem shutdown_range_scheduleNextUpdate (serverName : String) (now : Int) {s : Shutdown}
    (h : CountdownInRange s) : CountdownInRange (_scheduleNextUpdate serverName now s) := by
  unfold _scheduleNextUpdate
  cases ht : s.shutdownTasks serverName with
  | none => exact h
  | some task =>
    have hr := h.1 serverName task ht
    exact shutdown_range_frame
      (shutdown_range_set h serverName { task with interval := some s.nextId } hr.1 hr.2)
      rfl rfl

theorem shutdown_range_startServerShutdown (rconManager : RconManager)
    (webSocketManager : WebSocketManager) (serverCfg : ServerCfg) (countdown : Nat)
    (action : String) (debugMode : Bool) (now : Int) (titleRejects : Bool) {s : Shutdown}
    (h : CountdownInRange s) (h5 : 5 ≤ countdown) (h300 : countdown ≤ 300) :
    CountdownInRange (_startServerShutdown rconManager webSocketManager serverCfg countdown
      action debugMode now titleRejects s) := by
  unfold _startServerShutdown
  apply shutdown_range_scheduleNextUpdate
  apply shutdown_range_sendTitle
  exact shutdown_range_set (shutdown_range_cancel _ h) _ _ h5 h300

theorem shutdown_range_executeShutdown (rconManager : RconManager)
    (webSocketManager : WebSocketManager) (serverName : String) (now : Int)
    (titleRejects : Bool) {s : Shutdown} (h : CountdownInRange s) :
    CountdownInRange (_executeShutdown rconManager webSocketManager serverName now
      titleRejects s) := by
  unfold _executeShutdown
  cases ht : s.shutdownTasks serverName with
  | none => exact h
  | some task =>
    exact shutdown_range_frame (shutdown_range_sendTitle rconManager webSocketManager
      task.serverCfg _ _ now titleRejects h) rfl rfl

theorem shutdown_range_updateCountdown (rconManager : RconManager)
    (webSocketManager : WebSocketManager) (serverName : String) (now : Int)
    (titleRejects : Bool) {s : Shutdown} (h : CountdownInRange s) :
    CountdownInRange (_updateCountdown rconManager webSocketManager serverName now
      titleRejects s) := by
  unfold _updateCountdown
  cases ht : s.shutdownTasks serverName with
  | none => exact h
  | some task =>
    have hr := h.1 serverName task ht
    have h2 := shutdown_range_set h serverName
      { task with currentCount := max 0 ((task.countdown : Int)
          - floorDiv1000 (now - task.startTime)) } hr.1 hr.2
    have hsend : ∀ (c : Prop) [Decidable c] (cfg : ServerCfg) (texts : String × String)
        (s2 : Shutdown), CountdownInRange s2 →
        CountdownInRange (if c then _sendTitleToServer rconManager webSocketManager cfg
          texts.1 texts.2 now titleRejects s2 else s2) := by
      intro c _ cfg texts s2 hs2
      split
      · exact shutdown_range_sendTitle _ _ _ _ _ _ _ hs2
      · exact hs2
    simp only []
    by_cases hpos : max 0 ((task.countdown : Int) - floorDiv1000 (now - task.startTime)) > 0
    · rw [if_pos hpos]
      apply shutdown_range_scheduleNextUpdate
      exact hsend _ _ _ _ h2
    · rw [if_neg hpos]
      exact shutdown_range_executeShutdown _ _ _ _ _ h2

theorem shutdown_range_initiateShutdown (e : MessageEvent) (countdown : Nat) (action : String)
    (config : Config) {s : Shutdown} (h : CountdownInRange s) (h5 : 5 ≤ countdown)
    (h300 : countdown ≤ 300) :
    CountdownInRange (_initiateShutdown e countdown action config s) := by
  unfold _initiateShutdown
  split
  · exact shutdown_range_frame h rfl rfl
  · exact shutdown_range_frame h rfl rfl
  · simp only []
    split
    · exact shutdown_range_frame h rfl rfl
    · split
      · exact shutdown_range_frame h rfl rfl
      · refine ⟨h.1, ?_⟩
        intro c hc
        simp only [reply, List.mem_append, List.mem_singleton] at hc
        rcases hc with hc | hc
        · exact h.2 c hc
        · subst hc
          exact ⟨h5, h300⟩

theorem shutdown_range_handle (action : String) (e : MessageEvent) (countdownTime : Option Nat)
    (config : Config) {s : Shutdown} (h : CountdownInRange s) :
    CountdownInRange (handle action e countdownTime config s).1 := by
  unfold handle
  split
  · exact h
  · simp only []
    split
    · exact shutdown_range_frame h rfl rfl
    · rename_i hr
      exact shutdown_range_initiateShutdown _ _ _ _ h (by omega) (by omega)

theorem shutdown_range_cancelShutdown (rconManager : RconManager)
    (webSocketManager : WebSocketManager) (e : MessageEvent) (config : Config) (now : Int)
    (titleRejects : Bool) {s : Shutdown} (h : CountdownInRange s) :
    CountdownInRange (cancelShutdown rconManager webSocketManager e config now titleRejects
      s).1 := by
  have hfold : ∀ (l : List ServerCfg) (acc : Shutdown × Nat), CountdownInRange acc.1 →
      CountdownInRange (l.foldl (fun (acc : Shutdown × Nat) serverCfg =>
        if (acc.1.shutdownTasks serverCfg.server_name).isSome then
          (_sendTitleToServer rconManager webSocketManager serverCfg
            "🟢 关机已取消" "操作人员已取消服务器关机" now titleRejects
            (_cancelServerShutdown serverCfg.server_name acc.1), acc.2 + 1)
        else acc) acc).1 := by
    intro l
    induction l with
    | nil => intro acc hacc; exact hacc
    | cons c l ih =>
      intro acc hacc
      simp only [List.foldl_cons]
      apply ih
      split
      · exact shutdown_range_sendTitle _ _ _ _ _ _ _ (shutdown_range_cancel _ hacc)
      · exact hacc
  unfold cancelShutdown
  split
  · exact h
  · split
    · exact shutdown_range_frame h rfl rfl
    · exact shutdown_range_frame h rfl rfl
    · simp only []
      split
      · exact shutdown_range_frame h rfl rfl
      · split
        · exact shutdown_range_frame (hfold _ (s, 0) h) rfl rfl
        · exact shutdown_range_frame (hfold _ (s, 0) h) rfl rfl

theorem shutdown_range_step (rconManager : RconManager) (webSocketManager : WebSocketManager)
    {s : Shutdown} (h : CountdownInRange s) (ev : Event) :
    CountdownInRange (step rconManager webSocketManager s ev) := by
  cases ev with
  | shutdown e countdownTime config => exact shutdown_range_handle _ _ _ _ h
  | restart e countdownTime config => exact shutdown_range_handle _ _ _ _ h
  | cancelShutdown e config now titleRejects =>
    exact shutdown_range_cancelShutdown _ _ _ _ _ _ h
  | confirmed id now titleRejects =>
    simp only [step]
    split
    · rename_i c hfind
      have hc := h.2 c (List.mem_of_find?_eq_some hfind)
      have h0 : CountdownInRange
          { s with confirming := s.confirming.filter (fun c => c.id != id) } :=
        ⟨h.1, fun c hc => h.2 c (List.mem_of_mem_filter hc)⟩
      unfold _initiateShutdown_resume
      generalize ({ s with confirming := s.confirming.filter (fun c => c.id != id) }
        : Shutdown) = s0 at h0
      induction c.targetServers generalizing s0 with
      | nil => exact h0
      | cons x l ih =>
        simp only [List.foldl_cons]
        exact ih _ (shutdown_range_startServerShutdown _ _ _ _ _ _ _ _ h0 hc.1 hc.2)
    · exact h
  | tick id now titleRejects =>
    simp only [step]
    split
    · split
      · exact shutdown_range_updateCountdown _ _ _ _ _ (shutdown_range_frame h rfl rfl)
      · exact h
    · exact h
  | finalWait id now =>
    simp only [step]
    split
    · split
      · unfold _executeShutdown_afterWait
        apply shutdown_range_cancel
        split
        · exact shutdown_range_frame h rfl rfl
        · exact shutdown_range_frame h rfl rfl
      · exact h
    · exact h

theorem shutdown_scheduleNextUpdate_sent (serverName : String) (now : Int) (s : Shutdown) :
    (_scheduleNextUpdate serverName now s).sent = s.sent := by
  unfold _scheduleNextUpdate
  cases s.shutdownTasks serverName <;> rfl

end Shutdown

/-! ## Decimal numerals -/

theorem toDigitsCore_isDigit (fuel n : Nat) (ds : List Char)
    (h : ∀ c ∈ ds, c.isDigit = true) :
    ∀ c ∈ Nat.toDigitsCore 10 fuel n ds, c.isDigit = true := by
  induction fuel generalizing n ds with
  | zero => simpa [Nat.toDigitsCore] using h
  | succ f ih =>
    have hd : (Nat.digitChar (n % 10)).isDigit = true := by
      have hlt : n % 10 < 10 := Nat.mod_lt _ (by decide)
      generalize n % 10 = k at hlt
      interval_cases k <;> decide
    have hcons : ∀ c ∈ Nat.digitChar (n % 10) :: ds, c.isDigit = true := by
      intro c hc
      rcases List.mem_cons.mp hc with rfl | hc
      · exact hd
      · exact h c hc
    simp only [Nat.toDigitsCore]
    split
    · exact hcons
    · exact ih _ _ hcons

theorem toString_int_isDigit (r : Int) (h : 0 ≤ r) :
    ∀ c ∈ (toString r).data, c.isDigit = true := by
  obtain ⟨n, rfl⟩ := Int.eq_ofNat_of_zero_le h
  exact toDigitsCore_isDigit _ _ [] (by simp)

theorem toString_int_ne_of_nonDigit (t : String) (c : Char) (hc : c ∈ t.data)
    (hd : c.isDigit = false) (r : Int) (h : 0 ≤ r) : t ≠ toString r := by
  intro he
  have := toString_int_isDigit r h c (he ▸ hc)
  rw [hd] at this
  exact Bool.noConfusion this

/-! ## Splitting a text at its spaces -/

namespace ExecuteCommand

theorem exec_splitChars_ne_nil (l : List Char) : splitChars l ≠ [] := by
  cases l with
  | nil => simp [splitChars]
  | cons c cs =>
    simp only [splitChars]
    split
    · simp
    · split <;> simp

theorem exec_joinChars_splitChars (l : List Char) : joinChars (splitChars l) = l := by
  induction l with
  | nil => rfl
  | cons c cs ih =>
    simp only [splitChars]
    split
    · rename_i hc
      cases hs : splitChars cs with
      | nil => exact absurd hs (exec_splitChars_ne_nil cs)
      | cons q ps =>
        rw [hs] at ih
        simp [joinChars, ih, hc]
    · cases hs : splitChars cs with
      | nil => exact absurd hs (exec_splitChars_ne_nil cs)
      | cons p ps =>
        rw [hs] at ih
        cases ps with
        | nil =>
          simp only [joinChars] at ih ⊢
          rw [ih]
        | cons q ps =>
          simp only [joinChars] at ih ⊢
          rw [← ih]
          rfl

theorem exec_split_data (s : String) : (split s).map String.data = splitChars s.data := by
  simp [split, List.map_map, Function.comp_def]

end ExecuteCommand

/-- The pong timeout of the WebSocket heartbeat, firing after the `error`
handler has torn the connection down and scheduled a reconnect (counter 1,
timeout 1 with delay 10000), cancels that timeout and schedules again: counter
2, timeout 2 with delay 20000. -/
theorem ws_pongTimeout_after_teardown :
    ((WebSocketManager.run (fun _ => false)
      [WebSocketManager.Event.construct (some exampleConfig),
        WebSocketManager.Event.socketOpen 0,
        WebSocketManager.Event.heartbeat exampleConfig "a" 0 false,
        WebSocketManager.Event.socketError 0]).reconnectTimers "a").map
        (fun t => (t.id, t.delay)) = some (1, 10000) ∧
    (WebSocketManager.run (fun _ => false)
      [WebSocketManager.Event.construct (some exampleConfig),
        WebSocketManager.Event.socketOpen 0,
        WebSocketManager.Event.heartbeat exampleConfig "a" 0 false,
        WebSocketManager.Event.socketError 0,
        WebSocketManager.Event.pongTimeout 0]).reconnectAttempts "a" = some 2 ∧
    ((WebSocketManager.run (fun _ => false)
      [WebSocketManager.Event.construct (some exampleConfig),
        WebSocketManager.Event.socketOpen 0,
        WebSocketManager.Event.heartbeat exampleConfig "a" 0 false,
        WebSocketManager.Event.socketError 0,
        WebSocketManager.Event.pongTimeout 0]).reconnectTimers "a").map
        (fun t => (t.id, t.delay)) = some (2, 20000) := by
  decide

/-- A reconnect timer that fires after its profile has been disabled sets
`disconnected` although a handle has been registered meanwhile.  RCON: the
late `end` of a dropped client arms a timer while the next connect is in
flight.  WebSocket: the late `close` of a failed socket does the same. -/
theorem disabled_timer_handle_not_connected :
    ((RconManager.run
        [RconManager.Event.construct (some exampleConfig),
         RconManager.Event.connectResolved 0,
         RconManager.Event.heartbeatFailed exampleConfig "a",
         RconManager.Event.timeout 0,
         RconManager.Event.rconEnd 0,
         RconManager.Event.connectResolved 1,
         RconManager.Event.profileChanged disabledServer,
         RconManager.Event.timeout 1]).activeConnections "a" = some 1) ∧
    RconManager._getConnectionState (RconManager.run
        [RconManager.Event.construct (some exampleConfig),
         RconManager.Event.connectResolved 0,
         RconManager.Event.heartbeatFailed exampleConfig "a",
         RconManager.Event.timeout 0,
         RconManager.Event.rconEnd 0,
         RconManager.Event.connectResolved 1,
         RconManager.Event.profileChanged disabledServer,
         RconManager.Event.timeout 1]) "a" = ConnectionState.DISCONNECTED ∧
    ((WebSocketManager.run (fun _ => false)
        [WebSocketManager.Event.construct (some exampleConfig),
         WebSocketManager.Event.socketError 0,
         WebSocketManager.Event.timeout 0,
         WebSocketManager.Event.socketClosed 0 1006,
         WebSocketManager.Event.socketOpen 1,
         WebSocketManager.Event.profileChanged disabledServer,
         WebSocketManager.Event.timeout 1]).activeSockets "a" = some 1) ∧
    WebSocketManager._getConnectionState (WebSocketManager.run (fun _ => false)
        [WebSocketManager.Event.construct (some exampleConfig),
         WebSocketManager.Event.socketError 0,
         WebSocketManager.Event.timeout 0,
         WebSocketManager.Event.socketClosed 0 1006,
         WebSocketManager.Event.socketOpen 1,
         WebSocketManager.Event.profileChanged disabledServer,
         WebSocketManager.Event.timeout 1]) "a" = ConnectionState.DISCONNECTED := by
  decide

/-! # Claims -/

/-! ## Reconnect delay -/

/-- C1 (counterexample): for attempt 1 the delay is 10000 ms, not 5000 ms, so
the sequence for attempts 1 to 7 is not 5 s, 10 s, 20 s, 40 s, 80 s, 160 s, 300 s. -/
theorem calculateReconnectDelay_first_not_5000 :
    RconManager._calculateReconnectDelay 1 = 10000 ∧
    WebSocketManager._calculateReconnectDelay 1 = 10000 ∧
    [1, 2, 3, 4, 5, 6, 7].map RconManager._calculateReconnectDelay
      ≠ [5000, 10000, 20000, 40000, 80000, 160000, 300000] ∧
    [1, 2, 3, 4, 5, 6, 7].map WebSocketManager._calculateReconnectDelay
      ≠ [5000, 10000, 20000, 40000, 80000, 160000, 300000] := by
  decide

/-- C1 (amended): in both supervisors the delay for attempts 1 to 7 is
10 s, 20 s, 40 s, 80 s, 160 s, 300 s, 300 s, and it is 300 s for every attempt
number from 6 on. -/
theorem calculateReconnectDelay_sequence (attempts : Nat) (h : 6 ≤ attempts) :
    [1, 2, 3, 4, 5, 6, 7].map RconManager._calculateReconnectDelay
      = [10000, 20000, 40000, 80000, 160000, 300000, 300000] ∧
    [1, 2, 3, 4, 5, 6, 7].map WebSocketManager._calculateReconnectDelay
      = [10000, 20000, 40000, 80000, 160000, 300000, 300000] ∧
    RconManager._calculateReconnectDelay attempts = 300000 ∧
    WebSocketManager._calculateReconnectDelay attempts = 300000 := by
  refine ⟨by decide, by decide, ?_, ?_⟩
  · simp [RconManager._calculateReconnectDelay, Nat.min_eq_right h]
  · simp [WebSocketManager._calculateReconnectDelay, Nat.min_eq_right h]

/-- C1 (witness): attempt 8. -/
theorem calculateReconnectDelay_sequence_witness :
    6 ≤ 8 ∧ RconManager._calculateReconnectDelay 8 = 300000 ∧
      WebSocketManager._calculateReconnectDelay 8 = 300000 :=
  ⟨by decide, (calculateReconnectDelay_sequence 8 (by decide)).2.2⟩

/-! ## Handle and state -/

/-- C2 (counterexample): after the local listener accepts a peer named `b`
with the right token, a handle is registered for `b` while the state of `b`
is not `connected`. -/
theorem inbound_handle_not_connected :
    ¬ (((WebSocketManager.run (fun _ => false)
          [WebSocketManager.Event.construct (some exampleConfig),
           WebSocketManager.Event.connection
            { x_self_name := some "b", authorization := some "Bearer secret" }]).activeSockets
          "b").isSome = true ↔
      WebSocketManager._getConnectionState (WebSocketManager.run (fun _ => false)
          [WebSocketManager.Event.construct (some exampleConfig),
           WebSocketManager.Event.connection
            { x_self_name := some "b", authorization := some "Bearer secret" }]) "b"
        = ConnectionState.CONNECTED) := by
  decide

/-- C2 (amended): in every state reached from a fresh manager by a sequence of
events — for WebSocket, events other than those of the inbound listener — in
which the configuration collaborator disables no profile, a registered handle
implies that the server's state is `connected`; and when the sequence, with or
without changed profiles, contains no `forceReconnect` call, state `connected`
implies a registered handle. -/
theorem handle_connected_invariant (events : List RconManager.Event)
    (wsEvents : List WebSocketManager.Event) (urlRejected : String → Bool) (name : String) :
    ((∀ e ∈ events, e.keepsEnabled = true) →
      ((RconManager.run events).activeConnections name).isSome = true →
      RconManager._getConnectionState (RconManager.run events) name
        = ConnectionState.CONNECTED) ∧
    ((∀ e ∈ events, e.isForceReconnect = false) →
      RconManager._getConnectionState (RconManager.run events) name
        = ConnectionState.CONNECTED →
      ((RconManager.run events).activeConnections name).isSome = true) ∧
    ((∀ e ∈ wsEvents, e.isInbound = false) →
      (∀ e ∈ wsEvents, e.keepsEnabled = true) →
      ((WebSocketManager.run urlRejected wsEvents).activeSockets name).isSome = true →
      WebSocketManager._getConnectionState (WebSocketManager.run urlRejected wsEvents) name
        = ConnectionState.CONNECTED) ∧
    ((∀ e ∈ wsEvents, e.isInbound = false) →
      (∀ e ∈ wsEvents, e.isForceReconnect = false) →
      WebSocketManager._getConnectionState (WebSocketManager.run urlRejected wsEvents) name
        = ConnectionState.CONNECTED →
      ((WebSocketManager.run urlRejected wsEvents).activeSockets name).isSome = true) := by
  refine ⟨?_, ?_, ?_, ?_⟩
  · intro hk h
    rw [RconManager.rcon_getConnectionState_eq_connected]
    exact (RconManager.rcon_run_stable events hk).handles trivial name h
  · intro he h
    rw [RconManager.rcon_getConnectionState_eq_connected] at h
    exact RconManager.rcon_run_ch events he name h
  · intro he hk h
    rw [WebSocketManager.ws_getConnectionState_eq_connected]
    exact WebSocketManager.ws_run_hc urlRejected wsEvents he hk name h
  · intro he hf h
    rw [WebSocketManager.ws_getConnectionState_eq_connected] at h
    exact WebSocketManager.ws_run_ch urlRejected wsEvents he hf name h

/-- C2 (witness): the example server after a successful first connect and a
change of its profile that keeps it enabled. -/
theorem handle_connected_invariant_witness :
    (∀ e ∈ [RconManager.Event.construct (some exampleConfig),
        RconManager.Event.connectResolved 0,
        RconManager.Event.profileChanged commandServer], e.keepsEnabled = true) ∧
    ((RconManager.run [RconManager.Event.construct (some exampleConfig),
        RconManager.Event.connectResolved 0,
        RconManager.Event.profileChanged commandServer]).activeConnections "a").isSome
      = true ∧
    RconManager._getConnectionState (RconManager.run
        [RconManager.Event.construct (some exampleConfig),
         RconManager.Event.connectResolved 0,
         RconManager.Event.profileChanged commandServer]) "a" = ConnectionState.CONNECTED :=
  ⟨by decide, by decide,
   (handle_connected_invariant
      [RconManager.Event.construct (some exampleConfig), RconManager.Event.connectResolved 0,
       RconManager.Event.profileChanged commandServer]
      [] (fun _ => false) "a").1 (by decide) (by decide)⟩

/-! ## Attempt counter under consecutive failures -/

/-- C3 (the code at the failing input): in the RCON supervisor the counter is
1 after two, and after four, consecutive failed attempts of the example server
(first connect, then reconnect timers firing), because every reconnect resets
it before the failure increments it; the same sequence in the WebSocket
supervisor gives 2 and 4. -/
theorem rcon_reconnectAttempts_reset :
    (RconManager.run [RconManager.Event.construct (some exampleConfig),
        RconManager.Event.connectRejected 0, RconManager.Event.timeout 0,
        RconManager.Event.connectRejected 1]).reconnectAttempts "a" = some 1 ∧
    (RconManager.run [RconManager.Event.construct (some exampleConfig),
        RconManager.Event.connectRejected 0, RconManager.Event.timeout 0,
        RconManager.Event.connectRejected 1, RconManager.Event.timeout 1,
        RconManager.Event.connectRejected 2, RconManager.Event.timeout 2,
        RconManager.Event.connectRejected 3]).reconnectAttempts "a" = some 1 ∧
    (WebSocketManager.run (fun _ => false)
      [WebSocketManager.Event.construct (some exampleConfig),
        WebSocketManager.Event.socketError 0, WebSocketManager.Event.timeout 0,
        WebSocketManager.Event.socketError 1]).reconnectAttempts "a" = some 2 ∧
    (WebSocketManager.run (fun _ => false)
      [WebSocketManager.Event.construct (some exampleConfig),
        WebSocketManager.Event.socketError 0, WebSocketManager.Event.timeout 0,
        WebSocketManager.Event.socketError 1, WebSocketManager.Event.timeout 1,
        WebSocketManager.Event.socketError 2, WebSocketManager.Event.timeout 2,
        WebSocketManager.Event.socketError 3]).reconnectAttempts "a" = some 4 := by
  decide

/-! ## One reconnect timer per server -/

/-- C4: in both supervisors `_scheduleReconnect` arms a timeout only when none
is recorded for the server, and in every state reached from a fresh manager by
any sequence of events every armed timeout of a server is the one recorded for
it, so at most one is armed per server. -/
theorem single_reconnect_timer (events : List RconManager.Event)
    (wsEvents : List WebSocketManager.Event) (urlRejected : String → Bool) (name : String)
    (serverCfg : ServerCfg) (globalDebug : Bool) (r : RconManager) (w : WebSocketManager) :
    ((RconManager._scheduleReconnect serverCfg r).timeouts ≠ r.timeouts →
      r.reconnectTimers serverCfg.server_name = none) ∧
    ((WebSocketManager._scheduleReconnect serverCfg globalDebug w).timeouts ≠ w.timeouts →
      w.reconnectTimers serverCfg.server_name = none) ∧
    (armedFor (RconManager.run events).timeouts name).length ≤ 1 ∧
    (∀ t ∈ armedFor (RconManager.run events).timeouts name,
      (RconManager.run events).reconnectTimers name = some t) ∧
    (armedFor (WebSocketManager.run urlRejected wsEvents).timeouts name).length ≤ 1 ∧
    (∀ t ∈ armedFor (WebSocketManager.run urlRejected wsEvents).timeouts name,
      (WebSocketManager.run urlRejected wsEvents).reconnectTimers name = some t) := by
  have len : ∀ (ts : List Timeout) (ti : Dict Timeout), TimersRecorded ts ti →
      (armedFor ts name).length ≤ 1 ∧ ∀ t ∈ armedFor ts name, ti name = some t := by
    intro ts ti h
    have hs := h name
    constructor
    · have h1 := hs.length_le
      have h2 : (ti name).toList.length ≤ 1 := by cases ti name <;> simp
      omega
    · intro t ht
      have := hs.subset ht
      cases hti : ti name <;> simp [hti] at this ⊢
      exact this.symm
  refine ⟨?_, ?_, (len _ _ (RconManager.rcon_run_inv events).recorded).1,
    (len _ _ (RconManager.rcon_run_inv events).recorded).2,
    (len _ _ (WebSocketManager.ws_run_inv urlRejected wsEvents).wsRecorded).1,
    (len _ _ (WebSocketManager.ws_run_inv urlRejected wsEvents).wsRecorded).2⟩
  · intro h
    rcases RconManager.rcon_scheduleReconnect_cases serverCfg r with he | ⟨hn, _⟩
    · rw [he] at h; exact absurd rfl h
    · exact hn
  · intro h
    rcases WebSocketManager.ws_scheduleReconnect_cases serverCfg globalDebug w with he | ⟨hn, _⟩
    · rw [he] at h; exact absurd rfl h
    · exact hn

/-- C4 (witness): the first failure signal of the example server arms a
timeout, and none was recorded before. -/
theorem single_reconnect_timer_witness :
    (RconManager._scheduleReconnect exampleServer RconManager.new).timeouts
      ≠ RconManager.new.timeouts ∧
    RconManager.new.reconnectTimers exampleServer.server_name = none :=
  ⟨by decide,
   (single_reconnect_timer [] [] (fun _ => false) "a" exampleServer false RconManager.new
      (WebSocketManager.new (fun _ => false))).1 (by decide)⟩

/-! ## `forceReconnect`: rejected calls -/

/-- C5: in both supervisors `forceReconnect` returns `false` and the unchanged
manager when the server name is not found in the configured list or the
profile found has the transport disabled. -/
theorem forceReconnect_rejects (config : Config) (serverName : String)
    (r : RconManager) (w : WebSocketManager) :
    ((findServerCfg config serverName = none
        ∨ ∃ serverCfg, findServerCfg config serverName = some serverCfg
            ∧ serverCfg.rcon_able = false) →
      RconManager.forceReconnect config serverName r = (r, false)) ∧
    ((findServerCfg config serverName = none
        ∨ ∃ serverCfg, findServerCfg config serverName = some serverCfg
            ∧ serverCfg.ws_able = false) →
      WebSocketManager.forceReconnect config serverName w = (w, false)) := by
  constructor
  · rintro (h | ⟨serverCfg, h, hable⟩)
    · simp [RconManager.forceReconnect, h]
    · simp [RconManager.forceReconnect, h, hable]
  · rintro (h | ⟨serverCfg, h, hable⟩)
    · simp [WebSocketManager.forceReconnect, h]
    · simp [WebSocketManager.forceReconnect, h, hable]

/-- C5 (witness): an unknown name for RCON. -/
theorem forceReconnect_rejects_witness :
    findServerCfg exampleConfig "b" = none ∧
    RconManager.forceReconnect exampleConfig "b" RconManager.new = (RconManager.new, false) :=
  ⟨by decide,
   (forceReconnect_rejects exampleConfig "b" RconManager.new
      (WebSocketManager.new (fun _ => false))).1 (Or.inl (by decide))⟩

/-! ## `forceReconnect`: accepted calls -/

/-- C6 (the code at the failing input): `forceReconnect` on the connected example
server returns `true`, removes the handle and leaves the state
`connected` without creating a new client (RCON) or socket (WebSocket); on a
server whose first connect is still awaited it creates no second client. -/
theorem forceReconnect_connected_no_attempt :
    (RconManager.forceReconnect exampleConfig "a"
      (RconManager.run [RconManager.Event.construct (some exampleConfig),
        RconManager.Event.connectResolved 0])).2 = true ∧
    (RconManager.forceReconnect exampleConfig "a"
      (RconManager.run [RconManager.Event.construct (some exampleConfig),
        RconManager.Event.connectResolved 0])).1.activeConnections "a" = none ∧
    RconManager._getConnectionState (RconManager.forceReconnect exampleConfig "a"
      (RconManager.run [RconManager.Event.construct (some exampleConfig),
        RconManager.Event.connectResolved 0])).1 "a" = ConnectionState.CONNECTED ∧
    (RconManager.forceReconnect exampleConfig "a"
      (RconManager.run [RconManager.Event.construct (some exampleConfig),
        RconManager.Event.connectResolved 0])).1.awaited = [] ∧
    (RconManager.forceReconnect exampleConfig "a"
      (RconManager.run [RconManager.Event.construct (some exampleConfig)])).1.awaited
      = [(0, exampleServer)] ∧
    (WebSocketManager.forceReconnect exampleConfig "a"
      (WebSocketManager.run (fun _ => false)
        [WebSocketManager.Event.construct (some exampleConfig),
         WebSocketManager.Event.socketOpen 0])).1.activeSockets "a" = none ∧
    WebSocketManager._getConnectionState (WebSocketManager.forceReconnect exampleConfig "a"
      (WebSocketManager.run (fun _ => false)
        [WebSocketManager.Event.construct (some exampleConfig),
         WebSocketManager.Event.socketOpen 0])).1 "a" = ConnectionState.CONNECTED ∧
    (WebSocketManager.forceReconnect exampleConfig "a"
      (WebSocketManager.run (fun _ => false)
        [WebSocketManager.Event.construct (some exampleConfig),
         WebSocketManager.Event.socketOpen 0])).1.clients = [(0, exampleServer, false)] := by
  decide

/-! ## Guarded connect -/

/-- C7: in both supervisors the guarded connect returns the manager unchanged
when the server's state is `connecting` or `connected`, for either value of
`isReconnect`. -/
theorem establishConnection_guard (serverCfg : ServerCfg) (globalDebug isReconnect : Bool)
    (r : RconManager) (w : WebSocketManager) :
    ((RconManager._getConnectionState r serverCfg.server_name = ConnectionState.CONNECTING
        ∨ RconManager._getConnectionState r serverCfg.server_name = ConnectionState.CONNECTED) →
      RconManager._establishConnection serverCfg isReconnect r = r) ∧
    ((WebSocketManager._getConnectionState w serverCfg.server_name = ConnectionState.CONNECTING
        ∨ WebSocketManager._getConnectionState w serverCfg.server_name
            = ConnectionState.CONNECTED) →
      WebSocketManager._establishClientConnection serverCfg globalDebug isReconnect w = w) := by
  constructor
  · intro h
    unfold RconManager._establishConnection
    rcases h with h | h <;> simp [h]
  · intro h
    unfold WebSocketManager._establishClientConnection
    rcases h with h | h <;> simp [h]

/-- C7 (witness): a second connect while the first one is awaited. -/
theorem establishConnection_guard_witness :
    RconManager._getConnectionState (RconManager._establishConnection exampleServer false
        RconManager.new) exampleServer.server_name = ConnectionState.CONNECTING ∧
    RconManager._establishConnection exampleServer true
        (RconManager._establishConnection exampleServer false RconManager.new)
      = RconManager._establishConnection exampleServer false RconManager.new :=
  ⟨by decide,
   (establishConnection_guard exampleServer false true
      (RconManager._establishConnection exampleServer false RconManager.new)
      (WebSocketManager.new (fun _ => false))).1 (Or.inl (by decide))⟩

/-! ## `_scheduleReconnect`: guard and idempotence -/

/-- C8: in both supervisors `_scheduleReconnect` returns the manager unchanged
when a reconnect timer is recorded for the server or its state is `connecting`
or `reconnecting`, and calling it twice in a row gives the same manager as
calling it once. -/
theorem scheduleReconnect_idempotent (serverCfg : ServerCfg) (globalDebug : Bool)
    (r : RconManager) (w : WebSocketManager) :
    (((r.reconnectTimers serverCfg.server_name).isSome = true
        ∨ RconManager._getConnectionState r serverCfg.server_name = ConnectionState.CONNECTING
        ∨ RconManager._getConnectionState r serverCfg.server_name
            = ConnectionState.RECONNECTING) →
      RconManager._scheduleReconnect serverCfg r = r) ∧
    (((w.reconnectTimers serverCfg.server_name).isSome = true
        ∨ WebSocketManager._getConnectionState w serverCfg.server_name
            = ConnectionState.CONNECTING
        ∨ WebSocketManager._getConnectionState w serverCfg.server_name
            = ConnectionState.RECONNECTING) →
      WebSocketManager._scheduleReconnect serverCfg globalDebug w = w) ∧
    RconManager._scheduleReconnect serverCfg (RconManager._scheduleReconnect serverCfg r)
      = RconManager._scheduleReconnect serverCfg r ∧
    WebSocketManager._scheduleReconnect serverCfg globalDebug
        (WebSocketManager._scheduleReconnect serverCfg globalDebug w)
      = WebSocketManager._scheduleReconnect serverCfg globalDebug w := by
  refine ⟨RconManager.rcon_scheduleReconnect_guard serverCfg r,
    WebSocketManager.ws_scheduleReconnect_guard serverCfg globalDebug w, ?_, ?_⟩
  · rcases RconManager.rcon_scheduleReconnect_armed serverCfg r with h | h
    · rw [h, h]
    · exact RconManager.rcon_scheduleReconnect_guard serverCfg _ (Or.inl h)
  · rcases WebSocketManager.ws_scheduleReconnect_armed serverCfg globalDebug w with h | h
    · rw [h, h]
    · exact WebSocketManager.ws_scheduleReconnect_guard serverCfg globalDebug _ (Or.inl h)

/-- C8 (witness): a second failure signal after a failed connect of the example server. -/
theorem scheduleReconnect_idempotent_witness :
    ((RconManager._establishConnection_rejected exampleServer
        RconManager.new).reconnectTimers exampleServer.server_name).isSome = true ∧
    RconManager._scheduleReconnect exampleServer
        (RconManager._establishConnection_rejected exampleServer RconManager.new)
      = RconManager._establishConnection_rejected exampleServer RconManager.new :=
  ⟨by decide,
   (scheduleReconnect_idempotent exampleServer false
      (RconManager._establishConnection_rejected exampleServer RconManager.new)
      (WebSocketManager.new (fun _ => false))).1 (Or.inl (by decide))⟩

/-! ## `_scheduleReconnect`: disabled profile -/

/-- In both supervisors, when `_scheduleReconnect` is called for a profile
whose transport is disabled while no timer is recorded and the state is
neither `connecting` nor `reconnecting`, the manager is returned unchanged:
the state stays what it was, no timer is armed and the attempt counter is not
incremented. -/
theorem scheduleReconnect_disabled_unchanged (serverCfg : ServerCfg) (globalDebug : Bool)
    (r : RconManager) (w : WebSocketManager) :
    (serverCfg.rcon_able = false →
      (r.reconnectTimers serverCfg.server_name).isSome = false →
      RconManager._getConnectionState r serverCfg.server_name ≠ ConnectionState.CONNECTING →
      RconManager._getConnectionState r serverCfg.server_name ≠ ConnectionState.RECONNECTING →
      RconManager._scheduleReconnect serverCfg r = r) ∧
    (serverCfg.ws_able = false →
      (w.reconnectTimers serverCfg.server_name).isSome = false →
      WebSocketManager._getConnectionState w serverCfg.server_name
        ≠ ConnectionState.CONNECTING →
      WebSocketManager._getConnectionState w serverCfg.server_name
        ≠ ConnectionState.RECONNECTING →
      WebSocketManager._scheduleReconnect serverCfg globalDebug w = w) := by
  constructor
  · intro h _ _ _
    simp [RconManager._scheduleReconnect, h]
  · intro h _ _ _
    simp [WebSocketManager._scheduleReconnect, h]

/-- C9 (the code at the failing input): the profile of the example server is
disabled while its first connect is in flight; then the connect is rejected
(RCON) or the socket emits `error` (WebSocket).  The handler cleans up, sets
`failed` and calls `_scheduleReconnect` for the disabled profile, with no timer
recorded: afterwards the state is `failed`, not `disconnected`, no timer is
armed and the counter is still 0.  When the profile is disabled after the
failure instead, while the reconnect timer is pending, the firing timer sets
`disconnected`. -/
theorem disabled_in_flight_stays_failed :
    disabledServer.rcon_able = false ∧ disabledServer.ws_able = false ∧
    RconManager._getConnectionState (RconManager.run
        [RconManager.Event.construct (some exampleConfig),
         RconManager.Event.profileChanged disabledServer,
         RconManager.Event.connectRejected 0]) "a" = ConnectionState.FAILED ∧
    (RconManager.run
        [RconManager.Event.construct (some exampleConfig),
         RconManager.Event.profileChanged disabledServer,
         RconManager.Event.connectRejected 0]).timeouts = [] ∧
    (RconManager.run
        [RconManager.Event.construct (some exampleConfig),
         RconManager.Event.profileChanged disabledServer,
         RconManager.Event.connectRejected 0]).reconnectTimers "a" = none ∧
    (RconManager.run
        [RconManager.Event.construct (some exampleConfig),
         RconManager.Event.profileChanged disabledServer,
         RconManager.Event.connectRejected 0]).reconnectAttempts "a" = some 0 ∧
    RconManager._getConnectionState (RconManager.run
        [RconManager.Event.construct (some exampleConfig),
         RconManager.Event.connectRejected 0,
         RconManager.Event.profileChanged disabledServer,
         RconManager.Event.timeout 0]) "a" = ConnectionState.DISCONNECTED ∧
    WebSocketManager._getConnectionState (WebSocketManager.run (fun _ => false)
        [WebSocketManager.Event.construct (some exampleConfig),
         WebSocketManager.Event.profileChanged disabledServer,
         WebSocketManager.Event.socketError 0]) "a" = ConnectionState.FAILED ∧
    (WebSocketManager.run (fun _ => false)
        [WebSocketManager.Event.construct (some exampleConfig),
         WebSocketManager.Event.profileChanged disabledServer,
         WebSocketManager.Event.socketError 0]).timeouts = [] ∧
    (WebSocketManager.run (fun _ => false)
        [WebSocketManager.Event.construct (some exampleConfig),
         WebSocketManager.Event.profileChanged disabledServer,
         WebSocketManager.Event.socketError 0]).reconnectTimers "a" = none ∧
    (WebSocketManager.run (fun _ => false)
        [WebSocketManager.Event.construct (some exampleConfig),
         WebSocketManager.Event.profileChanged disabledServer,
         WebSocketManager.Event.socketError 0]).reconnectAttempts "a" = some 0 ∧
    WebSocketManager._getConnectionState (WebSocketManager.run (fun _ => false)
        [WebSocketManager.Event.construct (some exampleConfig),
         WebSocketManager.Event.socketError 0,
         WebSocketManager.Event.profileChanged disabledServer,
         WebSocketManager.Event.timeout 0]) "a" = ConnectionState.DISCONNECTED := by
  decide

/-! ## `_scheduleReconnect`: short-term regime -/

/-- C10: in both supervisors, when `_scheduleReconnect` runs for an enabled
profile with no timer recorded and a state that is neither `connecting` nor
`reconnecting`, and the incremented counter `a` is at most the profile's
max-attempts value (3 when absent or 0), then afterwards the counter is `a`,
the state is `reconnecting`, and exactly one timer was armed, recorded for the
server, with delay `_calculateReconnectDelay a`. -/
theorem scheduleReconnect_shortTerm (serverCfg : ServerCfg) (globalDebug : Bool)
    (r : RconManager) (w : WebSocketManager) :
    (serverCfg.rcon_able = true →
      (r.reconnectTimers serverCfg.server_name).isSome = false →
      RconManager._getConnectionState r serverCfg.server_name ≠ ConnectionState.CONNECTING →
      RconManager._getConnectionState r serverCfg.server_name ≠ ConnectionState.RECONNECTING →
      (r.reconnectAttempts serverCfg.server_name).getD 0 + 1
        ≤ orThree serverCfg.rcon_max_attempts →
      ∃ t : Timeout,
        t.delay = RconManager._calculateReconnectDelay
          ((r.reconnectAttempts serverCfg.server_name).getD 0 + 1) ∧
        t.serverCfg = serverCfg ∧
        (RconManager._scheduleReconnect serverCfg r).timeouts = r.timeouts ++ [t] ∧
        (RconManager._scheduleReconnect serverCfg r).reconnectTimers serverCfg.server_name
          = some t ∧
        (RconManager._scheduleReconnect serverCfg r).reconnectAttempts serverCfg.server_name
          = some ((r.reconnectAttempts serverCfg.server_name).getD 0 + 1) ∧
        RconManager._getConnectionState (RconManager._scheduleReconnect serverCfg r)
          serverCfg.server_name = ConnectionState.RECONNECTING) ∧
    (serverCfg.ws_able = true →
      (w.reconnectTimers serverCfg.server_name).isSome = false →
      WebSocketManager._getConnectionState w serverCfg.server_name
        ≠ ConnectionState.CONNECTING →
      WebSocketManager._getConnectionState w serverCfg.server_name
        ≠ ConnectionState.RECONNECTING →
      (w.reconnectAttempts serverCfg.server_name).getD 0 + 1
        ≤ orThree serverCfg.ws_max_attempts →
      ∃ t : Timeout,
        t.delay = WebSocketManager._calculateReconnectDelay
          ((w.reconnectAttempts serverCfg.server_name).getD 0 + 1) ∧
        t.serverCfg = serverCfg ∧
        (WebSocketManager._scheduleReconnect serverCfg globalDebug w).timeouts
          = w.timeouts ++ [t] ∧
        (WebSocketManager._scheduleReconnect serverCfg globalDebug w).reconnectTimers
          serverCfg.server_name = some t ∧
        (WebSocketManager._scheduleReconnect serverCfg globalDebug w).reconnectAttempts
          serverCfg.server_name
          = some ((w.reconnectAttempts serverCfg.server_name).getD 0 + 1) ∧
        WebSocketManager._getConnectionState
          (WebSocketManager._scheduleReconnect serverCfg globalDebug w)
          serverCfg.server_name = ConnectionState.RECONNECTING) := by
  constructor
  · intro hable htimer hc hr hle
    refine ⟨{ id := r.nextTimeout,
              delay := RconManager._calculateReconnectDelay
                ((r.reconnectAttempts serverCfg.server_name).getD 0 + 1),
              serverCfg := serverCfg, globalDebug := false }, rfl, rfl, ?_⟩
    simp only [RconManager._getConnectionState] at hc hr
    simp [RconManager._scheduleReconnect, hable, htimer, hc, hr, hle,
      RconManager.setTimeout, RconManager._setConnectionState,
      RconManager._getConnectionState, Dict.set]
  · intro hable htimer hc hr hle
    refine ⟨{ id := w.nextTimeout,
              delay := WebSocketManager._calculateReconnectDelay
                ((w.reconnectAttempts serverCfg.server_name).getD 0 + 1),
              serverCfg := serverCfg, globalDebug := globalDebug }, rfl, rfl, ?_⟩
    simp only [WebSocketManager._getConnectionState] at hc hr
    simp [WebSocketManager._scheduleReconnect, hable, htimer, hc, hr, hle,
      WebSocketManager.setTimeout, WebSocketManager._setConnectionState,
      WebSocketManager._getConnectionState, Dict.set]

/-- C10 (witness): the first failure of the example server, which has no
`rcon_max_attempts`: counter 1 is at most 3. -/
theorem scheduleReconnect_shortTerm_witness :
    exampleServer.rcon_able = true ∧
    (RconManager.new.reconnectAttempts exampleServer.server_name).getD 0 + 1
      ≤ orThree exampleServer.rcon_max_attempts ∧
    ∃ t : Timeout, t.delay = 10000 ∧
      (RconManager._scheduleReconnect exampleServer RconManager.new).reconnectTimers "a"
        = some t :=
  ⟨by decide, by decide,
   let ⟨t, h1, _, _, h4, _, _⟩ :=
     (scheduleReconnect_shortTerm exampleServer false RconManager.new
        (WebSocketManager.new (fun _ => false))).1 (by decide) (by decide) (by decide)
        (by decide) (by decide)
   ⟨t, h1, h4⟩⟩

/-! ## `_scheduleReconnect`: long-term regime -/

/-- C11 (the code at the failing input): after a fourth consecutive failure of
the example server (WebSocket), and after a fourth drop signal (RCON), the
counter 4 exceeds the default of 3 and a timer of 300000 ms is recorded, but
the state is the one the handler set (`failed`, `disconnected`), not
`reconnecting`; after the third failure the state is `reconnecting`. -/
theorem longTerm_state_not_reconnecting :
    ((WebSocketManager.run (fun _ => false)
      [WebSocketManager.Event.construct (some exampleConfig),
        WebSocketManager.Event.socketError 0, WebSocketManager.Event.timeout 0,
        WebSocketManager.Event.socketError 1, WebSocketManager.Event.timeout 1,
        WebSocketManager.Event.socketError 2, WebSocketManager.Event.timeout 2,
        WebSocketManager.Event.socketError 3]).reconnectTimers "a").map (fun t => t.delay)
      = some 300000 ∧
    WebSocketManager._getConnectionState (WebSocketManager.run (fun _ => false)
      [WebSocketManager.Event.construct (some exampleConfig),
        WebSocketManager.Event.socketError 0, WebSocketManager.Event.timeout 0,
        WebSocketManager.Event.socketError 1, WebSocketManager.Event.timeout 1,
        WebSocketManager.Event.socketError 2, WebSocketManager.Event.timeout 2,
        WebSocketManager.Event.socketError 3]) "a" = ConnectionState.FAILED ∧
    WebSocketManager._getConnectionState (WebSocketManager.run (fun _ => false)
      [WebSocketManager.Event.construct (some exampleConfig),
        WebSocketManager.Event.socketError 0, WebSocketManager.Event.timeout 0,
        WebSocketManager.Event.socketError 1, WebSocketManager.Event.timeout 1,
        WebSocketManager.Event.socketError 2]) "a" = ConnectionState.RECONNECTING ∧
    ((RconManager.run [RconManager.Event.construct (some exampleConfig),
        RconManager.Event.connectResolved 0, RconManager.Event.rconError 0,
        RconManager.Event.rconError 0, RconManager.Event.rconError 0,
        RconManager.Event.rconEnd 0]).reconnectTimers "a").map (fun t => t.delay)
      = some 300000 ∧
    (RconManager.run [RconManager.Event.construct (some exampleConfig),
        RconManager.Event.connectResolved 0, RconManager.Event.rconError 0,
        RconManager.Event.rconError 0, RconManager.Event.rconError 0,
        RconManager.Event.rconEnd 0]).reconnectAttempts "a" = some 4 ∧
    RconManager._getConnectionState (RconManager.run
      [RconManager.Event.construct (some exampleConfig),
        RconManager.Event.connectResolved 0, RconManager.Event.rconError 0,
        RconManager.Event.rconError 0, RconManager.Event.rconError 0,
        RconManager.Event.rconEnd 0]) "a" = ConnectionState.DISCONNECTED := by
  decide

/-! ## `getConnectionStatus` -/

/-- For a name that `Object.prototype` does not define, in both supervisors
`getConnectionStatus` has an entry for the name exactly when a configured
profile with that name has the transport enabled, and the entry's `connected`
is true exactly when a handle is registered for the name, whatever the recorded
state, attempt counter and timer are. -/
theorem getConnectionStatus_ordinary_name (config : Config) (r : RconManager)
    (w : WebSocketManager) (name : String)
    (hname : name ∉ objectPrototypeNames) :
    ((RconManager.getConnectionStatus config r name).isSome = true ↔
      ∃ c ∈ config.mc_qq_server_list.getD [], c.rcon_able = true ∧ c.server_name = name) ∧
    (∀ st, RconManager.getConnectionStatus config r name = some st →
      (st.connected = true ↔ (r.activeConnections name).isSome = true)) ∧
    ((WebSocketManager.getConnectionStatus config w name).isSome = true ↔
      ∃ c ∈ config.mc_qq_server_list.getD [], c.ws_able = true ∧ c.server_name = name) ∧
    (∀ st, WebSocketManager.getConnectionStatus config w name = some st →
      (st.connected = true ↔ (w.activeSockets name).isSome = true)) := by
  have hp : name ≠ "__proto__" := by
    intro h
    subst h
    exact hname (by decide)
  unfold RconManager.getConnectionStatus WebSocketManager.getConnectionStatus
  simp only [rcon_getConnectionStatus_foldl, ws_getConnectionStatus_foldl]
  refine ⟨?_, ?_, ?_, ?_⟩
  · by_cases h : (config.mc_qq_server_list.getD []).any
        (fun c => c.rcon_able && c.server_name == name) = true
    · simp only [h, hp, ne_eq, not_false_eq_true, and_self, if_true, Option.isSome_some,
        true_iff]
      simpa using h
    · simp only [h, Dict.empty]
      simpa using h
  · intro st hst
    by_cases h : (config.mc_qq_server_list.getD []).any
        (fun c => c.rcon_able && c.server_name == name) = true
    · simp only [h, hp, ne_eq, not_false_eq_true, and_self, if_true, Option.some.injEq] at hst
      rw [← hst]
      simp [Dict.truthy, hname]
    · simp [h, Dict.empty] at hst
  · by_cases h : (config.mc_qq_server_list.getD []).any
        (fun c => c.ws_able && c.server_name == name) = true
    · simp only [h, hp, ne_eq, not_false_eq_true, and_self, if_true, Option.isSome_some,
        true_iff]
      simpa using h
    · simp only [h, Dict.empty]
      simpa using h
  · intro st hst
    by_cases h : (config.mc_qq_server_list.getD []).any
        (fun c => c.ws_able && c.server_name == name) = true
    · simp only [h, hp, ne_eq, not_false_eq_true, and_self, if_true, Option.some.injEq] at hst
      rw [← hst]
      simp [Dict.truthy, hname]
    · simp [h, Dict.empty] at hst

/-- C12 (the code at the failing input): the only configured profile is
enabled for both transports and named `constructor`.  The constructors of both
managers skip it, so no connection is attempted and no handle is registered,
and `getConnectionStatus` reports `connected: true` and `hasReconnectTimer:
true` for it, with the inherited member in place of state and counter. -/
theorem getConnectionStatus_inherited_name :
    (RconManager.run [RconManager.Event.construct (some inheritedNameConfig)]).awaited = [] ∧
    (RconManager.run [RconManager.Event.construct (some inheritedNameConfig)]).activeConnections
      "constructor" = none ∧
    RconManager.getConnectionStatus inheritedNameConfig
        (RconManager.run [RconManager.Event.construct (some inheritedNameConfig)])
        "constructor"
      = some { state := Value.inherited "constructor", connected := true,
               reconnectAttempts := Value.inherited "constructor",
               hasReconnectTimer := true } ∧
    (WebSocketManager.run (fun _ => false)
      [WebSocketManager.Event.construct (some inheritedNameConfig)]).clients = [] ∧
    (WebSocketManager.run (fun _ => false)
      [WebSocketManager.Event.construct (some inheritedNameConfig)]).activeSockets
      "constructor" = none ∧
    WebSocketManager.getConnectionStatus inheritedNameConfig
        (WebSocketManager.run (fun _ => false)
          [WebSocketManager.Event.construct (some inheritedNameConfig)]) "constructor"
      = some { state := Value.inherited "constructor", connected := true,
               reconnectAttempts := Value.inherited "constructor",
               hasReconnectTimer := true } ∧
    RconManager.getConnectionStatus exampleConfig
        (RconManager.run [RconManager.Event.construct (some exampleConfig),
          RconManager.Event.connectResolved 0]) "a"
      = some { state := Value.data ConnectionState.CONNECTED, connected := true,
               reconnectAttempts := Value.data 0, hasReconnectTimer := false } := by
  decide

/-! ## Inbound listener: missing identity -/

/-- C13 (the code at the failing input): a request without `X-Self-Name` is
accepted under the name `undefined`: with the right token when a secret is
configured, and with any headers when none is; the socket is registered and
`close` is not called. -/
theorem missing_identity_accepted :
    (WebSocketManager.run (fun _ => false)
      [WebSocketManager.Event.construct (some exampleConfig),
       WebSocketManager.Event.connection
        { x_self_name := none, authorization := some "Bearer secret" }]).activeSockets
      "undefined" = some 1 ∧
    (WebSocketManager.run (fun _ => false)
      [WebSocketManager.Event.construct (some exampleConfig),
       WebSocketManager.Event.connection
        { x_self_name := none, authorization := some "Bearer secret" }]).closeCalls = [] ∧
    (WebSocketManager.run (fun _ => false)
      [WebSocketManager.Event.construct (some { exampleConfig with mc_qq_ws_password := "" }),
       WebSocketManager.Event.connection
        { x_self_name := none, authorization := none }]).activeSockets "undefined" = some 1 ∧
    (WebSocketManager.run (fun _ => false)
      [WebSocketManager.Event.construct (some { exampleConfig with mc_qq_ws_password := "" }),
       WebSocketManager.Event.connection
        { x_self_name := none, authorization := none }]).closeCalls = [] := by
  decide

/-! ## Inbound listener: token -/

/-- C14: when a secret is configured and the request carries a non-empty
decoded identity and an `Authorization` header whose decoded value, with the
leading `Bearer` removed, differs from the secret, the handler calls
`close(1008)` on the new socket and changes none of the dictionaries nor the
lists of timers and handlers; when no secret is configured the outcome does not
depend on the token. -/
theorem inbound_wrong_token_rejected (m : WebSocketManager) (request other : Request)
    (wsPassword : String) (debugMode : Bool) (remoteName token token2 : String) :
    (m.localServer = some (wsPassword, debugMode) →
      wsPassword ≠ "" →
      decodeURIComponent (headerToString request.x_self_name) = some remoteName →
      remoteName ≠ "" →
      decodeURIComponent (headerToString request.authorization) = some token →
      replaceBearer token ≠ wsPassword →
      (WebSocketManager.step m (WebSocketManager.Event.connection request)).closeCalls
          = m.closeCalls ++ [(m.nextSocket, some 1008)] ∧
        (WebSocketManager.step m (WebSocketManager.Event.connection request)).activeSockets
          = m.activeSockets ∧
        (WebSocketManager.step m (WebSocketManager.Event.connection request)).connectionStates
          = m.connectionStates ∧
        (WebSocketManager.step m (WebSocketManager.Event.connection request)).reconnectTimers
          = m.reconnectTimers ∧
        (WebSocketManager.step m (WebSocketManager.Event.connection request)).reconnectAttempts
          = m.reconnectAttempts ∧
        (WebSocketManager.step m (WebSocketManager.Event.connection request)).lastPingTime
          = m.lastPingTime ∧
        (WebSocketManager.step m (WebSocketManager.Event.connection request)).timeouts
          = m.timeouts ∧
        (WebSocketManager.step m (WebSocketManager.Event.connection request)).peers
          = m.peers ∧
        (WebSocketManager.step m (WebSocketManager.Event.connection request)).clients
          = m.clients) ∧
    (m.localServer = some ("", debugMode) →
      other.x_self_name = request.x_self_name →
      decodeURIComponent (headerToString request.authorization) = some token →
      decodeURIComponent (headerToString other.authorization) = some token2 →
      WebSocketManager.step m (WebSocketManager.Event.connection request)
        = WebSocketManager.step m (WebSocketManager.Event.connection other)) := by
  constructor
  · intro hl hp hn hne ha ht
    rw [WebSocketManager.ws_step_connection m request wsPassword debugMode hl]
    simp [WebSocketManager._startLocalServer_onConnection, hn, ha, hne, hp, ht,
      WebSocketManager.socketClose, WebSocketManager.setReadyState]
  · intro hl hx ha hb
    rw [WebSocketManager.ws_step_connection m request "" debugMode hl,
      WebSocketManager.ws_step_connection m other "" debugMode hl]
    simp [WebSocketManager._startLocalServer_onConnection, hx, ha, hb]

/-- C14 (witness): the peer `b` with a wrong token at the example listener. -/
theorem inbound_wrong_token_rejected_witness :
    (WebSocketManager.run (fun _ => false)
        [WebSocketManager.Event.construct (some exampleConfig)]).localServer
      = some ("secret", false) ∧
    replaceBearer "Bearer wrong" ≠ "secret" ∧
    (WebSocketManager.step (WebSocketManager.run (fun _ => false)
          [WebSocketManager.Event.construct (some exampleConfig)])
        (WebSocketManager.Event.connection
          { x_self_name := some "b", authorization := some "Bearer wrong" })).closeCalls
      = [(1, some 1008)] :=
  ⟨by decide, by decide,
   ((inbound_wrong_token_rejected
      (WebSocketManager.run (fun _ => false)
        [WebSocketManager.Event.construct (some exampleConfig)])
      { x_self_name := some "b", authorization := some "Bearer wrong" }
      { x_self_name := some "b", authorization := some "Bearer wrong" }
      "secret" false "b" "Bearer wrong" "Bearer wrong").1
      (by decide) (by decide) (by decide) (by decide) (by decide) (by decide)).1⟩

/-! ## Inbound listener: duplicate identity -/

/-- C15: in a state reached by any sequence of events, a request that passes
the identity and token checks for a name that already has a registered socket
is answered by `close(1000)` on the new socket; `activeSockets` is unchanged, so
the name still maps to the first socket; no handlers are attached, so after any
further events a `close` or `error` event of the rejected socket changes
nothing. -/
theorem inbound_duplicate_rejected (urlRejected : String → Bool)
    (events later : List WebSocketManager.Event) (request : Request)
    (wsPassword : String) (debugMode : Bool) (remoteName token : String) (first : Nat) :
    (WebSocketManager.run urlRejected events).localServer = some (wsPassword, debugMode) →
    decodeURIComponent (headerToString request.x_self_name) = some remoteName →
    remoteName ≠ "" →
    decodeURIComponent (headerToString request.authorization) = some token →
    (wsPassword = "" ∨ replaceBearer token = wsPassword) →
    (WebSocketManager.run urlRejected events).activeSockets remoteName = some first →
    (WebSocketManager.step (WebSocketManager.run urlRejected events)
        (WebSocketManager.Event.connection request)).closeCalls
      = (WebSocketManager.run urlRejected events).closeCalls
          ++ [((WebSocketManager.run urlRejected events).nextSocket, some 1000)] ∧
    (WebSocketManager.step (WebSocketManager.run urlRejected events)
        (WebSocketManager.Event.connection request)).activeSockets remoteName = some first ∧
    (WebSocketManager.step (WebSocketManager.run urlRejected events)
        (WebSocketManager.Event.connection request)).activeSockets
      = (WebSocketManager.run urlRejected events).activeSockets ∧
    WebSocketManager.step
        (later.foldl WebSocketManager.step
          (WebSocketManager.step (WebSocketManager.run urlRejected events)
            (WebSocketManager.Event.connection request)))
        (WebSocketManager.Event.peerClosed (WebSocketManager.run urlRejected events).nextSocket)
      = later.foldl WebSocketManager.step
          (WebSocketManager.step (WebSocketManager.run urlRejected events)
            (WebSocketManager.Event.connection request)) ∧
    WebSocketManager.step
        (later.foldl WebSocketManager.step
          (WebSocketManager.step (WebSocketManager.run urlRejected events)
            (WebSocketManager.Event.connection request)))
        (WebSocketManager.Event.peerError (WebSocketManager.run urlRejected events).nextSocket)
      = later.foldl WebSocketManager.step
          (WebSocketManager.step (WebSocketManager.run urlRejected events)
            (WebSocketManager.Event.connection request)) := by
  intro hl hn hne ha htok hfirst
  have hfresh := WebSocketManager.ws_run_peersFresh urlRejected events
  generalize WebSocketManager.run urlRejected events = m at *
  have hstep : WebSocketManager.step m (WebSocketManager.Event.connection request)
      = WebSocketManager.socketClose m.nextSocket (some 1000)
          (WebSocketManager.setReadyState m.nextSocket ReadyState.OPEN
            { m with nextSocket := m.nextSocket + 1 }) := by
    rw [WebSocketManager.ws_step_connection m request wsPassword debugMode hl]
    have hcond : ¬ (wsPassword ≠ "" ∧ replaceBearer token ≠ wsPassword) := by
      rcases htok with h | h
      · exact fun hh => hh.1 h
      · exact fun hh => hh.2 h
    simp only [WebSocketManager._startLocalServer_onConnection, hn, ha, hne, hcond, if_false]
    simp [WebSocketManager.setReadyState, hfirst]
  rw [hstep]
  have hno : ∀ p ∈ (later.foldl WebSocketManager.step
      (WebSocketManager.socketClose m.nextSocket (some 1000)
        (WebSocketManager.setReadyState m.nextSocket ReadyState.OPEN
          { m with nextSocket := m.nextSocket + 1 }))).peers, p.1 ≠ m.nextSocket := by
    intro p hp
    rcases (WebSocketManager.ws_foldl_grows later _).2 p hp with h | ⟨h, _⟩
    · have : p.1 < m.nextSocket := hfresh p h
      omega
    · have h2 : m.nextSocket + 1 ≤ p.1 := h
      omega
  refine ⟨rfl, hfirst, rfl, ?_, ?_⟩
  · exact (WebSocketManager.ws_step_peer_noHandlers _ _ hno).1
  · exact (WebSocketManager.ws_step_peer_noHandlers _ _ hno).2

/-- C15 (witness): a second peer `b` while the first one is registered. -/
theorem inbound_duplicate_rejected_witness :
    (WebSocketManager.run (fun _ => false)
      [WebSocketManager.Event.construct (some exampleConfig),
       WebSocketManager.Event.connection
        { x_self_name := some "b", authorization := some "Bearer secret" }]).activeSockets "b"
      = some 1 ∧
    (WebSocketManager.step (WebSocketManager.run (fun _ => false)
        [WebSocketManager.Event.construct (some exampleConfig),
         WebSocketManager.Event.connection
          { x_self_name := some "b", authorization := some "Bearer secret" }])
      (WebSocketManager.Event.connection
        { x_self_name := some "b", authorization := some "Bearer secret" })).activeSockets "b"
      = some 1 :=
  ⟨by decide,
   (inbound_duplicate_rejected (fun _ => false)
      [WebSocketManager.Event.construct (some exampleConfig),
       WebSocketManager.Event.connection
        { x_self_name := some "b", authorization := some "Bearer secret" }] []
      { x_self_name := some "b", authorization := some "Bearer secret" }
      "secret" false "b" "Bearer secret" 1
      (by decide) (by decide) (by decide) (by decide) (Or.inr (by decide)) (by decide)).2.1⟩

/-! ## Outbound close handler -/

/-- C16: the `close` handler of an outbound socket, run with code 1000, leaves
the server without handle and without recorded timer, in state `disconnected`
and with the attempt counters unchanged; run with another code for an enabled
profile it leaves a reconnect timer recorded and armed. -/
theorem onClose_normal_no_reconnect (serverCfg : ServerCfg) (globalDebug : Bool) (code : Nat)
    (m : WebSocketManager) :
    (code = 1000 →
      (WebSocketManager._establishClientConnection_onClose serverCfg globalDebug code
          m).activeSockets serverCfg.server_name = none ∧
        WebSocketManager._getConnectionState
          (WebSocketManager._establishClientConnection_onClose serverCfg globalDebug code m)
          serverCfg.server_name = ConnectionState.DISCONNECTED ∧
        (WebSocketManager._establishClientConnection_onClose serverCfg globalDebug code
          m).reconnectTimers serverCfg.server_name = none ∧
        (WebSocketManager._establishClientConnection_onClose serverCfg globalDebug code
          m).reconnectAttempts = m.reconnectAttempts) ∧
    (code ≠ 1000 → serverCfg.ws_able = true →
      ∃ t : Timeout,
        (WebSocketManager._establishClientConnection_onClose serverCfg globalDebug code
          m).reconnectTimers serverCfg.server_name = some t ∧
        t ∈ (WebSocketManager._establishClientConnection_onClose serverCfg globalDebug code
          m).timeouts) := by
  have hat : ∀ n, (WebSocketManager._cleanupConnection n m).reconnectAttempts
      = m.reconnectAttempts := by
    intro n
    unfold WebSocketManager._cleanupConnection
    cases h : m.activeSockets n with
    | none =>
      cases h2 : m.reconnectTimers n <;> simp [h2, WebSocketManager.clearTimeout]
    | some ws =>
      by_cases hr : m.readyState ws = ReadyState.OPEN ∨ m.readyState ws = ReadyState.CONNECTING
      · cases h2 : m.reconnectTimers n <;>
          simp [h2, hr, WebSocketManager.clearTimeout, WebSocketManager.socketClose]
      · cases h2 : m.reconnectTimers n <;> simp [h2, hr, WebSocketManager.clearTimeout]
  constructor
  · intro hc
    subst hc
    simp only [WebSocketManager._establishClientConnection_onClose, ne_eq, not_true_eq_false,
      if_false, WebSocketManager._setConnectionState, WebSocketManager._getConnectionState,
      WebSocketManager.ws_cleanupConnection_activeSockets,
      WebSocketManager.ws_cleanupConnection_reconnectTimers, hat]
    simp [Dict.delete, Dict.set]
  · intro hc hable
    simp only [WebSocketManager._establishClientConnection_onClose, ne_eq, hc,
      not_false_eq_true, if_true]
    rcases WebSocketManager.ws_scheduleReconnect_cases serverCfg globalDebug
      (WebSocketManager._setConnectionState serverCfg.server_name ConnectionState.DISCONNECTED
        (WebSocketManager._cleanupConnection serverCfg.server_name m))
      with he | ⟨_, _, t, _, hto, hti, _, _⟩
    · exfalso
      have hg : WebSocketManager._scheduleReconnect serverCfg globalDebug
          (WebSocketManager._setConnectionState serverCfg.server_name
            ConnectionState.DISCONNECTED
            (WebSocketManager._cleanupConnection serverCfg.server_name m))
          ≠ WebSocketManager._setConnectionState serverCfg.server_name
            ConnectionState.DISCONNECTED
            (WebSocketManager._cleanupConnection serverCfg.server_name m) := by
        intro heq
        have := congrArg (fun x => x.nextTimeout) heq
        simp [WebSocketManager._scheduleReconnect, WebSocketManager._setConnectionState,
          WebSocketManager._getConnectionState,
          WebSocketManager.ws_cleanupConnection_reconnectTimers, Dict.delete, Dict.set, hable,
          WebSocketManager.setTimeout] at this
        split at this <;> simp at this
      exact hg he
    · refine ⟨t, ?_, ?_⟩
      · rw [hti]; simp [Dict.set]
      · rw [hto]; simp

/-- C16 (witness): the connected example server closed with code 1006. -/
theorem onClose_normal_no_reconnect_witness :
    (1006 : Nat) ≠ 1000 ∧ exampleServer.ws_able = true ∧
    ∃ t : Timeout,
      (WebSocketManager._establishClientConnection_onClose exampleServer false 1006
        (WebSocketManager.run (fun _ => false)
          [WebSocketManager.Event.construct (some exampleConfig),
           WebSocketManager.Event.socketOpen 0])).reconnectTimers exampleServer.server_name
        = some t ∧
      t ∈ (WebSocketManager._establishClientConnection_onClose exampleServer false 1006
        (WebSocketManager.run (fun _ => false)
          [WebSocketManager.Event.construct (some exampleConfig),
           WebSocketManager.Event.socketOpen 0])).timeouts :=
  ⟨by decide, by decide,
   (onClose_normal_no_reconnect exampleServer false 1006
      (WebSocketManager.run (fun _ => false)
        [WebSocketManager.Event.construct (some exampleConfig),
         WebSocketManager.Event.socketOpen 0])).2 (by decide) (by decide)⟩

/-! ## Teardown without handle -/

/-- C17 (counterexample): after a failed first connect the example server has
no handle and a recorded reconnect timer; `_cleanupConnection` then cancels
and unrecords that timer. -/
theorem cleanupConnection_cancels_timer :
    (RconManager.run [RconManager.Event.construct (some exampleConfig),
        RconManager.Event.connectRejected 0]).activeConnections "a" = none ∧
    ((RconManager.run [RconManager.Event.construct (some exampleConfig),
        RconManager.Event.connectRejected 0]).reconnectTimers "a").isSome = true ∧
    (RconManager._cleanupConnection "a"
      (RconManager.run [RconManager.Event.construct (some exampleConfig),
        RconManager.Event.connectRejected 0])).reconnectTimers "a" = none ∧
    (RconManager._cleanupConnection "a"
      (RconManager.run [RconManager.Event.construct (some exampleConfig),
        RconManager.Event.connectRejected 0])).timeouts = [] ∧
    (WebSocketManager.run (fun _ => false)
      [WebSocketManager.Event.construct (some exampleConfig),
        WebSocketManager.Event.socketError 0]).activeSockets "a" = none ∧
    (WebSocketManager._cleanupConnection "a"
      (WebSocketManager.run (fun _ => false)
        [WebSocketManager.Event.construct (some exampleConfig),
          WebSocketManager.Event.socketError 0])).reconnectTimers "a" = none := by
  decide

/-- C17 (amended): in both supervisors, for a server without registered handle
`_cleanupConnection` leaves handles, connection states and attempt counters
unchanged, and returns the manager unchanged when no reconnect timer is
recorded for the server either. -/
theorem cleanupConnection_without_handle (serverName : String) (r : RconManager)
    (w : WebSocketManager) :
    (r.activeConnections serverName = none →
      (RconManager._cleanupConnection serverName r).activeConnections = r.activeConnections ∧
      (RconManager._cleanupConnection serverName r).connectionStates = r.connectionStates ∧
      (RconManager._cleanupConnection serverName r).reconnectAttempts = r.reconnectAttempts ∧
      (r.reconnectTimers serverName = none →
        RconManager._cleanupConnection serverName r = r)) ∧
    (w.activeSockets serverName = none →
      (WebSocketManager._cleanupConnection serverName w).activeSockets = w.activeSockets ∧
      (WebSocketManager._cleanupConnection serverName w).connectionStates
        = w.connectionStates ∧
      (WebSocketManager._cleanupConnection serverName w).reconnectAttempts
        = w.reconnectAttempts ∧
      (w.reconnectTimers serverName = none →
        WebSocketManager._cleanupConnection serverName w = w)) := by
  constructor
  · intro h
    unfold RconManager._cleanupConnection
    cases h2 : r.reconnectTimers serverName <;> simp [h, h2, RconManager.clearTimeout]
  · intro h
    unfold WebSocketManager._cleanupConnection
    cases h2 : w.reconnectTimers serverName <;> simp [h, h2, WebSocketManager.clearTimeout]

/-- C17 (witness): a fresh manager has neither handle nor timer. -/
theorem cleanupConnection_without_handle_witness :
    RconManager.new.activeConnections "a" = none ∧
    RconManager.new.reconnectTimers "a" = none ∧
    RconManager._cleanupConnection "a" RconManager.new = RconManager.new :=
  ⟨by decide, by decide,
   ((cleanupConnection_without_handle "a" RconManager.new
      (WebSocketManager.new (fun _ => false))).1 (by decide)).2.2.2 (by decide)⟩

/-! ## Countdown: cancel -/

/-- C18 (the code at the failing input): the countdown of 5 s of the example
server runs, every timeout firing when it is due, until remaining 0 is reached
at clock reading 5000 and `_executeShutdown` waits for its second; the cancel
command at 5500 removes the task and sends the cancel notification; at 6000 the
command `stop` is sent all the same. -/
theorem cancel_during_final_wait_still_stops :
    ((Shutdown.fireDueTimes connectedRcon connectedSocket false 10
        countdownStarted).shutdownTasks "a").map (fun t => t.currentCount) = some 0 ∧
    (Shutdown.fireDueTimes connectedRcon connectedSocket false 10
        countdownStarted).finalWaits.map (fun w => (w.id, w.due)) = [(11, 6000)] ∧
    Shutdown.commandsSent (Shutdown.fireDueTimes connectedRcon connectedSocket false 10
        countdownStarted) = [] ∧
    (Shutdown.step connectedRcon connectedSocket
        (Shutdown.fireDueTimes connectedRcon connectedSocket false 10 countdownStarted)
        (Shutdown.Event.cancelShutdown exampleMessage exampleConfig 5500 false)).shutdownTasks
      "a" = none ∧
    (Shutdown.titlesSent (Shutdown.step connectedRcon connectedSocket
        (Shutdown.fireDueTimes connectedRcon connectedSocket false 10 countdownStarted)
        (Shutdown.Event.cancelShutdown exampleMessage exampleConfig 5500 false))).getLast?
      = some "🟢 关机已取消" ∧
    Shutdown.commandsSent (Shutdown.step connectedRcon connectedSocket
        (Shutdown.step connectedRcon connectedSocket
          (Shutdown.fireDueTimes connectedRcon connectedSocket false 10 countdownStarted)
          (Shutdown.Event.cancelShutdown exampleMessage exampleConfig 5500 false))
        (Shutdown.Event.finalWait 11 6000)) = ["stop"] := by
  decide

/-! ## Countdown: ticks of a countdown of 5 s -/

/-- C19 (the code at the failing input): in the countdown of 5 s of the example
server with every timeout firing when it is due, the ticks run at the
clock readings 1, 1000, 1001, 2000, 2001, 3000, 3001, 4000, 4001 and 5000 after
the start: the values 4, 3, 2 and 1 are each ticked and notified twice, because
at a whole second the next tick is armed with delay 0.  The command `stop` is
sent once, and the task is gone afterwards. -/
theorem countdown_five_ticks_twice :
    (Shutdown.fireDueTimes connectedRcon connectedSocket false 11 countdownStarted).sent.tail
      = [Sent.ws 0 { api := "send_title", title := "服务器即将关机",
                     subtitle := "倒计时 5 秒", echo := "0" },
         Sent.ws 0 { api := "send_title", title := "5",
                     subtitle := "服务器即将关机", echo := "1" },
         Sent.ws 0 { api := "send_title", title := "4",
                     subtitle := "服务器即将关机", echo := "1000" },
         Sent.ws 0 { api := "send_title", title := "4",
                     subtitle := "服务器即将关机", echo := "1001" },
         Sent.ws 0 { api := "send_title", title := "3",
                     subtitle := "服务器即将关机", echo := "2000" },
         Sent.ws 0 { api := "send_title", title := "3",
                     subtitle := "服务器即将关机", echo := "2001" },
         Sent.ws 0 { api := "send_title", title := "2",
                     subtitle := "服务器即将关机", echo := "3000" },
         Sent.ws 0 { api := "send_title", title := "2",
                     subtitle := "服务器即将关机", echo := "3001" },
         Sent.ws 0 { api := "send_title", title := "1",
                     subtitle := "服务器即将关机", echo := "4000" },
         Sent.ws 0 { api := "send_title", title := "1",
                     subtitle := "服务器即将关机", echo := "4001" },
         Sent.ws 0 { api := "send_title", title := "服务器关机中...",
                     subtitle := "请稍后重新连接", echo := "5000" },
         Sent.rcon 0 "stop"] ∧
    (Shutdown.fireDueTimes connectedRcon connectedSocket false 2
        countdownStarted).timeouts = [{ id := 3, serverName := "a", due := 1001 }] ∧
    (Shutdown.fireDueTimes connectedRcon connectedSocket false 11
        countdownStarted).shutdownTasks "a" = none ∧
    (Shutdown.fireDueTimes connectedRcon connectedSocket false 11
        countdownStarted).timeouts = [] ∧
    (Shutdown.fireDueTimes connectedRcon connectedSocket false 11
        countdownStarted).finalWaits = [] := by
  decide

/-! ## Countdown: remaining time -/

/-- C20: for a task and a clock reading `now` not before its `startTime`,
`_updateCountdown` stores as `currentCount` the remaining time as the
specification words it, a function of `countdown`, `startTime` and `now` alone;
`getShutdownStatus` at the same clock reading reports the same number as
`remaining` and `currentCount` and the whole seconds elapsed as `elapsed`; the
remaining time lies between 0 and `countdown`. -/
theorem remaining_from_clock (rconManager : RconManager) (webSocketManager : WebSocketManager)
    (serverName : String) (now : Int) (titleRejects : Bool) (s : Shutdown)
    (task : ShutdownTask) (ht : s.shutdownTasks serverName = some task)
    (hnow : task.startTime ≤ now) :
    ((Shutdown._updateCountdown rconManager webSocketManager serverName now titleRejects
        s).shutdownTasks serverName).map (fun t => t.currentCount)
      = some (Shutdown.specRemaining task.countdown task.startTime now) ∧
    (Shutdown.getShutdownStatus now s serverName).map (fun st => st.remaining)
      = some (Shutdown.specRemaining task.countdown task.startTime now) ∧
    (Shutdown.getShutdownStatus now s serverName).map (fun st => st.currentCount)
      = some (Shutdown.specRemaining task.countdown task.startTime now) ∧
    (Shutdown.getShutdownStatus now s serverName).map (fun st => st.elapsed)
      = some ((now - task.startTime) / 1000) ∧
    0 ≤ Shutdown.specRemaining task.countdown task.startTime now ∧
    Shutdown.specRemaining task.countdown task.startTime now ≤ task.countdown := by
  have hfd : Int.fdiv (now - task.startTime) 1000 = (now - task.startTime) / 1000 :=
    Int.fdiv_eq_ediv _ (by decide)
  have hspec : Shutdown.specRemaining task.countdown task.startTime now
      = max 0 ((task.countdown : Int) - Shutdown.floorDiv1000 (now - task.startTime)) := by
    unfold Shutdown.specRemaining Shutdown.floorDiv1000
    split <;> omega
  have hsend : ∀ (c : Prop) [Decidable c] (cfg : ServerCfg) (t1 t2 : String) (s2 : Shutdown),
      (if c then Shutdown._sendTitleToServer rconManager webSocketManager cfg t1 t2 now
          titleRejects s2 else s2).shutdownTasks = s2.shutdownTasks := by
    intro c _ cfg t1 t2 s2
    split
    · exact Shutdown.shutdown_sendTitleToServer_tasks _ _ _ _ _ _ _ _
    · rfl
  refine ⟨?_, ?_, ?_, ?_, ?_, ?_⟩
  · rw [hspec]
    unfold Shutdown._updateCountdown
    simp only [ht]
    split
    · rw [Shutdown.shutdown_scheduleNextUpdate_currentCount, hsend]
      simp [Dict.set]
    · rw [Shutdown.shutdown_executeShutdown_tasks]
      simp [Dict.set]
  · rw [hspec]; simp [Shutdown.getShutdownStatus, ht]
  · rw [hspec]; simp [Shutdown.getShutdownStatus, ht]
  · simp [Shutdown.getShutdownStatus, ht, Shutdown.floorDiv1000, hfd]
  · rw [hspec]; omega
  · rw [hspec]
    unfold Shutdown.floorDiv1000
    rw [hfd]
    omega

/-- C20 (witness): the example countdown read at clock reading 2500. -/
theorem remaining_from_clock_witness :
    countdownStarted.shutdownTasks "a"
      = some { serverCfg := exampleServer, action := "stop", countdown := 5,
               currentCount := 5, debugMode := false, startTime := 0,
               interval := some 1, finalTimeout := none } ∧
    (Shutdown.getShutdownStatus 2500 countdownStarted "a").map (fun st => st.remaining)
      = some (Shutdown.specRemaining 5 0 2500) ∧
    Shutdown.specRemaining 5 0 2500 = 3 :=
  ⟨by decide,
   (remaining_from_clock connectedRcon connectedSocket "a" 2500 false countdownStarted
      { serverCfg := exampleServer, action := "stop", countdown := 5,
        currentCount := 5, debugMode := false, startTime := 0,
        interval := some 1, finalTimeout := none } (by decide) (by decide)).2.1,
   by decide⟩

/-! ## Countdown: busy target -/

/-- C21: when a server targeted by `_initiateShutdown` has an entry in
`shutdownTasks`, the call only sends a reply to the chat: tasks, armed
timeouts and suspended calls are unchanged and no call is left waiting to
create tasks; the same holds for the handlers `shutdown` and `restart` called
with a duration between 5 and 300. -/
theorem initiateShutdown_busy_rejected (e : MessageEvent) (countdown : Nat) (action : String)
    (config : Config) (s : Shutdown) (serverList : List ServerCfg) (busy : ServerCfg) :
    config.mc_qq_server_list = some serverList →
    busy ∈ Shutdown.targetServers serverList e →
    (s.shutdownTasks busy.server_name).isSome = true →
    (∃ text, Shutdown._initiateShutdown e countdown action config s = Shutdown.reply text s) ∧
    (e.isGroup = true → 5 ≤ countdown → countdown ≤ 300 →
      (∃ text, (Shutdown.shutdown e (some countdown) config s).1 = Shutdown.reply text s) ∧
      (∃ text, (Shutdown.restart e (some countdown) config s).1 = Shutdown.reply text s)) := by
  intro hl hb ht
  have key : ∀ action, ∃ text,
      Shutdown._initiateShutdown e countdown action config s = Shutdown.reply text s := by
    intro action
    unfold Shutdown._initiateShutdown
    rw [hl]
    cases serverList with
    | nil => exact ⟨_, rfl⟩
    | cons c l =>
      simp only []
      split
      · exact ⟨_, rfl⟩
      · split
        · exact ⟨_, rfl⟩
        · rename_i hbusy
          exfalso
          apply hbusy
          apply List.length_pos_of_mem (a := busy)
          simp [List.mem_filter, hb, ht]
  refine ⟨key action, ?_⟩
  intro hg h5 h300
  have hc : ¬ (countdown < 5 ∨ countdown > 300) := by omega
  constructor
  · obtain ⟨text, h⟩ := key "stop"
    exact ⟨text, by simp [Shutdown.shutdown, Shutdown.handle, hg, hc, h]⟩
  · obtain ⟨text, h⟩ := key "restart"
    exact ⟨text, by simp [Shutdown.restart, Shutdown.handle, hg, hc, h]⟩

/-- C21 (witness): the example server has a task when the example group asks
for another countdown. -/
theorem initiateShutdown_busy_rejected_witness :
    ∃ text, Shutdown._initiateShutdown exampleMessage 10 "stop" exampleConfig countdownStarted
      = Shutdown.reply text countdownStarted :=
  (initiateShutdown_busy_rejected exampleMessage 10 "stop" exampleConfig countdownStarted
    [exampleServer] exampleServer rfl (by decide) (by decide)).1

/-! ## Countdown: bounds of the duration -/

/-- C22: the handlers `shutdown` and `restart`, called from a group with a
duration `n` (the number of the message, 10 without one) below 5 or above 300,
only send the reply that names the bounds: no task is created, no call waits to
create one, nothing is sent to a server.  After every sequence of events, each
run with any state of the two managers, every stored task has a countdown
between 5 and 300. -/
theorem countdown_within_bounds :
    (∀ (action : String) (e : MessageEvent) (countdownTime : Option Nat) (config : Config)
        (s : Shutdown),
      e.isGroup = true →
      (countdownTime.getD 10 < 5 ∨ countdownTime.getD 10 > 300) →
      (Shutdown.handle action e countdownTime config s).1
        = Shutdown.reply "❌ 倒计时时间必须在5-300秒之间" s) ∧
    (∀ (events : List (RconManager × WebSocketManager × Shutdown.Event)) (name : String)
        (task : ShutdownTask),
      (Shutdown.runWith events).shutdownTasks name = some task →
      5 ≤ task.countdown ∧ task.countdown ≤ 300) := by
  constructor
  · intro action e countdownTime config s hg hn
    cases countdownTime with
    | none => simp at hn
    | some n =>
      simp only [Option.getD_some] at hn
      simp [Shutdown.handle, hg, hn]
  · intro events name task
    have hinv : ∀ (l : List (RconManager × WebSocketManager × Shutdown.Event)) (s : Shutdown),
        CountdownInRange s →
        CountdownInRange (l.foldl (fun s x => Shutdown.step x.1 x.2.1 s x.2.2) s) := by
      intro l
      induction l with
      | nil => intro s hs; exact hs
      | cons x l ih =>
        intro s hs
        exact ih _ (Shutdown.shutdown_range_step _ _ hs _)
    have hnew : CountdownInRange Shutdown.new :=
      ⟨fun name task h => by simp [Shutdown.new, Dict.empty] at h,
       fun c hc => by simp [Shutdown.new] at hc⟩
    exact (hinv events Shutdown.new hnew).1 name task

/-- C22 (witness): a duration of 3 s is refused, and the task of the example
countdown of 5 s is within the bounds. -/
theorem countdown_within_bounds_witness :
    (Shutdown.handle "stop" exampleMessage (some 3) exampleConfig Shutdown.new).1
      = Shutdown.reply "❌ 倒计时时间必须在5-300秒之间" Shutdown.new ∧
    ∃ task, (Shutdown.runWith
        [(connectedRcon, connectedSocket,
          Shutdown.Event.shutdown exampleMessage (some 5) exampleConfig),
         (connectedRcon, connectedSocket,
          Shutdown.Event.confirmed 0 0 false)]).shutdownTasks "a" = some task ∧
      5 ≤ task.countdown ∧ task.countdown ≤ 300 := by
  refine ⟨countdown_within_bounds.1 "stop" exampleMessage (some 3) exampleConfig Shutdown.new
    rfl (by decide), ?_⟩
  cases h : (Shutdown.runWith
        [(connectedRcon, connectedSocket,
          Shutdown.Event.shutdown exampleMessage (some 5) exampleConfig),
         (connectedRcon, connectedSocket,
          Shutdown.Event.confirmed 0 0 false)]).shutdownTasks "a" with
  | none => exact absurd h (by decide)
  | some task => exact ⟨task, rfl, countdown_within_bounds.2 _ "a" task h⟩

/-! ## Countdown: the command -/

/-- C23: `_executeShutdown`, called while the server has a task, sends the
final notification and suspends for one second whether or not the notification
was rejected; when the second has passed, whatever the state of the plugin and
of the RCON manager then is, it sends `restart` when the action of the task is
`restart` and `stop` otherwise through the RCON client registered for the
server at that moment, sends nothing when none is registered, and in both
cases leaves the server without a task.  Both parts are total functions: the
call returns in every case. -/
theorem executeShutdown_command_and_teardown (rconManager : RconManager)
    (webSocketManager : WebSocketManager) (serverName : String) (now : Int)
    (titleRejects : Bool) (s : Shutdown) (task : ShutdownTask) :
    s.shutdownTasks serverName = some task →
    ∃ w : FinalWait,
      (Shutdown._executeShutdown rconManager webSocketManager serverName now titleRejects
        s).finalWaits = s.finalWaits ++ [w] ∧
      w.serverName = serverName ∧ w.task = task ∧ w.due = now + 1000 ∧
      ∀ (rconLater : RconManager) (later : Shutdown),
        (Shutdown._executeShutdown_afterWait rconLater w later).shutdownTasks serverName
          = none ∧
        (Shutdown._executeShutdown_afterWait rconLater w later).sent
          = later.sent ++
            (match rconLater.activeConnections serverName with
             | some rconConnection =>
               [Sent.rcon rconConnection (if task.action = "restart" then "restart" else "stop")]
             | none => []) := by
  intro h
  obtain ⟨items, hs⟩ := Shutdown.shutdown_sendTitleToServer_frame rconManager webSocketManager
    task.serverCfg ("服务器" ++ Shutdown.actionText task.action ++ "中...") "请稍后重新连接" now
    titleRejects s
  refine ⟨{ id := s.nextId, serverName := serverName, task := task, due := now + 1000 },
    ?_, rfl, rfl, rfl, ?_⟩
  · simp [Shutdown._executeShutdown, h, hs]
  · intro rconLater later
    constructor
    · simp [Shutdown._executeShutdown_afterWait, Shutdown.shutdown_cancelServerShutdown_tasks,
        Dict.delete]
    · simp only [Shutdown._executeShutdown_afterWait,
        Shutdown.shutdown_cancelServerShutdown_sent]
      cases rconLater.activeConnections serverName <;> simp

/-- C23 (witness): the countdown of the example server has a task. -/
theorem executeShutdown_command_and_teardown_witness :
    countdownStarted.shutdownTasks "a" ≠ none ∧
    ∃ w : FinalWait,
      (Shutdown._executeShutdown connectedRcon connectedSocket "a" 10000 false
        countdownStarted).finalWaits = countdownStarted.finalWaits ++ [w] ∧
      (Shutdown._executeShutdown_afterWait connectedRcon w countdownStarted).shutdownTasks "a"
        = none := by
  cases h : countdownStarted.shutdownTasks "a" with
  | none => exact absurd h (by decide)
  | some task =>
    obtain ⟨w, h1, _, _, _, h2⟩ := executeShutdown_command_and_teardown connectedRcon
      connectedSocket "a" 10000 false countdownStarted task h
    exact ⟨by simp, w, h1, (h2 connectedRcon countdownStarted).1⟩

/-! ## Countdown: transport of a notification -/

/-- C24: `_sendTitleToServer` sends one `send_title` payload over the socket
registered for the server and nothing over RCON when a socket is registered,
whether or not an RCON client is registered too; with an RCON client only it
sends the title command and then, when the title command did not reject and
the subtitle is not empty, the subtitle command; with neither it sends nothing.
In every case it returns, and only the list of sent items grows. -/
theorem sendTitle_prefers_socket (rconManager : RconManager)
    (webSocketManager : WebSocketManager) (serverCfg : ServerCfg) (title subtitle : String)
    (now : Int) (titleRejects : Bool) (s : Shutdown) :
    (∀ ws, webSocketManager.activeSockets serverCfg.server_name = some ws →
      Shutdown._sendTitleToServer rconManager webSocketManager serverCfg title subtitle now
          titleRejects s
        = { s with sent := s.sent ++ [Sent.ws ws
              { api := "send_title", title := title, subtitle := subtitle,
                echo := toString now }] }) ∧
    (∀ rcon, webSocketManager.activeSockets serverCfg.server_name = none →
      rconManager.activeConnections serverCfg.server_name = some rcon →
      Shutdown._sendTitleToServer rconManager webSocketManager serverCfg title subtitle now
          titleRejects s
        = { s with sent := s.sent ++ [Sent.rcon rcon (Shutdown.titleCommand "title" title)]
              ++ (if titleRejects = false ∧ subtitle ≠ "" then
                    [Sent.rcon rcon (Shutdown.titleCommand "subtitle" subtitle)]
                  else []) }) ∧
    (webSocketManager.activeSockets serverCfg.server_name = none →
      rconManager.activeConnections serverCfg.server_name = none →
      Shutdown._sendTitleToServer rconManager webSocketManager serverCfg title subtitle now
          titleRejects s = s) := by
  refine ⟨?_, ?_, ?_⟩
  · intro ws h
    simp [Shutdown._sendTitleToServer, h]
  · intro rcon h1 h2
    cases titleRejects <;> by_cases hs : subtitle = "" <;>
      simp [Shutdown._sendTitleToServer, h1, h2, hs]
  · intro h1 h2
    simp [Shutdown._sendTitleToServer, h1, h2]

/-- C24 (witness): both transports of the example server are connected. -/
theorem sendTitle_prefers_socket_witness :
    connectedSocket.activeSockets exampleServer.server_name = some 0 ∧
    connectedRcon.activeConnections exampleServer.server_name = some 0 ∧
    (Shutdown._sendTitleToServer connectedRcon connectedSocket exampleServer "t" "s" 7 false
        Shutdown.new).sent
      = [Sent.ws 0 { api := "send_title", title := "t", subtitle := "s", echo := "7" }] :=
  ⟨by decide, by decide,
   by
    rw [(sendTitle_prefers_socket connectedRcon connectedSocket exampleServer "t" "s" 7 false
      Shutdown.new).1 0 (by decide)]
    decide⟩

/-! ## Command: admin-only keywords -/

/-- C25: a user who is not the master and is listed in `command_user` of
server `a` sends the arguments `a  stop`, with two spaces.  `_parseCommand`
extracts the command ` stop`, which is the admin-only keyword `stop` after one
space; `_checkPermission` and `_checkCommandSafety` accept it, and
`executeCommand` passes it on for execution on server `a`.  The same user is
denied the command `stop`. -/
theorem admin_keyword_after_space_accepted :
    exampleMessage.isMaster = false ∧
    ExecuteCommand._parseCommand commandConfig "a  stop"
      = ParsedCommand.success (some "a") " stop" ∧
    ExecuteCommand.trim " stop" = "stop" ∧
    "stop" ∈ ExecuteCommand.adminOnlyCommands ∧
    ExecuteCommand._checkPermission exampleMessage [commandServer] " stop" = Check.ok ∧
    ExecuteCommand._checkCommandSafety " stop" = Check.ok ∧
    ExecuteCommand.executeCommand commandConfig exampleMessage "a  stop"
      = Outcome.execute [commandServer] " stop" ∧
    ExecuteCommand._checkPermission exampleMessage [commandServer] "stop" ≠ Check.ok ∧
    ExecuteCommand._checkPermission exampleMessage [commandServer] " STOP" = Check.ok := by
  decide

/-! ## Countdown: cadence of the notifications -/

/-- C26: a tick of `_updateCountdown` for a server with a task, at which the
remaining time `r` is above 0.  When `r` is at most 30 or a multiple of 10,
`_sendTitleToServer` is called once, with a non-empty title that is the
decimal numeral of `r` exactly when `r` is at most 5 and with the subtitle
`还有 r 秒` when `r` is between 6 and 10.  Otherwise nothing is sent.  In both
cases one timeout is armed for the server and recorded in its task. -/
theorem updateCountdown_cadence (rconManager : RconManager)
    (webSocketManager : WebSocketManager) (serverName : String) (now : Int)
    (titleRejects : Bool) (s : Shutdown) (task : ShutdownTask) (r : Int) :
    s.shutdownTasks serverName = some task →
    r = max 0 ((task.countdown : Int) - Shutdown.floorDiv1000 (now - task.startTime)) →
    0 < r →
    ((r ≤ 30 ∨ r % 10 = 0) →
      ∃ title subtitle,
        Shutdown._updateCountdown rconManager webSocketManager serverName now titleRejects s
          = Shutdown._scheduleNextUpdate serverName now
              (Shutdown._sendTitleToServer rconManager webSocketManager task.serverCfg title
                subtitle now titleRejects
                { s with shutdownTasks :=
                    Dict.set s.shutdownTasks serverName { task with currentCount := r } }) ∧
        title ≠ "" ∧ (title = toString r ↔ r ≤ 5) ∧
        (6 ≤ r → r ≤ 10 → subtitle = "还有 " ++ toString r ++ " 秒")) ∧
    (¬ (r ≤ 30 ∨ r % 10 = 0) →
      (Shutdown._updateCountdown rconManager webSocketManager serverName now titleRejects
        s).sent = s.sent) ∧
    (∃ t : Tick,
      (Shutdown._updateCountdown rconManager webSocketManager serverName now titleRejects
        s).timeouts = s.timeouts ++ [t] ∧
      t.serverName = serverName ∧
      ((Shutdown._updateCountdown rconManager webSocketManager serverName now titleRejects
        s).shutdownTasks serverName).map (fun task => task.interval) = some (some t.id)) := by
  intro h hr hpos
  have h0 : 0 ≤ r := le_of_lt hpos
  have harm : ∀ s2 : Shutdown,
      s2.shutdownTasks = Dict.set s.shutdownTasks serverName { task with currentCount := r } →
      s2.timeouts = s.timeouts →
      ∃ t : Tick, (Shutdown._scheduleNextUpdate serverName now s2).timeouts = s.timeouts ++ [t] ∧
        t.serverName = serverName ∧
        ((Shutdown._scheduleNextUpdate serverName now s2).shutdownTasks serverName).map
          (fun task => task.interval) = some (some t.id) := by
    intro s2 ht hto
    have hs2 : s2.shutdownTasks serverName = some { task with currentCount := r } := by
      simp [ht, Dict.set]
    refine ⟨{ id := s2.nextId, serverName := serverName,
              due := now + max (max (Shutdown.ceilDiv1000 (now - task.startTime) * 1000
                - (now - task.startTime)) 0) 1 }, ?_, rfl, ?_⟩
    · simp [Shutdown._scheduleNextUpdate, hs2, hto]
    · simp [Shutdown._scheduleNextUpdate, hs2, Dict.set]
  have hunf : Shutdown._updateCountdown rconManager webSocketManager serverName now
      titleRejects s
      = Shutdown._scheduleNextUpdate serverName now
          (if (if r ≤ 5 then (toString r, "服务器即将" ++ Shutdown.actionText task.action)
               else if r ≤ 10 then
                 (Shutdown.actionText task.action ++ "倒计时", "还有 " ++ toString r ++ " 秒")
               else if r % 10 = 0 ∨ r ≤ 30 then
                 ("服务器即将" ++ Shutdown.actionText task.action,
                  "倒计时 " ++ toString r ++ " 秒")
               else ("", "")).1 ≠ "" then
             Shutdown._sendTitleToServer rconManager webSocketManager task.serverCfg
               (if r ≤ 5 then (toString r, "服务器即将" ++ Shutdown.actionText task.action)
                else if r ≤ 10 then
                  (Shutdown.actionText task.action ++ "倒计时", "还有 " ++ toString r ++ " 秒")
                else if r % 10 = 0 ∨ r ≤ 30 then
                  ("服务器即将" ++ Shutdown.actionText task.action,
                   "倒计时 " ++ toString r ++ " 秒")
                else ("", "")).1
               (if r ≤ 5 then (toString r, "服务器即将" ++ Shutdown.actionText task.action)
                else if r ≤ 10 then
                  (Shutdown.actionText task.action ++ "倒计时", "还有 " ++ toString r ++ " 秒")
                else if r % 10 = 0 ∨ r ≤ 30 then
                  ("服务器即将" ++ Shutdown.actionText task.action,
                   "倒计时 " ++ toString r ++ " 秒")
                else ("", "")).2 now titleRejects
               { s with shutdownTasks :=
                   Dict.set s.shutdownTasks serverName { task with currentCount := r } }
           else
             { s with shutdownTasks :=
                 Dict.set s.shutdownTasks serverName { task with currentCount := r } }) := by
    subst hr
    unfold Shutdown._updateCountdown
    rw [h]
    simp only []
    rw [if_pos hpos]
  have hfive : ∀ a : String, "服务器即将" ++ a ≠ "" ∧ "服务器即将" ++ a ≠ toString r := by
    intro a
    have hm : '服' ∈ ("服务器即将" ++ a).data := by
      rw [String.data_append]
      exact List.mem_append_left _ (by decide)
    constructor
    · intro he
      rw [he] at hm
      exact absurd hm (by decide)
    · exact toString_int_ne_of_nonDigit _ '服' hm (by decide) r h0
  have hten : ∀ a : String, a ++ "倒计时" ≠ "" ∧ a ++ "倒计时" ≠ toString r := by
    intro a
    have hm : '倒' ∈ (a ++ "倒计时").data := by
      rw [String.data_append]
      exact List.mem_append_right _ (by decide)
    constructor
    · intro he
      rw [he] at hm
      exact absurd hm (by decide)
    · exact toString_int_ne_of_nonDigit _ '倒' hm (by decide) r h0
  refine ⟨?_, ?_, ?_⟩
  · intro hc
    by_cases h5 : r ≤ 5
    · have hne : toString r ≠ "" := by
        interval_cases r <;> decide
      refine ⟨toString r, "服务器即将" ++ Shutdown.actionText task.action, ?_, hne, ?_, ?_⟩
      · rw [hunf]
        simp only [if_pos h5]
        rw [if_pos hne]
      · simp [h5]
      · intro h6
        omega
    · by_cases h10 : r ≤ 10
      · refine ⟨Shutdown.actionText task.action ++ "倒计时", "还有 " ++ toString r ++ " 秒",
          ?_, (hten _).1, ?_, ?_⟩
        · rw [hunf]
          simp only [if_neg h5, if_pos h10]
          rw [if_pos (hten _).1]
        · simp [h5, (hten (Shutdown.actionText task.action)).2]
        · intro _ _
          rfl
      · have hc2 : r % 10 = 0 ∨ r ≤ 30 := hc.symm
        refine ⟨"服务器即将" ++ Shutdown.actionText task.action,
          "倒计时 " ++ toString r ++ " 秒", ?_, (hfive _).1, ?_, ?_⟩
        · rw [hunf]
          simp only [if_neg h5, if_neg h10, if_pos hc2]
          rw [if_pos (hfive _).1]
        · simp [h5, (hfive (Shutdown.actionText task.action)).2]
        · intro _ h
          exact absurd h h10
  · intro hc
    have h5 : ¬ r ≤ 5 := by omega
    have h10 : ¬ r ≤ 10 := by omega
    have hc2 : ¬ (r % 10 = 0 ∨ r ≤ 30) := fun h => hc h.symm
    rw [hunf]
    simp only [if_neg h5, if_neg h10, if_neg hc2]
    simp [Shutdown.shutdown_scheduleNextUpdate_sent]
  · have hsend : ∀ (c : Prop) [Decidable c] (texts : String × String),
        ∃ t : Tick,
          (Shutdown._scheduleNextUpdate serverName now
            (if c then Shutdown._sendTitleToServer rconManager webSocketManager task.serverCfg
                texts.1 texts.2 now titleRejects
                { s with shutdownTasks :=
                    Dict.set s.shutdownTasks serverName { task with currentCount := r } }
             else { s with shutdownTasks :=
                    Dict.set s.shutdownTasks serverName { task with currentCount := r } })
            ).timeouts = s.timeouts ++ [t] ∧
          t.serverName = serverName ∧
          ((Shutdown._scheduleNextUpdate serverName now
            (if c then Shutdown._sendTitleToServer rconManager webSocketManager task.serverCfg
                texts.1 texts.2 now titleRejects
                { s with shutdownTasks :=
                    Dict.set s.shutdownTasks serverName { task with currentCount := r } }
             else { s with shutdownTasks :=
                    Dict.set s.shutdownTasks serverName { task with currentCount := r } })
            ).shutdownTasks serverName).map (fun task => task.interval) = some (some t.id) := by
      intro c _ texts
      split
      · obtain ⟨items, hs⟩ := Shutdown.shutdown_sendTitleToServer_frame rconManager
          webSocketManager task.serverCfg texts.1 texts.2 now titleRejects
          { s with shutdownTasks :=
              Dict.set s.shutdownTasks serverName { task with currentCount := r } }
        rw [hs]
        exact harm _ rfl rfl
      · exact harm _ rfl rfl
    rw [hunf]
    exact hsend _ _

/-- C26 (witness): the example countdown of 5 s, one second after its start. -/
theorem updateCountdown_cadence_witness :
    ∃ t : Tick,
      (Shutdown._updateCountdown connectedRcon connectedSocket "a" 1000 false
        countdownStarted).timeouts = countdownStarted.timeouts ++ [t] ∧
      t.serverName = "a" :=
  have h : countdownStarted.shutdownTasks "a"
      = some { serverCfg := exampleServer, action := "stop", countdown := 5, currentCount := 5,
               debugMode := false, startTime := 0, interval := some 1, finalTimeout := none } := by
    decide
  let ⟨t, h1, h2, _⟩ := (updateCountdown_cadence connectedRcon connectedSocket "a" 1000 false
    countdownStarted _ 4 h (by decide) (by decide)).2.2
  ⟨t, h1, h2⟩

/-! ## Countdown: delay of the next tick -/

/-- C27: `_scheduleNextUpdate`, run for a server with a task, arms one timeout
with the delay `d = scheduleDelay e`, `e` being the elapsed time (the runtime
runs it after 1 ms when `d` is 0).  For every elapsed time `e` in whole
milliseconds (negative ones included) `d` is at least 0 and below 1000,
`e + d` is the least multiple of 1000 that is at least `e`, and `d` is 0
exactly when `e` is a multiple of 1000. -/
theorem scheduleDelay_next_whole_second (e : Int) :
    (∀ (serverName : String) (now : Int) (s : Shutdown) (task : ShutdownTask),
      s.shutdownTasks serverName = some task → e = now - task.startTime →
      (Shutdown._scheduleNextUpdate serverName now s).timeouts
        = s.timeouts ++ [{ id := s.nextId, serverName := serverName,
                           due := now + max (Shutdown.scheduleDelay e) 1 }]) ∧
    0 ≤ Shutdown.scheduleDelay e ∧ Shutdown.scheduleDelay e < 1000 ∧
    (1000 : Int) ∣ e + Shutdown.scheduleDelay e ∧
    (∀ m : Int, (1000 : Int) ∣ m → e ≤ m → e + Shutdown.scheduleDelay e ≤ m) ∧
    (Shutdown.scheduleDelay e = 0 ↔ (1000 : Int) ∣ e) := by
  have hd : Shutdown.scheduleDelay e = (-e) % 1000 := by
    simp only [Shutdown.scheduleDelay, Shutdown.ceilDiv1000]
    rw [Int.fdiv_eq_ediv _ (by norm_num : (0 : Int) ≤ 1000)]
    omega
  refine ⟨?_, ?_⟩
  · intro serverName now s task h he
    rw [he]
    exact Shutdown.shutdown_scheduleDelay_armed serverName now s task h
  rw [hd]
  refine ⟨by omega, by omega, by omega, ?_, by omega⟩
  intro m hm hle
  obtain ⟨k, rfl⟩ := hm
  omega

/-- C27 (witness): 1500 ms after the start the next tick is due at 2000 ms. -/
theorem scheduleDelay_next_whole_second_witness :
    (1500 : Int) + Shutdown.scheduleDelay 1500 ≤ 2000 :=
  (scheduleDelay_next_whole_second 1500).2.2.2.2.1 2000 (by decide) (by decide)

/-! ## Command: parsing -/

/-- C28: `_parseCommand` returns a success for every text `args`.  With
`firstPart` the piece of `args` before its first space and `rest` the other
pieces: when `firstPart` is the `server_name` of a configured profile and
`rest` is not empty, the result has `serverName = firstPart` and `command` the
pieces of `rest` joined by spaces, and `firstPart + " " + command` is `args`;
otherwise `serverName` is `null` and `command` is `args`. -/
theorem parseCommand_lossless (config : Config) (args : String) :
    (∃ serverName command,
      ExecuteCommand._parseCommand config args = ParsedCommand.success serverName command) ∧
    ExecuteCommand.split args ≠ [] ∧
    (∀ firstPart rest, ExecuteCommand.split args = firstPart :: rest →
      ((config.mc_qq_server_list.getD []).any
          (fun server => server.server_name == firstPart) = true →
        rest ≠ [] →
        ExecuteCommand._parseCommand config args
          = ParsedCommand.success (some firstPart) (ExecuteCommand.join rest) ∧
        firstPart ++ " " ++ ExecuteCommand.join rest = args) ∧
      (¬ ((config.mc_qq_server_list.getD []).any
          (fun server => server.server_name == firstPart) = true ∧ rest ≠ []) →
        ExecuteCommand._parseCommand config args = ParsedCommand.success none args)) := by
  have hne : ExecuteCommand.split args ≠ [] := by
    simp [ExecuteCommand.split, ExecuteCommand.exec_splitChars_ne_nil]
  have hcases : ∀ firstPart rest, ExecuteCommand.split args = firstPart :: rest →
      ((config.mc_qq_server_list.getD []).any
          (fun server => server.server_name == firstPart) = true →
        rest ≠ [] →
        ExecuteCommand._parseCommand config args
          = ParsedCommand.success (some firstPart) (ExecuteCommand.join rest) ∧
        firstPart ++ " " ++ ExecuteCommand.join rest = args) ∧
      (¬ ((config.mc_qq_server_list.getD []).any
          (fun server => server.server_name == firstPart) = true ∧ rest ≠ []) →
        ExecuteCommand._parseCommand config args = ParsedCommand.success none args) := by
    intro firstPart rest hs
    have hlen : (1 < (firstPart :: rest).length) ↔ rest ≠ [] := by
      cases rest <;> simp
    constructor
    · intro hany hrest
      constructor
      · unfold ExecuteCommand._parseCommand
        rw [hs]
        simp only []
        rw [if_pos]
        simp only [Bool.and_eq_true, decide_eq_true_eq]
        exact ⟨hany, hlen.mpr hrest⟩
      · have hd := ExecuteCommand.exec_split_data args
        rw [hs] at hd
        have hj := ExecuteCommand.exec_joinChars_splitChars args.data
        rw [← hd] at hj
        cases rest with
        | nil => exact absurd rfl hrest
        | cons q ps =>
          apply String.ext
          simp only [String.data_append, ExecuteCommand.join]
          simp only [List.map_cons, ExecuteCommand.joinChars] at hj ⊢
          rw [← hj]
          simp
    · intro hnot
      unfold ExecuteCommand._parseCommand
      rw [hs]
      simp only []
      rw [if_neg]
      simp only [Bool.and_eq_true, decide_eq_true_eq]
      intro h
      exact hnot ⟨h.1, hlen.mp h.2⟩
  refine ⟨?_, hne, hcases⟩
  cases hs : ExecuteCommand.split args with
  | nil => exact absurd hs hne
  | cons firstPart rest =>
    by_cases h : (config.mc_qq_server_list.getD []).any
        (fun server => server.server_name == firstPart) = true ∧ rest ≠ []
    · exact ⟨_, _, ((hcases firstPart rest hs).1 h.1 h.2).1⟩
    · exact ⟨_, _, (hcases firstPart rest hs).2 h⟩

/-- C28 (witness): `a list` with the example configuration, whose only server
is `a`. -/
theorem parseCommand_lossless_witness :
    ExecuteCommand._parseCommand exampleConfig "a list"
      = ParsedCommand.success (some "a") (ExecuteCommand.join ["list"]) ∧
    "a" ++ " " ++ ExecuteCommand.join ["list"] = "a list" :=
  ((parseCommand_lossless exampleConfig "a list").2.2 "a" ["list"] (by decide)).1
    (by decide) (by decide)

/-! ## Outbound handlers: teardown by name -/

/-- C29: the `close` and `error` handlers of an outbound socket `ws` with
profile `serverCfg`, run while a socket `other` is registered under the name of
the profile, whether or not `other` is `ws`: the handler is
`_scheduleReconnect` (for `close` only with a code other than 1000) applied to
a manager in which the name has no handle and the state `disconnected` (for
`error`: `failed`); afterwards the name has no handle, `other` is neither open
nor connecting, and when `other` is another socket that was open or connecting
the call `other.close()` was made. -/
theorem handlers_teardown_by_name (m : WebSocketManager) (ws other code : Nat)
    (serverCfg : ServerCfg) (globalDebug : Bool) :
    m.clients.find? (fun p => p.1 == ws) = some (ws, serverCfg, globalDebug) →
    m.readyState ws ≠ ReadyState.CLOSED →
    m.activeSockets serverCfg.server_name = some other →
    (∃ mid : WebSocketManager,
      mid.activeSockets serverCfg.server_name = none ∧
      WebSocketManager._getConnectionState mid serverCfg.server_name
        = ConnectionState.DISCONNECTED ∧
      WebSocketManager.step m (WebSocketManager.Event.socketClosed ws code)
        = (if code ≠ 1000 then WebSocketManager._scheduleReconnect serverCfg globalDebug mid
           else mid)) ∧
    (∃ mid : WebSocketManager,
      mid.activeSockets serverCfg.server_name = none ∧
      WebSocketManager._getConnectionState mid serverCfg.server_name
        = ConnectionState.FAILED ∧
      WebSocketManager.step m (WebSocketManager.Event.socketError ws)
        = WebSocketManager._scheduleReconnect serverCfg globalDebug mid) ∧
    (∀ ev, ev = WebSocketManager.Event.socketClosed ws code ∨
        ev = WebSocketManager.Event.socketError ws →
      (WebSocketManager.step m ev).activeSockets serverCfg.server_name = none ∧
      (WebSocketManager.step m ev).readyState other ≠ ReadyState.OPEN ∧
      (WebSocketManager.step m ev).readyState other ≠ ReadyState.CONNECTING ∧
      (other ≠ ws →
        m.readyState other = ReadyState.OPEN ∨ m.readyState other = ReadyState.CONNECTING →
        (WebSocketManager.step m ev).closeCalls = m.closeCalls ++ [(other, none)])) := by
  intro hfind hready hother
  have hclose : WebSocketManager.step m (WebSocketManager.Event.socketClosed ws code)
      = WebSocketManager._establishClientConnection_onClose serverCfg globalDebug code
          (WebSocketManager.setReadyState ws ReadyState.CLOSED m) := by
    simp [WebSocketManager.step, hfind, hready]
  have herror : WebSocketManager.step m (WebSocketManager.Event.socketError ws)
      = WebSocketManager._establishClientConnection_onError serverCfg globalDebug
          (WebSocketManager.setReadyState ws ReadyState.CLOSING m) := by
    simp [WebSocketManager.step, hfind, hready]
  have hmid : ∀ (r : ReadyState) (s : ConnectionState),
      (WebSocketManager._setConnectionState serverCfg.server_name s
        (WebSocketManager._cleanupConnection serverCfg.server_name
          (WebSocketManager.setReadyState ws r m))).activeSockets serverCfg.server_name = none ∧
      WebSocketManager._getConnectionState
        (WebSocketManager._setConnectionState serverCfg.server_name s
          (WebSocketManager._cleanupConnection serverCfg.server_name
            (WebSocketManager.setReadyState ws r m))) serverCfg.server_name = s := by
    intro r s
    simp [WebSocketManager._setConnectionState, WebSocketManager._getConnectionState,
      WebSocketManager.ws_cleanupConnection_activeSockets, Dict.delete, Dict.set]
  have hsock : ∀ (r : ReadyState) (s : ConnectionState) (b : Bool),
      r ≠ ReadyState.OPEN → r ≠ ReadyState.CONNECTING →
      ∀ m2, m2 = (if b = true then WebSocketManager._scheduleReconnect serverCfg globalDebug
          (WebSocketManager._setConnectionState serverCfg.server_name s
            (WebSocketManager._cleanupConnection serverCfg.server_name
              (WebSocketManager.setReadyState ws r m)))
        else (WebSocketManager._setConnectionState serverCfg.server_name s
            (WebSocketManager._cleanupConnection serverCfg.server_name
              (WebSocketManager.setReadyState ws r m)))) →
      m2.activeSockets serverCfg.server_name = none ∧
      m2.readyState other ≠ ReadyState.OPEN ∧
      m2.readyState other ≠ ReadyState.CONNECTING ∧
      (other ≠ ws →
        m.readyState other = ReadyState.OPEN ∨ m.readyState other = ReadyState.CONNECTING →
        m2.closeCalls = m.closeCalls ++ [(other, none)]) := by
    intro r s b hr1 hr2 m2 hm2
    have h0 : (WebSocketManager.setReadyState ws r m).activeSockets serverCfg.server_name
        = some other := hother
    have hh := WebSocketManager.ws_cleanupConnection_handle serverCfg.server_name
      (WebSocketManager.setReadyState ws r m) other h0
    have hfr := WebSocketManager.ws_scheduleReconnect_frame serverCfg globalDebug
      (WebSocketManager._setConnectionState serverCfg.server_name s
        (WebSocketManager._cleanupConnection serverCfg.server_name
          (WebSocketManager.setReadyState ws r m)))
    have hfields : m2.activeSockets = (WebSocketManager._cleanupConnection serverCfg.server_name
          (WebSocketManager.setReadyState ws r m)).activeSockets ∧
        m2.readyState = (WebSocketManager._cleanupConnection serverCfg.server_name
          (WebSocketManager.setReadyState ws r m)).readyState ∧
        m2.closeCalls = (WebSocketManager._cleanupConnection serverCfg.server_name
          (WebSocketManager.setReadyState ws r m)).closeCalls := by
      subst hm2
      cases b
      · exact ⟨rfl, rfl, rfl⟩
      · simp only [if_true]
        exact ⟨hfr.1, hfr.2.1, hfr.2.2.1⟩
    rw [hfields.1, hfields.2.1, hfields.2.2, hh.1, hh.2,
      WebSocketManager.ws_cleanupConnection_activeSockets]
    refine ⟨by simp [Dict.delete], ?_, ?_, ?_⟩
    · by_cases hw : other = ws
      · subst hw
        simp [WebSocketManager.setReadyState, hr1, hr2]
      · by_cases ho : m.readyState other = ReadyState.OPEN
          ∨ m.readyState other = ReadyState.CONNECTING
        · simp [WebSocketManager.setReadyState, WebSocketManager.socketClose, hw, ho]
        · simp only [not_or] at ho
          simp [WebSocketManager.setReadyState, hw, ho.1, ho.2]
    · by_cases hw : other = ws
      · subst hw
        simp [WebSocketManager.setReadyState, hr1, hr2]
      · by_cases ho : m.readyState other = ReadyState.OPEN
          ∨ m.readyState other = ReadyState.CONNECTING
        · simp [WebSocketManager.setReadyState, WebSocketManager.socketClose, hw, ho]
        · simp only [not_or] at ho
          simp [WebSocketManager.setReadyState, hw, ho.1, ho.2]
    · intro hw ho
      simp [WebSocketManager.setReadyState, hw, ho]
  refine ⟨⟨_, (hmid ReadyState.CLOSED ConnectionState.DISCONNECTED).1,
      (hmid ReadyState.CLOSED ConnectionState.DISCONNECTED).2, ?_⟩,
    ⟨_, (hmid ReadyState.CLOSING ConnectionState.FAILED).1,
      (hmid ReadyState.CLOSING ConnectionState.FAILED).2, ?_⟩, ?_⟩
  · rw [hclose]
    rfl
  · rw [herror]
    rfl
  · intro ev hev
    rcases hev with rfl | rfl
    · apply hsock ReadyState.CLOSED ConnectionState.DISCONNECTED (decide (code ≠ 1000))
        (by decide) (by decide)
      rw [hclose]
      by_cases hc : code = 1000 <;>
        simp [WebSocketManager._establishClientConnection_onClose, hc]
    · apply hsock ReadyState.CLOSING ConnectionState.FAILED true (by decide) (by decide)
      rw [herror]
      rfl

/-- C29 (witness): the late `close` of socket 0 closes and unregisters
socket 1. -/
theorem handlers_teardown_by_name_witness :
    supersededSocket.activeSockets "a" = some 1 ∧
    (WebSocketManager.step supersededSocket
      (WebSocketManager.Event.socketClosed 0 1006)).activeSockets "a" = none ∧
    (WebSocketManager.step supersededSocket
      (WebSocketManager.Event.socketClosed 0 1006)).closeCalls
      = supersededSocket.closeCalls ++ [(1, none)] :=
  have h := (handlers_teardown_by_name supersededSocket 0 1 1006 exampleServer false
    (by decide) (by decide) (by decide)).2.2 _ (Or.inl rfl)
  ⟨by decide, h.1, h.2.2.2 (by decide) (by decide)⟩

/-! ## Outbound handlers: error followed by close -/

/-- C30: in every state reached from a fresh manager, for an outbound socket
`ws` that is not closed and whose profile is enabled, the `error` event of `ws`
followed by its `close` event with a code other than 1000 raises the attempt
counter `a` of the server to `a + 2` and leaves exactly one armed timeout for
the server, the recorded one: the timeout armed by the `error` handler is no
longer armed, and the delay of the armed one is `_calculateReconnectDelay
(a + 2)` when `a + 2` is at most the max-attempts value and 300000 otherwise. -/
theorem error_then_close_counts_twice (urlRejected : String → Bool)
    (events : List WebSocketManager.Event) (ws code : Nat) (serverCfg : ServerCfg)
    (globalDebug : Bool) :
    (WebSocketManager.run urlRejected events).clients.find? (fun p => p.1 == ws)
      = some (ws, serverCfg, globalDebug) →
    serverCfg.ws_able = true →
    (WebSocketManager.run urlRejected events).readyState ws ≠ ReadyState.CLOSED →
    code ≠ 1000 →
    (WebSocketManager.step (WebSocketManager.step (WebSocketManager.run urlRejected events)
        (WebSocketManager.Event.socketError ws))
        (WebSocketManager.Event.socketClosed ws code)).reconnectAttempts serverCfg.server_name
      = some (((WebSocketManager.run urlRejected events).reconnectAttempts
          serverCfg.server_name).getD 0 + 2) ∧
    (∃ t : Timeout,
      armedFor (WebSocketManager.step (WebSocketManager.step
          (WebSocketManager.run urlRejected events) (WebSocketManager.Event.socketError ws))
          (WebSocketManager.Event.socketClosed ws code)).timeouts serverCfg.server_name = [t] ∧
      (WebSocketManager.step (WebSocketManager.step
          (WebSocketManager.run urlRejected events) (WebSocketManager.Event.socketError ws))
          (WebSocketManager.Event.socketClosed ws code)).reconnectTimers serverCfg.server_name
        = some t ∧
      t.id = (WebSocketManager.run urlRejected events).nextTimeout + 1 ∧
      t.delay = (if ((WebSocketManager.run urlRejected events).reconnectAttempts
            serverCfg.server_name).getD 0 + 2 ≤ orThree serverCfg.ws_max_attempts
          then WebSocketManager._calculateReconnectDelay
            (((WebSocketManager.run urlRejected events).reconnectAttempts
              serverCfg.server_name).getD 0 + 2)
          else 300000)) ∧
    (∃ t : Timeout, t.id = (WebSocketManager.run urlRejected events).nextTimeout ∧
      t ∈ (WebSocketManager.step (WebSocketManager.run urlRejected events)
          (WebSocketManager.Event.socketError ws)).timeouts) ∧
    (∀ t ∈ (WebSocketManager.step (WebSocketManager.step
          (WebSocketManager.run urlRejected events) (WebSocketManager.Event.socketError ws))
          (WebSocketManager.Event.socketClosed ws code)).timeouts,
      t.id ≠ (WebSocketManager.run urlRejected events).nextTimeout) := by
  intro hfind hable hready hcode
  have hinv := WebSocketManager.ws_run_inv urlRejected events
  generalize WebSocketManager.run urlRejected events = m at hfind hready hinv ⊢
  have herror : WebSocketManager.step m (WebSocketManager.Event.socketError ws)
      = WebSocketManager._scheduleReconnect serverCfg globalDebug
          (WebSocketManager._setConnectionState serverCfg.server_name ConnectionState.FAILED
            (WebSocketManager._cleanupConnection serverCfg.server_name
              (WebSocketManager.setReadyState ws ReadyState.CLOSING m))) := by
    simp [WebSocketManager.step, hfind, hready,
      WebSocketManager._establishClientConnection_onError]
  have h1 := WebSocketManager.ws_dropAndSchedule_fields serverCfg globalDebug
    ConnectionState.FAILED (WebSocketManager.setReadyState ws ReadyState.CLOSING m) hable
    (by decide) (by decide)
  rw [← herror] at h1
  generalize hm1 : WebSocketManager.step m (WebSocketManager.Event.socketError ws) = m1
    at h1 herror
  have hclients : m1.clients = m.clients := by
    rw [herror, (WebSocketManager.ws_scheduleReconnect_frame _ _ _).2.2.2]
    simp only [WebSocketManager._setConnectionState]
    rw [(WebSocketManager.ws_cleanupConnection_frame _ _).2.2]
    rfl
  have hready1 : m1.readyState ws ≠ ReadyState.CLOSED := by
    rw [herror, (WebSocketManager.ws_scheduleReconnect_frame _ _ _).2.1]
    simp only [WebSocketManager._setConnectionState]
    rcases WebSocketManager.ws_cleanupConnection_readyState serverCfg.server_name
      (WebSocketManager.setReadyState ws ReadyState.CLOSING m) ws with h | h
    · rw [h]
      simp [WebSocketManager.setReadyState]
    · rw [h]
      decide
  have hclose : WebSocketManager.step m1 (WebSocketManager.Event.socketClosed ws code)
      = WebSocketManager._scheduleReconnect serverCfg globalDebug
          (WebSocketManager._setConnectionState serverCfg.server_name
            ConnectionState.DISCONNECTED
            (WebSocketManager._cleanupConnection serverCfg.server_name
              (WebSocketManager.setReadyState ws ReadyState.CLOSED m1))) := by
    simp [WebSocketManager.step, hclients, hfind, hready1,
      WebSocketManager._establishClientConnection_onClose, hcode]
  have h2 := WebSocketManager.ws_dropAndSchedule_fields serverCfg globalDebug
    ConnectionState.DISCONNECTED (WebSocketManager.setReadyState ws ReadyState.CLOSED m1) hable
    (by decide) (by decide)
  rw [← hclose] at h2
  have hinv2 : WebSocketManager.Inv False
      (WebSocketManager.step m1 (WebSocketManager.Event.socketClosed ws code)) := by
    rw [← hm1]
    exact WebSocketManager.ws_step_inv _ _
      (WebSocketManager.ws_step_inv _ _ hinv (fun hs => absurd hs id)) (fun hs => absurd hs id)
  generalize WebSocketManager.step m1 (WebSocketManager.Event.socketClosed ws code) = m2
    at h2 hinv2 ⊢
  have ha1 : (WebSocketManager.setReadyState ws ReadyState.CLOSED m1).reconnectAttempts
      serverCfg.server_name = some ((m.reconnectAttempts serverCfg.server_name).getD 0 + 1) :=
    h1.1
  have hn1 : (WebSocketManager.setReadyState ws ReadyState.CLOSED m1).nextTimeout
      = m.nextTimeout + 1 := h1.2.2.2
  rw [ha1, hn1] at h2
  simp only [Option.getD_some, Nat.add_assoc, Nat.reduceAdd] at h2
  obtain ⟨t2, hid, hdelay, hcfg, hrec2, hto2⟩ : ∃ t : Timeout,
      t.id = m.nextTimeout + 1 ∧
      t.delay = (if (m.reconnectAttempts serverCfg.server_name).getD 0 + 2
          ≤ orThree serverCfg.ws_max_attempts
        then WebSocketManager._calculateReconnectDelay
          ((m.reconnectAttempts serverCfg.server_name).getD 0 + 2)
        else 300000) ∧
      t.serverCfg = serverCfg ∧
      m2.reconnectTimers serverCfg.server_name = some t ∧
      m2.timeouts = (WebSocketManager._cleanupConnection serverCfg.server_name
        (WebSocketManager.setReadyState ws ReadyState.CLOSED m1)).timeouts ++ [t] :=
    ⟨_, rfl, rfl, rfl, h2.2.1, h2.2.2.1⟩
  obtain ⟨t1, hid1, hto1⟩ : ∃ t : Timeout, t.id = m.nextTimeout ∧
      m1.timeouts = (WebSocketManager._cleanupConnection serverCfg.server_name
        (WebSocketManager.setReadyState ws ReadyState.CLOSING m)).timeouts ++ [t] :=
    ⟨_, rfl, h1.2.2.1⟩
  refine ⟨h2.1, ⟨t2, ?_, hrec2, hid, hdelay⟩, ⟨t1, hid1, ?_⟩, ?_⟩
  · have hsub := hinv2.wsRecorded serverCfg.server_name
    rw [hrec2] at hsub
    have hmem : t2 ∈ armedFor m2.timeouts serverCfg.server_name := by
      rw [hto2]
      simp [armedFor, hcfg]
    simp only [Option.toList] at hsub
    rcases List.sublist_singleton.mp hsub with h | h
    · rw [h] at hmem
      exact absurd hmem (List.not_mem_nil _)
    · exact h
  · rw [hto1]
    simp
  · intro t ht
    rw [hto2] at ht
    rcases List.mem_append.mp ht with ht | ht
    · rw [WebSocketManager.ws_cleanupConnection_timeouts] at ht
      have hrec : (WebSocketManager.setReadyState ws ReadyState.CLOSED m1).reconnectTimers
          serverCfg.server_name = _ := h1.2.1
      rw [hrec] at ht
      simp only [List.mem_filter] at ht
      simpa using ht.2
    · simp only [List.mem_singleton] at ht
      subst ht
      omega

/-- C30 (witness): the connected example server, whose counter is 0, after
`error` and `close` with code 1006 of its socket. -/
theorem error_then_close_counts_twice_witness :
    (WebSocketManager.step (WebSocketManager.step connectedSocket
        (WebSocketManager.Event.socketError 0))
        (WebSocketManager.Event.socketClosed 0 1006)).reconnectAttempts "a" = some 2 :=
  (error_then_close_counts_twice (fun _ => false)
    [WebSocketManager.Event.construct (some exampleConfig),
     WebSocketManager.Event.socketOpen 0] 0 1006 exampleServer false
    (by decide) (by decide) (by decide) (by decide)).1
